import Mathlib

/-!
Shallow embedding of `src/libafl/src/events/launcher.rs` (the LibAFL launcher).

Modelling conventions, all read off the Rust source:

* Machine integers (`u64`, `u16`, `usize`, pids) are modelled as `Nat`;
  `waitpid` statuses as `Int`.  No arithmetic in the launcher can overflow
  in any reachable configuration, so no modular reduction is needed.
* Fallible operations of the outside world (fork, spawn, `File::create`,
  `get_core_ids`, endpoint builders, the user callbacks, `kill`, `wait`)
  are resolved by an explicit `World` oracle.  `fork()` is treated as the
  spec's tagged branch point: the oracle decides, per fork call of the
  process being modelled, whether this process continues as the parent
  (obtaining a child pid) or as the freshly duplicated child.  One
  evaluation of a launch function therefore models the control flow of one
  OS process.
* A `.unwrap()` on a failing operation is modelled as `Outcome.panicked`,
  a `?` on a failing operation as `Outcome.err` with a typed error.
* Every externally visible action is recorded in an `Event` trace:
  process creation, sleeps, `dup2` redirections, endpoint construction,
  callback invocation, signalling and waiting.
* The Rust loops iterate over `get_core_ids()` (which yields core ids
  `0, 1, ..., num_cores-1` in order) and skip ids not contained in
  `cores.ids`; this is embedded as iteration over
  `(List.range numCores).filter (fun id => decide (id ∈ cores))`,
  which processes exactly the same ids in the same order.
-/

namespace LauncherModel

/-- Typed errors (`libafl::Error`) as far as the launcher distinguishes them. -/
inductive Err where
  | illegalArgument (msg : String)
  | osError (msg : String)
  | parseError (msg : String)
  | shuttingDown
  | reported (code : Nat)
  deriving DecidableEq, Repr

/-- Result of one launcher invocation in one process: a normal return value
of `launch`, or a Rust panic (a failing `.unwrap()`). -/
inductive Outcome where
  | ok
  | err (e : Err)
  | panicked (msg : String)
  deriving DecidableEq, Repr

/-- Target descriptor of a `dup2` redirection. -/
inductive Fd where
  | fdOut
  | fdErr
  deriving DecidableEq, Repr

/-- Stdio wiring of a re-exec spawned child: untouched (inherits the console),
`Stdio::null()`, or `Stdio::inherit()` of the (possibly redirected) parent. -/
inductive StdioMode where
  | console
  | nullDev
  | inheritSelf
  deriving DecidableEq, Repr

/-- Observable actions of a launcher invocation, in program order. -/
inductive Event where
  | fileCreate (name : String)
  | preFork
  | postFork (isChild : Bool)
  | forkWorker (pid core : Nat)
  | forkCentralBroker (pid : Nat)
  | spawnChild (pid core : Nat) (stdio : StdioMode)
  | setEnvMarker (core : Nat)
  | sleep (ms : Nat)
  | dup2 (file : String) (fd : Fd)
  | buildClientEndpoint (core : Nat)
  | buildBrokerEndpoint (quota : Nat)
  | buildCentralBroker (port : Nat)
  | buildCentralClient (core : Nat) (isMain : Bool)
  | centralBrokerLoop
  | runClientCb (core : Nat)
  | runMainCb (core : Nat)
  | runSecondaryCb (core : Nat)
  | killSignal (pid : Nat)
  | waitPid (pid : Nat) (status : Int)
  | waitChild (pid : Nat) (success : Bool)
  | logBadExit (pid : Nat)
  deriving DecidableEq, Repr

/-- Outcome of one `fork()` call as seen by the process being modelled. -/
inductive ForkRes where
  | parent (pid : Nat)
  | child
  | fail (msg : String)
  deriving DecidableEq, Repr

/-- Value of an environment variable: absent, present with a string value,
or present but not valid unicode. -/
inductive EnvVal where
  | notPresent
  | present (s : String)
  | nonUnicode
  deriving DecidableEq, Repr

/-- The process environment the launcher inspects. -/
structure Env where
  /-- `LIBAFL_DEBUG_OUTPUT` is set. -/
  debugOutput : Bool
  /-- Value of `AFL_LAUNCHER_CLIENT` (re-exec role marker). -/
  launcherClient : EnvVal
  deriving DecidableEq, Repr

/-- The `Launcher` configuration fields relevant to `launch_with_hooks`.
`runClient` is `run_client.is_some()`; the callback's behaviour lives in
the `World` oracle. -/
structure Config where
  cores : List Nat
  runClient : Bool
  brokerPort : Nat
  stdoutFile : Option String
  stderrFile : Option String
  launchDelay : Nat
  spawnBroker : Bool
  deriving DecidableEq, Repr

/-- The `CentralizedLauncher` configuration fields relevant to
`launch_generic`. -/
structure CenConfig where
  cores : List Nat
  secondaryRunClient : Bool
  mainRunClient : Bool
  brokerPort : Nat
  centralizedBrokerPort : Nat
  stdoutFile : Option String
  stderrFile : Option String
  launchDelay : Nat
  spawnBroker : Bool
  deriving DecidableEq, Repr

/-- Oracle for everything outside the launcher: OS calls, endpoint
builders, and the user-supplied callbacks (indexed by bound core). -/
structure World where
  numCores : Nat
  coreIdsOk : Bool
  fileCreateOk : String → Bool
  dup2Ok : Bool
  forkRes : Nat → ForkRes
  spawnErr : Nat → Option Err
  spawnPid : Nat → Nat
  clientEndpointErr : Nat → Option Err
  runClientErr : Nat → Option Err
  brokerErr : Option Err
  centralBrokerBuildErr : Option Err
  centralClientBuildErr : Nat → Option Err
  mainErr : Nat → Option Err
  secondaryErr : Nat → Option Err
  killOk : Nat → Bool
  waitStatus : Nat → Int
  waitOk : Nat → Bool
  waitSuccess : Nat → Bool

/-- The machine core ids the spawn loops act on: ids `0 ..< numCores`
restricted to the requested core set, in increasing order
(`core_ids.iter().enumerate()` filtered by membership in `cores.ids`). -/
def selected (cores : List Nat) (numCores : Nat) : List Nat :=
  (List.range numCores).filter (fun id => decide (id ∈ cores))

/-- Opening one configured output file (`stdout_file.map(File::create)`);
the `Bool` is `false` when the creation fails (a `.unwrap()` panic site). -/
def openOutFile (w : World) : Option String → List Event × Bool
  | none => ([], true)
  | some f => ([.fileCreate f], w.fileCreateOk f)

/-- Worker-side stdout/stderr redirection, `launcher.rs` lines 256-266 and
708-717: skipped entirely under the debug override; with a stdout file the
stderr stream falls back to the stdout file when no stderr file is set. -/
def childRedirect (debug : Bool) (stdoutFile stderrFile : Option String)
    (dup2Ok : Bool) : List Event × Option Err :=
  if debug then ([], none)
  else
    match stdoutFile with
    | none => ([], none)
    | some f =>
      if dup2Ok then
        match stderrFile with
        | some g => ([.dup2 f .fdOut, .dup2 g .fdErr], none)
        | none => ([.dup2 f .fdOut, .dup2 f .fdErr], none)
      else ([.dup2 f .fdOut], some (.osError "dup2 failed"))

/-- The `ForkResult::Child` arm of `Launcher::launch_with_hooks` (fork
path), lines 247-283: post-fork hook, staggered sleep, redirection, client
endpoint, then the consumed `run_client` callback; the child returns its
result directly and never re-enters the loop. -/
def forkChildRun (cfg : Config) (debug : Bool) (w : World)
    (index core : Nat) : List Event × Outcome :=
  let ev0 : List Event := [.preFork, .postFork true, .sleep (index * cfg.launchDelay)]
  match childRedirect debug cfg.stdoutFile cfg.stderrFile w.dup2Ok with
  | (evR, some e) => (ev0 ++ evR, .err e)
  | (evR, none) =>
    match w.clientEndpointErr core with
    | some e => (ev0 ++ evR ++ [.buildClientEndpoint core], .err e)
    | none =>
      if cfg.runClient then
        (ev0 ++ evR ++ [.buildClientEndpoint core, .runClientCb core],
          match w.runClientErr core with
          | none => .ok
          | some e => .err e)
      else
        (ev0 ++ evR ++ [.buildClientEndpoint core],
          .panicked "called Option::unwrap on None")

/-- Loop state of the fork-path spawn loop: number of `fork()` calls this
process has made, the stagger index, and the recorded child pids. -/
structure LoopSt where
  forkCount : Nat
  index : Nat
  handles : List Nat
  deriving DecidableEq, Repr

/-- The fork-path spawn loop (lines 232-286) over the selected core ids.
`Sum.inl` is the parent falling out of the loop; `Sum.inr` is an early
return (fork failure, or the child arm). -/
def forkLoop (cfg : Config) (debug : Bool) (w : World) :
    List Nat → LoopSt → List Event × (LoopSt ⊕ Outcome)
  | [], st => ([], .inl st)
  | core :: rest, st =>
    match w.forkRes st.forkCount with
    | .fail m => ([.preFork], .inr (.err (.osError m)))
    | .parent pid =>
      let r := forkLoop cfg debug w rest
        ⟨st.forkCount + 1, st.index + 1, st.handles ++ [pid]⟩
      (Event.preFork :: Event.forkWorker pid core :: Event.postFork false :: r.1, r.2)
    | .child =>
      let r := forkChildRun cfg debug w (st.index + 1) core
      (r.1, .inr r.2)

/-- The `spawn_broker = false` branch of the fork paths (lines 317-327 and
796-806): `waitpid` every recorded handle in order, logging non-zero
statuses; `waitpid` itself has no failure path here. -/
def forkWaitAll (w : World) : List Nat → List Event
  | [] => []
  | pid :: rest =>
    Event.waitPid pid (w.waitStatus pid) ::
      ((if w.waitStatus pid ≠ 0 then [Event.logBadExit pid] else []) ++ forkWaitAll w rest)

/-- `Launcher::launch_with_hooks`, fork path (lines 203-331), for the
process whose fork outcomes `w.forkRes` describes. -/
def launchWithHooksFork (cfg : Config) (env : Env) (w : World) :
    List Event × Outcome :=
  if cfg.cores.isEmpty then
    ([], .err (.illegalArgument "No cores to spawn on given, cannot launch anything."))
  else if !cfg.runClient then
    ([], .err (.illegalArgument "No client callback provided"))
  else if !w.coreIdsOk then
    ([], .panicked "get_core_ids failed")
  else
    let o1 := openOutFile w cfg.stdoutFile
    if !o1.2 then (o1.1, .panicked "File::create failed")
    else
      let o2 := openOutFile w cfg.stderrFile
      if !o2.2 then (o1.1 ++ o2.1, .panicked "File::create failed")
      else
        let lr := forkLoop cfg env.debugOutput w (selected cfg.cores w.numCores) ⟨0, 0, []⟩
        let pre := o1.1 ++ o2.1 ++ lr.1
        match lr.2 with
        | .inr out => (pre, out)
        | .inl st =>
          if cfg.spawnBroker then
            match w.brokerErr with
            | some e => (pre ++ [.buildBrokerEndpoint cfg.cores.length], .err e)
            | none =>
              (pre ++ [.buildBrokerEndpoint cfg.cores.length]
                ++ st.handles.map Event.killSignal, .ok)
          else
            (pre ++ forkWaitAll w st.handles, .ok)

/-- The integer parse of the env marker value
(`core_conf.parse::<usize>()`), modelled over the string's characters:
a non-empty all-digit string parses to its decimal value. -/
def parseUsize (s : String) : Option Nat :=
  if s.data ≠ [] ∧ s.data.all Char.isDigit then
    some (s.data.foldl (fun n c => n * 10 + (c.toNat - 48)) 0)
  else none

/-- Re-exec path, parent-side stdio setup (lines 369-389): only when the
debug override is absent, the redirection files are created and the
parent's own stdout/stderr are redirected to them. -/
def reexecSelfRedirect (cfg : Config) (w : World) (debug : Bool) :
    List Event × Option Outcome :=
  if debug then ([], none)
  else
    let o1 := openOutFile w cfg.stdoutFile
    if !o1.2 then (o1.1, some (.panicked "File::create failed"))
    else
      let o2 := openOutFile w cfg.stderrFile
      if !o2.2 then (o1.1 ++ o2.1, some (.panicked "File::create failed"))
      else
        match cfg.stdoutFile with
        | none => (o1.1 ++ o2.1, none)
        | some f =>
          if w.dup2Ok then
            match cfg.stderrFile with
            | some g => (o1.1 ++ o2.1 ++ [.dup2 f .fdOut, .dup2 g .fdErr], none)
            | none => (o1.1 ++ o2.1 ++ [.dup2 f .fdOut, .dup2 f .fdErr], none)
          else (o1.1 ++ o2.1 ++ [.dup2 f .fdOut], some (.err (.osError "dup2 failed")))

/-- Stdio wiring handed to a re-exec spawned child (lines 394-414):
untouched under the debug override, otherwise `Stdio::inherit()` when any
redirection file is configured and `Stdio::null()` when none is. -/
def reexecStdio (cfg : Config) (debug : Bool) : StdioMode :=
  if debug then .console
  else if cfg.stdoutFile.isSome || cfg.stderrFile.isSome then .inheritSelf
  else .nullDev

/-- Re-exec spawn loop (lines 391-417) over the selected core ids: the
parent sleeps `id * launch_delay`, sets the env marker to the core id and
re-launches its own executable. `Sum.inr` is a failed
`startable_self()? / spawn()?`. -/
def reexecSpawnLoop (cfg : Config) (env : Env) (w : World) :
    List Nat → List Nat → List Event × (List Nat ⊕ Outcome)
  | [], handles => ([], .inl handles)
  | core :: rest, handles =>
    let ev : List Event := [.sleep (core * cfg.launchDelay), .setEnvMarker core]
    match w.spawnErr core with
    | some e => (ev, .inr (.err e))
    | none =>
      let pid := w.spawnPid core
      let r := reexecSpawnLoop cfg env w rest (handles ++ [pid])
      (ev ++ Event.spawnChild pid core (reexecStdio cfg env.debugOutput) :: r.1, r.2)

/-- Re-exec shutdown after the broker exits (lines 450-452):
`handle.kill()?` propagates a kill failure and aborts the loop, leaving
the remaining handles unsignalled. -/
def reexecKillAll (w : World) : List Nat → List Event × Outcome
  | [] => ([], .ok)
  | pid :: rest =>
    if w.killOk pid then
      let r := reexecKillAll w rest
      (Event.killSignal pid :: r.1, r.2)
    else ([.killSignal pid], .err (.osError "kill failed"))

/-- Re-exec `spawn_broker = false` branch (lines 455-460): `handle.wait()?`
on every recorded child, logging unsuccessful exit statuses. -/
def reexecWaitAll (w : World) : List Nat → List Event × Outcome
  | [] => ([], .ok)
  | pid :: rest =>
    if w.waitOk pid then
      let r := reexecWaitAll w rest
      ((Event.waitChild pid (w.waitSuccess pid) ::
          (if w.waitSuccess pid then [] else [Event.logBadExit pid])) ++ r.1, r.2)
    else ([], .err (.osError "wait failed"))

/-- `Launcher::launch_with_hooks`, re-exec path (lines 336-464).  The role
is resolved from `AFL_LAUNCHER_CLIENT`: present means this invocation is a
worker (no spawning at all), absent means it is the orchestrating parent.
Note that this path never validates `run_client`, and checks the empty
core set only after the spawn loop. -/
def launchWithHooksReexec (cfg : Config) (env : Env) (w : World) :
    List Event × Outcome :=
  match env.launcherClient with
  | .nonUnicode => ([], .panicked "Env variables are broken, received non-unicode!")
  | .present s =>
    match parseUsize s with
    | none => ([], .err (.parseError s))
    | some core =>
      match w.clientEndpointErr core with
      | some e => ([.buildClientEndpoint core], .err e)
      | none =>
        if cfg.runClient then
          ([.buildClientEndpoint core, .runClientCb core],
            match w.runClientErr core with
            | none => .ok
            | some e => .err e)
        else ([.buildClientEndpoint core], .panicked "called Option::unwrap on None")
  | .notPresent =>
    if !w.coreIdsOk then ([], .panicked "get_core_ids failed")
    else
      match reexecSelfRedirect cfg w env.debugOutput with
      | (evS, some out) => (evS, out)
      | (evS, none) =>
        let lr := reexecSpawnLoop cfg env w (selected cfg.cores w.numCores) []
        let pre := evS ++ lr.1
        match lr.2 with
        | .inr out => (pre, out)
        | .inl handles =>
          if cfg.cores.isEmpty then
            (pre, .err (.illegalArgument "No cores to spawn on given, cannot launch anything."))
          else if cfg.spawnBroker then
            match w.brokerErr with
            | some e => (pre ++ [.buildBrokerEndpoint cfg.cores.length], .err e)
            | none =>
              let kr := reexecKillAll w handles
              (pre ++ [.buildBrokerEndpoint cfg.cores.length] ++ kr.1, kr.2)
          else
            let wr := reexecWaitAll w handles
            (pre ++ wr.1, wr.2)

/-- Loop state of the centralized spawn loop; `mainTaken` and
`secondaryTaken` record which of the one-shot builder/callback pairs have
already been moved out of the configuration in this process. -/
structure CenSt where
  forkCount : Nat
  index : Nat
  handles : List Nat
  mainTaken : Bool
  secondaryTaken : Bool
  deriving DecidableEq, Repr

/-- The centralized spawn loop, `CentralizedLauncher::launch_generic`
lines 690-768.  The `ForkResult::Child` arm ends in `}?`: a worker whose
callback returns `Ok` falls through and continues this very loop (and
later the broker/wait branch) inside the child process, which is why the
child arm recurses instead of returning. -/
def cenLoop (cfg : CenConfig) (debug : Bool) (w : World) :
    List Nat → CenSt → List Event × (CenSt ⊕ Outcome)
  | [], st => ([], .inl st)
  | core :: rest, st =>
    match w.forkRes st.forkCount with
    | .fail m => ([.preFork], .inr (.err (.osError m)))
    | .parent pid =>
      let r := cenLoop cfg debug w rest
        { st with forkCount := st.forkCount + 1, index := st.index + 1,
                  handles := st.handles ++ [pid] }
      (Event.preFork :: Event.forkWorker pid core :: Event.postFork false :: r.1, r.2)
    | .child =>
      let index := st.index + 1
      let ev0 : List Event := [.preFork, .postFork true, .sleep (index * cfg.launchDelay)]
      match childRedirect debug cfg.stdoutFile cfg.stderrFile w.dup2Ok with
      | (evR, some e) => (ev0 ++ evR, .inr (.err e))
      | (evR, none) =>
        if index = 1 then
          if st.mainTaken then
            (ev0 ++ evR, .inr (.panicked "called Option::unwrap on None"))
          else
            match w.clientEndpointErr core with
            | some e => (ev0 ++ evR ++ [.buildClientEndpoint core], .inr (.err e))
            | none =>
              match w.centralClientBuildErr core with
              | some e =>
                (ev0 ++ evR ++ [.buildClientEndpoint core, .buildCentralClient core true],
                  .inr (.err e))
              | none =>
                if !cfg.mainRunClient then
                  (ev0 ++ evR ++ [.buildClientEndpoint core, .buildCentralClient core true],
                    .inr (.panicked "called Option::unwrap on None"))
                else
                  let evC := ev0 ++ evR ++
                    [.buildClientEndpoint core, .buildCentralClient core true, .runMainCb core]
                  match w.mainErr core with
                  | some e => (evC, .inr (.err e))
                  | none =>
                    let r := cenLoop cfg debug w rest
                      ⟨st.forkCount + 1, index, st.handles, true, st.secondaryTaken⟩
                    (evC ++ r.1, r.2)
        else
          if st.secondaryTaken then
            (ev0 ++ evR, .inr (.panicked "called Option::unwrap on None"))
          else
            match w.clientEndpointErr core with
            | some e => (ev0 ++ evR ++ [.buildClientEndpoint core], .inr (.err e))
            | none =>
              match w.centralClientBuildErr core with
              | some e =>
                (ev0 ++ evR ++ [.buildClientEndpoint core, .buildCentralClient core false],
                  .inr (.err e))
              | none =>
                if !cfg.secondaryRunClient then
                  (ev0 ++ evR ++ [.buildClientEndpoint core, .buildCentralClient core false],
                    .inr (.panicked "called Option::unwrap on None"))
                else
                  let evC := ev0 ++ evR ++
                    [.buildClientEndpoint core, .buildCentralClient core false,
                      .runSecondaryCb core]
                  match w.secondaryErr core with
                  | some e => (evC, .inr (.err e))
                  | none =>
                    let r := cenLoop cfg debug w rest
                      ⟨st.forkCount + 1, index, st.handles, st.mainTaken, true⟩
                    (evC ++ r.1, r.2)

/-- `CentralizedLauncher::launch_generic` (lines 615-810): validation, an
unconditional fork for the centralized broker, a fixed binding pause, the
worker spawn loop, then the first-tier broker-or-wait branch. -/
def launchGeneric (cfg : CenConfig) (env : Env) (w : World) :
    List Event × Outcome :=
  if cfg.cores.isEmpty then
    ([], .err (.illegalArgument "No cores to spawn on given, cannot launch anything."))
  else if !cfg.secondaryRunClient then
    ([], .err (.illegalArgument "No client callback provided"))
  else if !w.coreIdsOk then
    ([], .panicked "get_core_ids failed")
  else
    let o1 := openOutFile w cfg.stdoutFile
    if !o1.2 then (o1.1, .panicked "File::create failed")
    else
      let o2 := openOutFile w cfg.stderrFile
      if !o2.2 then (o1.1 ++ o2.1, .panicked "File::create failed")
      else
        let files := o1.1 ++ o2.1
        match w.forkRes 0 with
        | .fail m => (files ++ [.preFork], .err (.osError m))
        | .child =>
          match w.centralBrokerBuildErr with
          | some e => (files ++ [.preFork, .postFork true], .err e)
          | none =>
            (files ++ [.preFork, .postFork true,
              .buildCentralBroker cfg.centralizedBrokerPort, .centralBrokerLoop],
              .err .shuttingDown)
        | .parent pid =>
          let pre := files ++ [.preFork, .forkCentralBroker pid, .postFork false, .sleep 10]
          let lr := cenLoop cfg env.debugOutput w (selected cfg.cores w.numCores)
            ⟨1, 0, [pid], false, false⟩
          match lr.2 with
          | .inr out => (pre ++ lr.1, out)
          | .inl st =>
            if cfg.spawnBroker then
              match w.brokerErr with
              | some e => (pre ++ lr.1 ++ [.buildBrokerEndpoint cfg.cores.length], .err e)
              | none =>
                (pre ++ lr.1 ++ [.buildBrokerEndpoint cfg.cores.length]
                  ++ st.handles.map Event.killSignal, .ok)
            else (pre ++ lr.1 ++ forkWaitAll w st.handles, .ok)

/-! ### Trace observations -/

/-- Cores of the worker processes created by this invocation, in creation
order (both fork-path and re-exec spawns). -/
def spawnedWorkers (tr : List Event) : List Nat :=
  tr.filterMap fun e => match e with
    | .forkWorker _ c => some c
    | .spawnChild _ c _ => some c
    | _ => none

/-- Pids of all processes created by this invocation, in creation order
(workers and the centralized broker). -/
def spawnedPids (tr : List Event) : List Nat :=
  tr.filterMap fun e => match e with
    | .forkWorker pid _ => some pid
    | .spawnChild pid _ _ => some pid
    | .forkCentralBroker pid => some pid
    | _ => none

/-- Pids of centralized-broker processes created by this invocation. -/
def centralBrokerForks (tr : List Event) : List Nat :=
  tr.filterMap fun e => match e with
    | .forkCentralBroker pid => some pid
    | _ => none

/-- Client-role (`ManagerKind::Client`) endpoint build attempts. -/
def clientEndpoints (tr : List Event) : List Nat :=
  tr.filterMap fun e => match e with
    | .buildClientEndpoint c => some c
    | _ => none

/-- Broker-role (`ManagerKind::Broker`) endpoint builds, with their
`exit_cleanly_after` quotas. -/
def brokerQuotas (tr : List Event) : List Nat :=
  tr.filterMap fun e => match e with
    | .buildBrokerEndpoint q => some q
    | _ => none

/-- Centralized aggregation-broker endpoint builds, with their ports. -/
def centralBrokerBuilds (tr : List Event) : List Nat :=
  tr.filterMap fun e => match e with
    | .buildCentralBroker p => some p
    | _ => none

/-- Centralized aggregation-client adapter builds: bound core and the
`is_main` authority flag. -/
def centralClientBuilds (tr : List Event) : List (Nat × Bool) :=
  tr.filterMap fun e => match e with
    | .buildCentralClient c m => some (c, m)
    | _ => none

/-- Invocations of the `run_client` callback. -/
def clientCbs (tr : List Event) : List Nat :=
  tr.filterMap fun e => match e with
    | .runClientCb c => some c
    | _ => none

/-- Invocations of the `main_run_client` callback. -/
def mainCbs (tr : List Event) : List Nat :=
  tr.filterMap fun e => match e with
    | .runMainCb c => some c
    | _ => none

/-- Invocations of the `secondary_run_client` callback. -/
def secondaryCbs (tr : List Event) : List Nat :=
  tr.filterMap fun e => match e with
    | .runSecondaryCb c => some c
    | _ => none

/-- Pids signalled (`libc::kill` / `Child::kill`), in signalling order. -/
def kills (tr : List Event) : List Nat :=
  tr.filterMap fun e => match e with
    | .killSignal pid => some pid
    | _ => none

/-- Pids waited on (`libc::waitpid` / `Child::wait`), in order. -/
def waitedPids (tr : List Event) : List Nat :=
  tr.filterMap fun e => match e with
    | .waitPid pid _ => some pid
    | .waitChild pid _ => some pid
    | _ => none

/-- Pids whose non-zero / unsuccessful exit status was logged. -/
def loggedBadExits (tr : List Event) : List Nat :=
  tr.filterMap fun e => match e with
    | .logBadExit pid => some pid
    | _ => none

/-- The `dup2` redirections performed, with their targets. -/
def dup2Calls (tr : List Event) : List (String × Fd) :=
  tr.filterMap fun e => match e with
    | .dup2 f fd => some (f, fd)
    | _ => none

/-- The redirection files created (`File::create`). -/
def filesCreated (tr : List Event) : List String :=
  tr.filterMap fun e => match e with
    | .fileCreate f => some f
    | _ => none

/-- All sleeps performed, in order, in milliseconds. -/
def sleeps (tr : List Event) : List Nat :=
  tr.filterMap fun e => match e with
    | .sleep ms => some ms
    | _ => none

/-- The trace suffix strictly after the first `post_fork(true)` hook, i.e.
what the duplicated child process does after waking up in its own image. -/
def afterChildFork : List Event → List Event
  | [] => []
  | e :: rest => if e = Event.postFork true then rest else afterChildFork rest

/-- The trace suffix strictly after the first occurrence of `e`. -/
def afterEvent (e : Event) : List Event → List Event
  | [] => []
  | x :: rest => if x = e then rest else afterEvent e rest

/-- The first `sleep` amount in a trace, if any. -/
def firstSleep : List Event → Option Nat
  | [] => none
  | .sleep n :: _ => some n
  | _ :: rest => firstSleep rest

/-- Every spawned child got the plain console stdio (no redirection or
nulling applied at spawn time). -/
def allSpawnsConsole (tr : List Event) : Bool :=
  tr.all fun e => match e with
    | .spawnChild _ _ m => m = StdioMode.console
    | _ => true

/-- Configuration errors in the sense of the spec's error taxonomy. -/
def isConfigErr : Outcome → Bool
  | .err (.illegalArgument _) => true
  | _ => false

/-- Typed-error outcomes (a `?` propagation, as opposed to a panic). -/
def isTypedErr : Outcome → Bool
  | .err _ => true
  | _ => false

/-! ### Oracle classes used in theorem hypotheses -/

/-- Every `fork()` call of this process keeps it in the parent role, the
n-th call producing child pid `p n`. -/
def parentOracle (w : World) (p : Nat → Nat) : Prop :=
  ∀ n, w.forkRes n = ForkRes.parent (p n)

/-- Fork call `j` of this process lands in the child role; every other
call keeps it in the parent role with pids given by `p`. -/
def childAtOracle (w : World) (p : Nat → Nat) (j : Nat) : Prop :=
  w.forkRes j = ForkRes.child ∧ ∀ n, n ≠ j → w.forkRes n = ForkRes.parent (p n)

/-- All `File::create` calls succeed. -/
def filesOk (w : World) : Prop :=
  ∀ f, w.fileCreateOk f = true

/-! ### Closed forms of the spawn loops -/

/-- Trace of a spawn loop in which every fork keeps this process in the
parent role: per selected core one pre-fork hook, one fork and one
post-fork hook, with pids drawn from `p` at consecutive fork counts. -/
def parentTrace (p : Nat → Nat) : List Nat → Nat → List Event
  | [], _ => []
  | core :: rest, fc =>
    Event.preFork :: Event.forkWorker (p fc) core :: Event.postFork false ::
      parentTrace p rest (fc + 1)

/-- The child pids recorded by such an all-parent spawn loop. -/
def parentPids (p : Nat → Nat) : List Nat → Nat → List Nat
  | [], _ => []
  | _ :: rest, fc => p fc :: parentPids p rest (fc + 1)

theorem forkLoop_parent (cfg : Config) (debug : Bool) (w : World) (p : Nat → Nat) :
    ∀ (sel : List Nat) (st : LoopSt),
      (∀ n, st.forkCount ≤ n → w.forkRes n = ForkRes.parent (p n)) →
      forkLoop cfg debug w sel st =
        (parentTrace p sel st.forkCount,
          Sum.inl ⟨st.forkCount + sel.length, st.index + sel.length,
            st.handles ++ parentPids p sel st.forkCount⟩) := by
  intro sel
  induction sel with
  | nil => intro st _; simp [forkLoop, parentTrace, parentPids]
  | cons core rest ih =>
    intro st hp
    have h0 : w.forkRes st.forkCount = ForkRes.parent (p st.forkCount) :=
      hp st.forkCount (Nat.le_refl _)
    have := ih ⟨st.forkCount + 1, st.index + 1, st.handles ++ [p st.forkCount]⟩
      (fun n hn => hp n (Nat.le_of_succ_le hn))
    simp only [forkLoop, h0, this, parentTrace, parentPids, List.length_cons]
    refine Prod.ext rfl ?_
    have e1 : st.forkCount + 1 + rest.length = st.forkCount + (rest.length + 1) := by omega
    have e2 : st.index + 1 + rest.length = st.index + (rest.length + 1) := by omega
    rw [e1, e2, List.append_assoc]
    rfl

theorem cenLoop_parent (cfg : CenConfig) (debug : Bool) (w : World) (p : Nat → Nat) :
    ∀ (sel : List Nat) (st : CenSt),
      (∀ n, st.forkCount ≤ n → w.forkRes n = ForkRes.parent (p n)) →
      cenLoop cfg debug w sel st =
        (parentTrace p sel st.forkCount,
          Sum.inl ⟨st.forkCount + sel.length, st.index + sel.length,
            st.handles ++ parentPids p sel st.forkCount,
            st.mainTaken, st.secondaryTaken⟩) := by
  intro sel
  induction sel with
  | nil => intro st _; simp [cenLoop, parentTrace, parentPids]
  | cons core rest ih =>
    intro st hp
    have h0 : w.forkRes st.forkCount = ForkRes.parent (p st.forkCount) :=
      hp st.forkCount (Nat.le_refl _)
    have := ih { st with forkCount := st.forkCount + 1, index := st.index + 1,
                         handles := st.handles ++ [p st.forkCount] }
      (fun n hn => hp n (Nat.le_of_succ_le hn))
    simp only [cenLoop, h0, this, parentTrace, parentPids, List.length_cons]
    refine Prod.ext rfl ?_
    have e1 : st.forkCount + 1 + rest.length = st.forkCount + (rest.length + 1) := by omega
    have e2 : st.index + 1 + rest.length = st.index + (rest.length + 1) := by omega
    rw [e1, e2, List.append_assoc]
    rfl

theorem parentTrace_events (p : Nat → Nat) :
    ∀ (sel : List Nat) (fc : Nat), ∀ e ∈ parentTrace p sel fc,
      e = Event.preFork ∨ e = Event.postFork false ∨
        ∃ pid core, e = Event.forkWorker pid core := by
  intro sel
  induction sel with
  | nil => intro fc e he; simp [parentTrace] at he
  | cons core rest ih =>
    intro fc e he
    simp only [parentTrace, List.mem_cons] at he
    rcases he with h | h | h | h
    · exact Or.inl h
    · exact Or.inr (Or.inr ⟨p fc, core, h⟩)
    · exact Or.inr (Or.inl h)
    · exact ih (fc + 1) e h

theorem filterMap_parentTrace_eq_nil {α : Type} (p : Nat → Nat) (f : Event → Option α)
    (h1 : f Event.preFork = none) (h2 : f (Event.postFork false) = none)
    (h3 : ∀ pid core, f (Event.forkWorker pid core) = none)
    (sel : List Nat) (fc : Nat) : (parentTrace p sel fc).filterMap f = [] := by
  rw [List.filterMap_eq_nil_iff]
  intro e he
  rcases parentTrace_events p sel fc e he with h | h | ⟨pid, core, h⟩
  · exact h ▸ h1
  · exact h ▸ h2
  · exact h ▸ h3 pid core

theorem spawnedWorkers_parentTrace (p : Nat → Nat) :
    ∀ (sel : List Nat) (fc : Nat), spawnedWorkers (parentTrace p sel fc) = sel := by
  intro sel
  induction sel with
  | nil => intro fc; simp [parentTrace, spawnedWorkers]
  | cons core rest ih =>
    intro fc
    simp [parentTrace, spawnedWorkers, List.filterMap_cons] at ih ⊢
    exact ih (fc + 1)

theorem parentPids_eq_map (p : Nat → Nat) :
    ∀ (sel : List Nat) (fc : Nat),
      parentPids p sel fc = (List.range sel.length).map (fun i => p (fc + i)) := by
  intro sel
  induction sel with
  | nil => intro fc; simp [parentPids]
  | cons core rest ih =>
    intro fc
    simp only [parentPids, ih (fc + 1), List.length_cons, List.range_succ_eq_map,
      List.map_cons, List.map_map, List.cons.injEq]
    constructor
    · exact congrArg p (by omega)
    · refine List.map_congr_left fun i _ => ?_
      simp only [Function.comp_apply]
      exact congrArg p (by omega)

theorem parentPids_length (p : Nat → Nat) (sel : List Nat) (fc : Nat) :
    (parentPids p sel fc).length = sel.length := by
  simp [parentPids_eq_map]

theorem parentPids_nodup (p : Nat → Nat) (hinj : Function.Injective p)
    (sel : List Nat) (fc : Nat) : (parentPids p sel fc).Nodup := by
  rw [parentPids_eq_map]
  refine List.Nodup.map ?_ (List.nodup_range _)
  intro a b hab
  exact Nat.add_left_cancel (hinj hab)

/-! ### Facts about the selected core list -/

theorem selected_nil (n : Nat) : selected [] n = [] := by
  simp [selected]

theorem selected_sorted (cores : List Nat) (n : Nat) :
    (selected cores n).Pairwise (· < ·) :=
  (List.pairwise_lt_range n).filter _

theorem selected_nodup (cores : List Nat) (n : Nat) : (selected cores n).Nodup :=
  (List.nodup_range n).filter _

theorem mem_selected (cores : List Nat) (n : Nat) (x : Nat) :
    x ∈ selected cores n ↔ x < n ∧ x ∈ cores := by
  simp [selected, List.mem_filter, List.mem_range]

theorem selected_perm (cores : List Nat) (n : Nat) (hnd : cores.Nodup)
    (hb : ∀ c ∈ cores, c < n) : (selected cores n).Perm cores := by
  rw [List.perm_ext_iff_of_nodup (selected_nodup cores n) hnd]
  intro x
  rw [mem_selected]
  exact ⟨fun h => h.2, fun h => ⟨hb x h, h⟩⟩

theorem selected_length (cores : List Nat) (n : Nat) (hnd : cores.Nodup)
    (hb : ∀ c ∈ cores, c < n) : (selected cores n).length = cores.length :=
  (selected_perm cores n hnd hb).length_eq

/-! ### Facts about the wait loops -/

theorem forkWaitAll_events (w : World) :
    ∀ (hs : List Nat), ∀ e ∈ forkWaitAll w hs,
      (∃ pid st, e = Event.waitPid pid st) ∨ ∃ pid, e = Event.logBadExit pid := by
  intro hs
  induction hs with
  | nil => intro e he; simp [forkWaitAll] at he
  | cons pid rest ih =>
    intro e he
    simp only [forkWaitAll, List.mem_cons, List.mem_append] at he
    rcases he with h | h
    · exact Or.inl ⟨pid, w.waitStatus pid, h⟩
    · rcases h with h | h
      · by_cases hz : w.waitStatus pid ≠ 0
        · simp [hz] at h
          exact Or.inr ⟨pid, h⟩
        · simp [hz] at h
      · exact ih e h

theorem filterMap_forkWaitAll_eq_nil {α : Type} (w : World) (f : Event → Option α)
    (h1 : ∀ pid st, f (Event.waitPid pid st) = none)
    (h2 : ∀ pid, f (Event.logBadExit pid) = none)
    (hs : List Nat) : (forkWaitAll w hs).filterMap f = [] := by
  rw [List.filterMap_eq_nil_iff]
  intro e he
  rcases forkWaitAll_events w hs e he with ⟨pid, st, h⟩ | ⟨pid, h⟩
  · exact h ▸ h1 pid st
  · exact h ▸ h2 pid

theorem waitedPids_forkWaitAll (w : World) :
    ∀ (hs : List Nat), waitedPids (forkWaitAll w hs) = hs := by
  intro hs
  induction hs with
  | nil => simp [forkWaitAll, waitedPids]
  | cons pid rest ih =>
    by_cases hz : w.waitStatus pid ≠ 0 <;>
      simp [forkWaitAll, waitedPids, List.filterMap_append, hz] at ih ⊢ <;>
      simpa [waitedPids] using ih

theorem loggedBadExits_forkWaitAll (w : World) :
    ∀ (hs : List Nat),
      loggedBadExits (forkWaitAll w hs) = hs.filter (fun pid => decide (w.waitStatus pid ≠ 0)) := by
  intro hs
  induction hs with
  | nil => simp [forkWaitAll, loggedBadExits]
  | cons pid rest ih =>
    by_cases hz : w.waitStatus pid ≠ 0 <;>
      simp [forkWaitAll, loggedBadExits, List.filterMap_append, List.filter_cons, hz] at ih ⊢ <;>
      simpa [loggedBadExits] using ih

/-! ### Reaching the child arm of a spawn loop -/

theorem forkLoop_childAt (cfg : Config) (debug : Bool) (w : World) (p : Nat → Nat) (j : Nat)
    (hc : childAtOracle w p j) :
    ∀ (sel : List Nat) (st : LoopSt) (d : Nat), st.forkCount + d = j → d < sel.length →
      forkLoop cfg debug w sel st =
        (parentTrace p (sel.take d) st.forkCount ++
            (forkChildRun cfg debug w (st.index + d + 1) (sel.getD d 0)).1,
          Sum.inr (forkChildRun cfg debug w (st.index + d + 1) (sel.getD d 0)).2) := by
  intro sel
  induction sel with
  | nil => intro st d _ hlt; simp at hlt
  | cons core rest ih =>
    intro st d hj hlt
    cases d with
    | zero =>
      have h0 : w.forkRes st.forkCount = ForkRes.child := by
        rw [Nat.add_zero] at hj; rw [hj]; exact hc.1
      simp [forkLoop, h0, parentTrace]
    | succ d' =>
      have h0 : w.forkRes st.forkCount = ForkRes.parent (p st.forkCount) :=
        hc.2 st.forkCount (by omega)
      have hrec := ih ⟨st.forkCount + 1, st.index + 1, st.handles ++ [p st.forkCount]⟩ d'
        (by simp only; omega) (by simp only [List.length_cons] at hlt; omega)
      simp only [forkLoop, h0, hrec, List.take_succ_cons, parentTrace, List.getD_cons_succ,
        List.cons_append]
      have e1 : st.index + 1 + d' + 1 = st.index + (d' + 1) + 1 := by omega
      rw [e1]

/-- The `ForkResult::Child` arm of the centralized spawn loop, stated as a
standalone function of the loop state at its entry (before the stagger
index is incremented).  `rest` is what remains of the core list: a worker
whose callback returns `Ok` falls through into the loop over `rest`. -/
def cenChildArm (cfg : CenConfig) (debug : Bool) (w : World)
    (rest : List Nat) (st : CenSt) (core : Nat) : List Event × (CenSt ⊕ Outcome) :=
  let index := st.index + 1
  let ev0 : List Event := [.preFork, .postFork true, .sleep (index * cfg.launchDelay)]
  match childRedirect debug cfg.stdoutFile cfg.stderrFile w.dup2Ok with
  | (evR, some e) => (ev0 ++ evR, .inr (.err e))
  | (evR, none) =>
    if index = 1 then
      if st.mainTaken then
        (ev0 ++ evR, .inr (.panicked "called Option::unwrap on None"))
      else
        match w.clientEndpointErr core with
        | some e => (ev0 ++ evR ++ [.buildClientEndpoint core], .inr (.err e))
        | none =>
          match w.centralClientBuildErr core with
          | some e =>
            (ev0 ++ evR ++ [.buildClientEndpoint core, .buildCentralClient core true],
              .inr (.err e))
          | none =>
            if !cfg.mainRunClient then
              (ev0 ++ evR ++ [.buildClientEndpoint core, .buildCentralClient core true],
                .inr (.panicked "called Option::unwrap on None"))
            else
              let evC := ev0 ++ evR ++
                [.buildClientEndpoint core, .buildCentralClient core true, .runMainCb core]
              match w.mainErr core with
              | some e => (evC, .inr (.err e))
              | none =>
                let r := cenLoop cfg debug w rest
                  ⟨st.forkCount + 1, index, st.handles, true, st.secondaryTaken⟩
                (evC ++ r.1, r.2)
    else
      if st.secondaryTaken then
        (ev0 ++ evR, .inr (.panicked "called Option::unwrap on None"))
      else
        match w.clientEndpointErr core with
        | some e => (ev0 ++ evR ++ [.buildClientEndpoint core], .inr (.err e))
        | none =>
          match w.centralClientBuildErr core with
          | some e =>
            (ev0 ++ evR ++ [.buildClientEndpoint core, .buildCentralClient core false],
              .inr (.err e))
          | none =>
            if !cfg.secondaryRunClient then
              (ev0 ++ evR ++ [.buildClientEndpoint core, .buildCentralClient core false],
                .inr (.panicked "called Option::unwrap on None"))
            else
              let evC := ev0 ++ evR ++
                [.buildClientEndpoint core, .buildCentralClient core false,
                  .runSecondaryCb core]
              match w.secondaryErr core with
              | some e => (evC, .inr (.err e))
              | none =>
                let r := cenLoop cfg debug w rest
                  ⟨st.forkCount + 1, index, st.handles, st.mainTaken, true⟩
                (evC ++ r.1, r.2)

theorem cenLoop_cons_child (cfg : CenConfig) (debug : Bool) (w : World)
    (core : Nat) (rest : List Nat) (st : CenSt)
    (h : w.forkRes st.forkCount = ForkRes.child) :
    cenLoop cfg debug w (core :: rest) st = cenChildArm cfg debug w rest st core := by
  simp only [cenLoop, h]
  rfl

theorem cenLoop_childAt (cfg : CenConfig) (debug : Bool) (w : World) (p : Nat → Nat) (j : Nat)
    (hc : childAtOracle w p j) :
    ∀ (sel : List Nat) (st : CenSt) (d : Nat), st.forkCount + d = j → d < sel.length →
      cenLoop cfg debug w sel st =
        (parentTrace p (sel.take d) st.forkCount ++
            (cenChildArm cfg debug w (sel.drop (d + 1))
              ⟨j, st.index + d, st.handles ++ parentPids p (sel.take d) st.forkCount,
                st.mainTaken, st.secondaryTaken⟩ (sel.getD d 0)).1,
          (cenChildArm cfg debug w (sel.drop (d + 1))
              ⟨j, st.index + d, st.handles ++ parentPids p (sel.take d) st.forkCount,
                st.mainTaken, st.secondaryTaken⟩ (sel.getD d 0)).2) := by
  intro sel
  induction sel with
  | nil => intro st d _ hlt; simp at hlt
  | cons core rest ih =>
    intro st d hj hlt
    cases d with
    | zero =>
      have hj' : j = st.forkCount := by omega
      subst hj'
      rw [cenLoop_cons_child cfg debug w core rest st hc.1]
      simp [parentTrace, parentPids]
    | succ d' =>
      have h0 : w.forkRes st.forkCount = ForkRes.parent (p st.forkCount) :=
        hc.2 st.forkCount (by omega)
      have hrec := ih { st with forkCount := st.forkCount + 1, index := st.index + 1,
                                handles := st.handles ++ [p st.forkCount] } d'
        (by simp only; omega) (by simp only [List.length_cons] at hlt; omega)
      simp only [cenLoop, h0, hrec, List.take_succ_cons, parentTrace, List.getD_cons_succ,
        List.drop_succ_cons, parentPids, List.cons_append]
      have e1 : st.index + 1 + d' = st.index + (d' + 1) := by omega
      have e2 : (st.handles ++ [p st.forkCount]) ++
          parentPids p (rest.take d') (st.forkCount + 1) =
          st.handles ++ (p st.forkCount :: parentPids p (rest.take d') (st.forkCount + 1)) := by
        rw [List.append_assoc]; rfl
      rw [e1, e2]

/-! ### The child-side trace shape -/

theorem parentTrace_no_childMark (p : Nat → Nat) (sel : List Nat) (fc : Nat) :
    ∀ e ∈ parentTrace p sel fc, e ≠ Event.postFork true := by
  intro e he
  rcases parentTrace_events p sel fc e he with h | h | ⟨pid, core, h⟩ <;> simp [h]

theorem afterChildFork_append (l1 l2 : List Event)
    (h : ∀ e ∈ l1, e ≠ Event.postFork true) :
    afterChildFork (l1 ++ l2) = afterChildFork l2 := by
  induction l1 with
  | nil => rfl
  | cons e rest ih =>
    simp only [List.cons_append, afterChildFork]
    rw [if_neg (h e (by simp))]
    exact ih (fun x hx => h x (by simp [hx]))

theorem openOutFile_events (w : World) (f : Option String) :
    ∀ e ∈ (openOutFile w f).1, ∃ g, e = Event.fileCreate g := by
  cases f <;> simp [openOutFile]

theorem firstSleep_forkChildRun (cfg : Config) (debug : Bool) (w : World)
    (index core : Nat) :
    firstSleep (afterChildFork (forkChildRun cfg debug w index core).1) =
      some (index * cfg.launchDelay) := by
  unfold forkChildRun
  rcases hcr : childRedirect debug cfg.stdoutFile cfg.stderrFile w.dup2Ok with ⟨evR, rerr⟩
  cases rerr <;> cases hce : w.clientEndpointErr core <;>
    by_cases hrc : cfg.runClient <;>
      simp [afterChildFork, firstSleep, hce, hrc]

theorem firstSleep_cenChildArm (cfg : CenConfig) (debug : Bool) (w : World)
    (rest : List Nat) (st : CenSt) (core : Nat) :
    firstSleep (afterChildFork (cenChildArm cfg debug w rest st core).1) =
      some ((st.index + 1) * cfg.launchDelay) := by
  unfold cenChildArm
  rcases hcr : childRedirect debug cfg.stdoutFile cfg.stderrFile w.dup2Ok with ⟨evR, rerr⟩
  cases rerr <;>
    by_cases hix : st.index + 1 = 1 <;>
    cases hmt : st.mainTaken <;> cases hst : st.secondaryTaken <;>
    cases hce : w.clientEndpointErr core <;>
    cases hcc : w.centralClientBuildErr core <;>
    by_cases hmr : cfg.mainRunClient <;> by_cases hsr : cfg.secondaryRunClient <;>
    cases hme : w.mainErr core <;> cases hse : w.secondaryErr core <;>
      simp [afterChildFork, firstSleep, hix, hce, hcc, hmr, hsr, hme, hse]

/-! ### Facts about the re-exec path -/

/-- Events of the re-exec parent's own stdio setup (file creation and
self-redirection). -/
def isSetupEvent : Event → Bool
  | .fileCreate _ => true
  | .dup2 _ _ => true
  | _ => false

/-- Kill-signal events. -/
def isKillEvent : Event → Bool
  | .killSignal _ => true
  | _ => false

/-- Events of the wait branches. -/
def isWaitEvent : Event → Bool
  | .waitChild _ _ => true
  | .waitPid _ _ => true
  | .logBadExit _ => true
  | _ => false

/-- Closed-form trace of the re-exec spawn loop when every spawn succeeds. -/
def reexecTrace (cfg : Config) (env : Env) (w : World) : List Nat → List Event
  | [] => []
  | core :: rest =>
    Event.sleep (core * cfg.launchDelay) :: Event.setEnvMarker core ::
      Event.spawnChild (w.spawnPid core) core (reexecStdio cfg env.debugOutput) ::
      reexecTrace cfg env w rest

theorem reexecSpawnLoop_ok (cfg : Config) (env : Env) (w : World) :
    ∀ (sel : List Nat) (handles : List Nat), (∀ c ∈ sel, w.spawnErr c = none) →
      reexecSpawnLoop cfg env w sel handles =
        (reexecTrace cfg env w sel, Sum.inl (handles ++ sel.map w.spawnPid)) := by
  intro sel
  induction sel with
  | nil => intro handles _; simp [reexecSpawnLoop, reexecTrace]
  | cons core rest ih =>
    intro handles hs
    have h0 : w.spawnErr core = none := hs core (by simp)
    have hrec := ih (handles ++ [w.spawnPid core]) (fun c hc => hs c (by simp [hc]))
    simp only [reexecSpawnLoop, h0, hrec, reexecTrace, List.map_cons]
    refine Prod.ext rfl ?_
    rw [List.append_assoc]
    rfl

theorem reexecTrace_events (cfg : Config) (env : Env) (w : World) :
    ∀ (sel : List Nat), ∀ e ∈ reexecTrace cfg env w sel,
      (∃ ms, e = Event.sleep ms) ∨ (∃ c, e = Event.setEnvMarker c) ∨
        ∃ pid c m, e = Event.spawnChild pid c m := by
  intro sel
  induction sel with
  | nil => intro e he; simp [reexecTrace] at he
  | cons core rest ih =>
    intro e he
    simp only [reexecTrace, List.mem_cons] at he
    rcases he with h | h | h | h
    · exact Or.inl ⟨_, h⟩
    · exact Or.inr (Or.inl ⟨_, h⟩)
    · exact Or.inr (Or.inr ⟨_, _, _, h⟩)
    · exact ih e h

theorem filterMap_reexecTrace_eq_nil {α : Type} (cfg : Config) (env : Env) (w : World)
    (f : Event → Option α)
    (h1 : ∀ ms, f (Event.sleep ms) = none)
    (h2 : ∀ c, f (Event.setEnvMarker c) = none)
    (h3 : ∀ pid c m, f (Event.spawnChild pid c m) = none)
    (sel : List Nat) : (reexecTrace cfg env w sel).filterMap f = [] := by
  rw [List.filterMap_eq_nil_iff]
  intro e he
  rcases reexecTrace_events cfg env w sel e he with ⟨ms, h⟩ | ⟨c, h⟩ | ⟨pid, c, m, h⟩
  · exact h ▸ h1 ms
  · exact h ▸ h2 c
  · exact h ▸ h3 pid c m

theorem spawnedWorkers_reexecTrace (cfg : Config) (env : Env) (w : World) :
    ∀ (sel : List Nat), spawnedWorkers (reexecTrace cfg env w sel) = sel := by
  intro sel
  induction sel with
  | nil => simp [reexecTrace, spawnedWorkers]
  | cons core rest ih => simpa [reexecTrace, spawnedWorkers] using ih

theorem spawnedPids_reexecTrace (cfg : Config) (env : Env) (w : World) :
    ∀ (sel : List Nat), spawnedPids (reexecTrace cfg env w sel) = sel.map w.spawnPid := by
  intro sel
  induction sel with
  | nil => simp [reexecTrace, spawnedPids]
  | cons core rest ih => simpa [reexecTrace, spawnedPids] using ih

theorem sleeps_reexecTrace (cfg : Config) (env : Env) (w : World) :
    ∀ (sel : List Nat),
      sleeps (reexecTrace cfg env w sel) = sel.map (fun c => c * cfg.launchDelay) := by
  intro sel
  induction sel with
  | nil => simp [reexecTrace, sleeps]
  | cons core rest ih => simpa [reexecTrace, sleeps] using ih

theorem reexecKillAll_ok (w : World) :
    ∀ (hs : List Nat), (∀ pid ∈ hs, w.killOk pid = true) →
      reexecKillAll w hs = (hs.map Event.killSignal, Outcome.ok) := by
  intro hs
  induction hs with
  | nil => intro _; simp [reexecKillAll]
  | cons pid rest ih =>
    intro hk
    have h0 : w.killOk pid = true := hk pid (by simp)
    have hrec := ih (fun q hq => hk q (by simp [hq]))
    simp [reexecKillAll, h0, hrec]

theorem kills_map_killSignal (hs : List Nat) :
    kills (hs.map Event.killSignal) = hs := by
  induction hs with
  | nil => simp [kills]
  | cons pid rest ih => simpa [kills] using ih

theorem filterMap_map_killSignal_eq_nil {α : Type} (f : Event → Option α)
    (h : ∀ pid, f (Event.killSignal pid) = none) (hs : List Nat) :
    (hs.map Event.killSignal).filterMap f = [] := by
  rw [List.filterMap_eq_nil_iff]
  intro e he
  simp only [List.mem_map] at he
  obtain ⟨pid, _, rfl⟩ := he
  exact h pid

theorem reexecWaitAll_ok (w : World) :
    ∀ (hs : List Nat), (∀ pid ∈ hs, w.waitOk pid = true) →
      (reexecWaitAll w hs).2 = Outcome.ok ∧
      waitedPids (reexecWaitAll w hs).1 = hs ∧
      loggedBadExits (reexecWaitAll w hs).1 =
        hs.filter (fun pid => !w.waitSuccess pid) ∧
      ((reexecWaitAll w hs).1).all isWaitEvent = true := by
  intro hs
  induction hs with
  | nil => intro _; exact ⟨rfl, rfl, rfl, rfl⟩
  | cons pid rest ih =>
    intro hk
    have h0 : w.waitOk pid = true := hk pid (by simp)
    obtain ⟨ih1, ih2, ih3, ih4⟩ := ih (fun q hq => hk q (by simp [hq]))
    cases hsucc : w.waitSuccess pid
    case false =>
      refine ⟨by simp [reexecWaitAll, h0, hsucc, ih1], ?_, ?_, ?_⟩
      · simpa [reexecWaitAll, h0, hsucc, waitedPids, List.filterMap_append] using ih2
      · simpa [reexecWaitAll, h0, hsucc, loggedBadExits, List.filterMap_append,
          List.filter_cons] using ih3
      · simpa [reexecWaitAll, h0, hsucc, isWaitEvent] using ih4
    case true =>
      refine ⟨by simp [reexecWaitAll, h0, hsucc, ih1], ?_, ?_, ?_⟩
      · simpa [reexecWaitAll, h0, hsucc, waitedPids, List.filterMap_append] using ih2
      · simpa [reexecWaitAll, h0, hsucc, loggedBadExits, List.filterMap_append,
          List.filter_cons] using ih3
      · simpa [reexecWaitAll, h0, hsucc, isWaitEvent] using ih4

theorem reexecSelfRedirect_none (cfg : Config) (w : World) (debug : Bool)
    (hf : filesOk w) (hd : w.dup2Ok = true) :
    (reexecSelfRedirect cfg w debug).2 = none := by
  have hf' : ∀ f, w.fileCreateOk f = true := hf
  cases hso : cfg.stdoutFile <;> cases hse : cfg.stderrFile <;> cases debug <;>
    simp [reexecSelfRedirect, openOutFile, hso, hse, hf', hd]

theorem reexecSelfRedirect_setup (cfg : Config) (w : World) (debug : Bool) :
    ((reexecSelfRedirect cfg w debug).1).all isSetupEvent = true := by
  cases debug <;> cases hso : cfg.stdoutFile <;> cases hse : cfg.stderrFile <;>
    simp only [reexecSelfRedirect, openOutFile, hso, hse] <;>
    split_ifs <;> rfl

theorem filterMap_reexecSelfRedirect_eq_nil {α : Type} (cfg : Config) (w : World)
    (debug : Bool) (f : Event → Option α)
    (h : ∀ e, isSetupEvent e = true → f e = none) :
    ((reexecSelfRedirect cfg w debug).1).filterMap f = [] := by
  rw [List.filterMap_eq_nil_iff]
  intro e he
  exact h e (List.all_eq_true.mp (reexecSelfRedirect_setup cfg w debug) e he)

/-! ### Assembled runs of the three launch paths -/

/-- Events and outcome of the fork paths after the spawn loop: run the
broker (quota = number of requested cores) and `libc::kill` every handle,
ignoring kill failures, or wait on every handle. -/
def libcTail (spawnBroker : Bool) (quota : Nat) (w : World) (handles : List Nat) :
    List Event :=
  if spawnBroker then
    match w.brokerErr with
    | some _ => [.buildBrokerEndpoint quota]
    | none => Event.buildBrokerEndpoint quota :: handles.map Event.killSignal
  else forkWaitAll w handles

/-- Outcome of the fork paths after the spawn loop. -/
def libcTailOut (spawnBroker : Bool) (w : World) : Outcome :=
  if spawnBroker then
    match w.brokerErr with
    | some e => .err e
    | none => .ok
  else .ok

theorem openOutFile_ok (w : World) (hf : filesOk w) (f : Option String) :
    (openOutFile w f).2 = true := by
  have hf' : ∀ g, w.fileCreateOk g = true := hf
  cases f <;> simp [openOutFile, hf']

theorem filterMap_openOutFile_eq_nil {α : Type} (w : World) (f : Option String)
    (g : Event → Option α) (h : ∀ s, g (Event.fileCreate s) = none) :
    ((openOutFile w f).1).filterMap g = [] := by
  cases f <;> simp [openOutFile, h]

theorem launchFork_parent (cfg : Config) (env : Env) (w : World) (p : Nat → Nat)
    (hne : cfg.cores ≠ []) (hrc : cfg.runClient = true) (hci : w.coreIdsOk = true)
    (hf : filesOk w) (hp : parentOracle w p) :
    launchWithHooksFork cfg env w =
      ((openOutFile w cfg.stdoutFile).1 ++ (openOutFile w cfg.stderrFile).1 ++
          parentTrace p (selected cfg.cores w.numCores) 0 ++
          libcTail cfg.spawnBroker cfg.cores.length w
            (parentPids p (selected cfg.cores w.numCores) 0),
        libcTailOut cfg.spawnBroker w) := by
  have hloop := forkLoop_parent cfg env.debugOutput w p
    (selected cfg.cores w.numCores) ⟨0, 0, []⟩ (fun n _ => hp n)
  simp only [launchWithHooksFork]
  rw [List.isEmpty_eq_false.mpr hne, hrc, hci,
    openOutFile_ok w hf cfg.stdoutFile, openOutFile_ok w hf cfg.stderrFile]
  simp only [Bool.not_true, Bool.false_eq_true, if_false, hloop, List.nil_append]
  cases hsb : cfg.spawnBroker
  · simp [libcTail, libcTailOut, List.append_assoc]
  · cases hbe : w.brokerErr <;>
      simp [libcTail, libcTailOut, hbe, List.append_assoc]

theorem launchFork_childAt (cfg : Config) (env : Env) (w : World) (p : Nat → Nat) (j : Nat)
    (hne : cfg.cores ≠ []) (hrc : cfg.runClient = true) (hci : w.coreIdsOk = true)
    (hf : filesOk w) (hc : childAtOracle w p j)
    (hj : j < (selected cfg.cores w.numCores).length) :
    launchWithHooksFork cfg env w =
      ((openOutFile w cfg.stdoutFile).1 ++ (openOutFile w cfg.stderrFile).1 ++
          parentTrace p ((selected cfg.cores w.numCores).take j) 0 ++
          (forkChildRun cfg env.debugOutput w (j + 1)
            ((selected cfg.cores w.numCores).getD j 0)).1,
        (forkChildRun cfg env.debugOutput w (j + 1)
          ((selected cfg.cores w.numCores).getD j 0)).2) := by
  have hloop := forkLoop_childAt cfg env.debugOutput w p j hc
    (selected cfg.cores w.numCores) ⟨0, 0, []⟩ j (by simp) hj
  simp only [launchWithHooksFork]
  rw [List.isEmpty_eq_false.mpr hne, hrc, hci,
    openOutFile_ok w hf cfg.stdoutFile, openOutFile_ok w hf cfg.stderrFile]
  simp only [Bool.not_true, Bool.false_eq_true, if_false, hloop, Nat.zero_add,
    List.append_assoc]

/-- Events and outcome of the re-exec path after the spawn loop. -/
def reexecTail (cfg : Config) (w : World) (handles : List Nat) : List Event :=
  if cfg.cores.isEmpty then []
  else if cfg.spawnBroker then
    match w.brokerErr with
    | some _ => [.buildBrokerEndpoint cfg.cores.length]
    | none => Event.buildBrokerEndpoint cfg.cores.length :: (reexecKillAll w handles).1
  else (reexecWaitAll w handles).1

/-- Outcome of the re-exec path after the spawn loop. -/
def reexecTailOut (cfg : Config) (w : World) (handles : List Nat) : Outcome :=
  if cfg.cores.isEmpty then
    .err (.illegalArgument "No cores to spawn on given, cannot launch anything.")
  else if cfg.spawnBroker then
    match w.brokerErr with
    | some e => .err e
    | none => (reexecKillAll w handles).2
  else (reexecWaitAll w handles).2

theorem launchReexec_parent (cfg : Config) (env : Env) (w : World)
    (hcl : env.launcherClient = EnvVal.notPresent) (hci : w.coreIdsOk = true)
    (hf : filesOk w) (hd : w.dup2Ok = true)
    (hs : ∀ c ∈ selected cfg.cores w.numCores, w.spawnErr c = none) :
    launchWithHooksReexec cfg env w =
      ((reexecSelfRedirect cfg w env.debugOutput).1 ++
          reexecTrace cfg env w (selected cfg.cores w.numCores) ++
          reexecTail cfg w ((selected cfg.cores w.numCores).map w.spawnPid),
        reexecTailOut cfg w ((selected cfg.cores w.numCores).map w.spawnPid)) := by
  have hloop := reexecSpawnLoop_ok cfg env w (selected cfg.cores w.numCores) [] hs
  have hnone := reexecSelfRedirect_none cfg w env.debugOutput hf hd
  simp only [launchWithHooksReexec]
  rw [hcl, hci]
  simp only [Bool.not_true, Bool.false_eq_true, if_false]
  rcases hsr : reexecSelfRedirect cfg w env.debugOutput with ⟨evS, o⟩
  rw [hsr] at hnone
  simp only at hnone
  subst hnone
  simp only [hloop, List.nil_append]
  cases hie : cfg.cores.isEmpty
  · cases hsb : cfg.spawnBroker
    · simp [reexecTail, reexecTailOut, hie, hsb, List.append_assoc]
    · cases hbe : w.brokerErr <;>
        simp [reexecTail, reexecTailOut, hie, hsb, hbe, List.append_assoc]
  · simp [reexecTail, reexecTailOut, hie, List.append_assoc]

theorem launchGeneric_parent (cfg : CenConfig) (env : Env) (w : World) (p : Nat → Nat)
    (hne : cfg.cores ≠ []) (hsc : cfg.secondaryRunClient = true) (hci : w.coreIdsOk = true)
    (hf : filesOk w) (hp : parentOracle w p) :
    launchGeneric cfg env w =
      ((openOutFile w cfg.stdoutFile).1 ++ (openOutFile w cfg.stderrFile).1 ++
          ([Event.preFork, Event.forkCentralBroker (p 0), Event.postFork false,
            Event.sleep 10] ++
            parentTrace p (selected cfg.cores w.numCores) 1 ++
            libcTail cfg.spawnBroker cfg.cores.length w
              (p 0 :: parentPids p (selected cfg.cores w.numCores) 1)),
        libcTailOut cfg.spawnBroker w) := by
  have hloop := cenLoop_parent cfg env.debugOutput w p
    (selected cfg.cores w.numCores) ⟨1, 0, [p 0], false, false⟩ (fun n _ => hp n)
  simp only [launchGeneric]
  rw [List.isEmpty_eq_false.mpr hne, hsc, hci,
    openOutFile_ok w hf cfg.stdoutFile, openOutFile_ok w hf cfg.stderrFile, hp 0]
  simp only [Bool.not_true, Bool.false_eq_true, if_false, hloop, List.singleton_append]
  cases hsb : cfg.spawnBroker
  · simp [libcTail, libcTailOut, List.append_assoc]
  · cases hbe : w.brokerErr <;>
      simp [libcTail, libcTailOut, hbe, List.append_assoc]

/-- Assembling the trace and outcome of the centralized launch from a loop
result: a fall-through (`Sum.inl`) proceeds into the broker-or-wait tail
(in whichever process fell through), an early return (`Sum.inr`) is final. -/
def cenAssemble (cfg : CenConfig) (w : World) (pre : List Event)
    (r : List Event × (CenSt ⊕ Outcome)) : List Event × Outcome :=
  match r.2 with
  | .inr out => (pre ++ r.1, out)
  | .inl st =>
    if cfg.spawnBroker then
      match w.brokerErr with
      | some e => (pre ++ r.1 ++ [.buildBrokerEndpoint cfg.cores.length], .err e)
      | none =>
        (pre ++ r.1 ++ [.buildBrokerEndpoint cfg.cores.length]
          ++ st.handles.map Event.killSignal, .ok)
    else (pre ++ r.1 ++ forkWaitAll w st.handles, .ok)

theorem launchGeneric_childAt (cfg : CenConfig) (env : Env) (w : World)
    (p : Nat → Nat) (j : Nat)
    (hne : cfg.cores ≠ []) (hsc : cfg.secondaryRunClient = true) (hci : w.coreIdsOk = true)
    (hf : filesOk w) (hc : childAtOracle w p j) (hj1 : 1 ≤ j)
    (hj : j - 1 < (selected cfg.cores w.numCores).length) :
    launchGeneric cfg env w =
      cenAssemble cfg w
        ((openOutFile w cfg.stdoutFile).1 ++ (openOutFile w cfg.stderrFile).1 ++
          ([Event.preFork, Event.forkCentralBroker (p 0), Event.postFork false,
            Event.sleep 10] ++
            parentTrace p ((selected cfg.cores w.numCores).take (j - 1)) 1))
        (cenChildArm cfg env.debugOutput w
          ((selected cfg.cores w.numCores).drop (j - 1 + 1))
          ⟨j, j - 1, [p 0] ++ parentPids p ((selected cfg.cores w.numCores).take (j - 1)) 1,
            false, false⟩
          ((selected cfg.cores w.numCores).getD (j - 1) 0)) := by
  have hp0 : w.forkRes 0 = ForkRes.parent (p 0) := hc.2 0 (by omega)
  have hloop := cenLoop_childAt cfg env.debugOutput w p j hc
    (selected cfg.cores w.numCores) ⟨1, 0, [p 0], false, false⟩ (j - 1)
    (by simp only; omega) hj
  simp only [launchGeneric]
  rw [List.isEmpty_eq_false.mpr hne, hsc, hci,
    openOutFile_ok w hf cfg.stdoutFile, openOutFile_ok w hf cfg.stderrFile, hp0]
  simp only [Bool.not_true, Bool.false_eq_true, if_false, hloop, Nat.zero_add]
  rcases harm : (cenChildArm cfg env.debugOutput w
      ((selected cfg.cores w.numCores).drop (j - 1 + 1))
      ⟨j, j - 1, [p 0] ++ parentPids p ((selected cfg.cores w.numCores).take (j - 1)) 1,
        false, false⟩
      ((selected cfg.cores w.numCores).getD (j - 1) 0)) with ⟨atr, ares⟩
  cases ares with
  | inr out => simp [cenAssemble, harm, List.append_assoc]
  | inl st =>
    cases hsb : cfg.spawnBroker
    · simp [cenAssemble, harm, hsb, List.append_assoc]
    · cases hbe : w.brokerErr <;>
        simp [cenAssemble, harm, hsb, hbe, List.append_assoc]

theorem launchGeneric_centralBrokerChild (cfg : CenConfig) (env : Env) (w : World)
    (hne : cfg.cores ≠ []) (hsc : cfg.secondaryRunClient = true) (hci : w.coreIdsOk = true)
    (hf : filesOk w) (h0 : w.forkRes 0 = ForkRes.child)
    (hb : w.centralBrokerBuildErr = none) :
    launchGeneric cfg env w =
      ((openOutFile w cfg.stdoutFile).1 ++ (openOutFile w cfg.stderrFile).1 ++
          [Event.preFork, Event.postFork true,
            Event.buildCentralBroker cfg.centralizedBrokerPort, Event.centralBrokerLoop],
        .err .shuttingDown) := by
  simp only [launchGeneric]
  rw [List.isEmpty_eq_false.mpr hne, hsc, hci,
    openOutFile_ok w hf cfg.stdoutFile, openOutFile_ok w hf cfg.stderrFile, h0, hb]
  simp [List.append_assoc]

/-! ### More tail and shape lemmas -/

theorem filterMap_libcTail_eq_nil {α : Type} (sb : Bool) (quota : Nat) (w : World)
    (handles : List Nat) (f : Event → Option α)
    (h1 : ∀ q, f (Event.buildBrokerEndpoint q) = none)
    (h2 : ∀ pid, f (Event.killSignal pid) = none)
    (h3 : ∀ pid st, f (Event.waitPid pid st) = none)
    (h4 : ∀ pid, f (Event.logBadExit pid) = none) :
    (libcTail sb quota w handles).filterMap f = [] := by
  unfold libcTail
  cases sb
  · exact filterMap_forkWaitAll_eq_nil w f h3 h4 handles
  · cases w.brokerErr <;>
      simp [List.filterMap_cons, h1, h2, filterMap_map_killSignal_eq_nil f h2]

theorem reexecKillAll_events (w : World) :
    ∀ (hs : List Nat), ((reexecKillAll w hs).1).all isKillEvent = true := by
  intro hs
  induction hs with
  | nil => rfl
  | cons pid rest ih =>
    cases hk : w.killOk pid <;> simp [reexecKillAll, hk, isKillEvent, ih]

theorem reexecWaitAll_events (w : World) :
    ∀ (hs : List Nat), ((reexecWaitAll w hs).1).all isWaitEvent = true := by
  intro hs
  induction hs with
  | nil => rfl
  | cons pid rest ih =>
    cases hk : w.waitOk pid <;> cases hsucc : w.waitSuccess pid <;>
      simp [reexecWaitAll, hk, hsucc, isWaitEvent, ih]

theorem filterMap_reexecTail_eq_nil {α : Type} (cfg : Config) (w : World)
    (handles : List Nat) (f : Event → Option α)
    (h1 : ∀ q, f (Event.buildBrokerEndpoint q) = none)
    (h2 : ∀ e, isKillEvent e = true → f e = none)
    (h3 : ∀ e, isWaitEvent e = true → f e = none) :
    (reexecTail cfg w handles).filterMap f = [] := by
  unfold reexecTail
  cases cfg.cores.isEmpty
  · cases cfg.spawnBroker
    · simp only [Bool.false_eq_true, if_false]
      rw [List.filterMap_eq_nil_iff]
      intro e he
      exact h3 e (List.all_eq_true.mp (reexecWaitAll_events w handles) e he)
    · cases w.brokerErr <;>
        simp only [Bool.false_eq_true, if_false, if_true, List.filterMap_cons, h1] <;>
        [skip; rfl]
      rw [List.filterMap_eq_nil_iff]
      intro e he
      exact h2 e (List.all_eq_true.mp (reexecKillAll_events w handles) e he)
  · rfl

theorem afterChildFork_eq_nil_of_not_mem (l : List Event)
    (h : Event.postFork true ∉ l) : afterChildFork l = [] := by
  induction l with
  | nil => rfl
  | cons e rest ih =>
    simp only [afterChildFork]
    rw [if_neg (by intro hwrong; exact h (by simp [hwrong]))]
    exact ih (fun hm => h (by simp [hm]))

theorem afterChildFork_append_of_mem (l1 l2 : List Event)
    (h : Event.postFork true ∈ l1) :
    afterChildFork (l1 ++ l2) = afterChildFork l1 ++ l2 := by
  induction l1 with
  | nil => simp at h
  | cons e rest ih =>
    simp only [List.cons_append, afterChildFork]
    by_cases he : e = Event.postFork true
    · rw [if_pos he, if_pos he]; rfl
    · rw [if_neg he, if_neg he]
      exact ih (by rcases List.mem_cons.mp h with h' | h'; exact absurd h'.symm he; exact h')

theorem firstSleep_append_of_some (l1 l2 : List Event) (m : Nat)
    (h : firstSleep l1 = some m) : firstSleep (l1 ++ l2) = some m := by
  induction l1 with
  | nil => simp [firstSleep] at h
  | cons e rest ih =>
    cases e <;> simp only [firstSleep, List.cons_append] at h ⊢ <;>
      first | exact h | exact ih h

theorem cenAssemble_trace (cfg : CenConfig) (w : World) (pre : List Event)
    (r : List Event × (CenSt ⊕ Outcome)) :
    ∃ suf, (cenAssemble cfg w pre r).1 = pre ++ (r.1 ++ suf) := by
  unfold cenAssemble
  rcases r with ⟨tr, res⟩
  cases res with
  | inr out => exact ⟨[], by simp⟩
  | inl st =>
    cases hsb : cfg.spawnBroker
    · exact ⟨forkWaitAll w st.handles, by simp [List.append_assoc]⟩
    · cases hbe : w.brokerErr
      · exact ⟨Event.buildBrokerEndpoint cfg.cores.length :: st.handles.map Event.killSignal,
          by simp [hbe, List.append_assoc]⟩
      · exact ⟨[Event.buildBrokerEndpoint cfg.cores.length], by simp [hbe, List.append_assoc]⟩

theorem firstSleep_cenChildArm_suf (cfg : CenConfig) (debug : Bool) (w : World)
    (rest : List Nat) (st : CenSt) (core : Nat) (suf : List Event) :
    firstSleep (afterChildFork ((cenChildArm cfg debug w rest st core).1 ++ suf)) =
      some ((st.index + 1) * cfg.launchDelay) := by
  have hfs := firstSleep_cenChildArm cfg debug w rest st core
  have hmem : Event.postFork true ∈ (cenChildArm cfg debug w rest st core).1 := by
    by_contra hmem
    rw [afterChildFork_eq_nil_of_not_mem _ hmem] at hfs
    simp [firstSleep] at hfs
  rw [afterChildFork_append_of_mem _ _ hmem]
  exact firstSleep_append_of_some _ _ _ hfs

theorem openOutFile_no_childMark (w : World) (f : Option String) :
    ∀ e ∈ (openOutFile w f).1, e ≠ Event.postFork true := by
  intro e he
  obtain ⟨g, rfl⟩ := openOutFile_events w f e he
  simp

/-! ### Extractor corollaries -/
theorem spawnedWorkers_append (l1 l2 : List Event) :
    spawnedWorkers (l1 ++ l2) = spawnedWorkers l1 ++ spawnedWorkers l2 := by
  simp [spawnedWorkers]
theorem spawnedPids_append (l1 l2 : List Event) :
    spawnedPids (l1 ++ l2) = spawnedPids l1 ++ spawnedPids l2 := by
  simp [spawnedPids]
theorem centralBrokerForks_append (l1 l2 : List Event) :
    centralBrokerForks (l1 ++ l2) = centralBrokerForks l1 ++ centralBrokerForks l2 := by
  simp [centralBrokerForks]
theorem clientEndpoints_append (l1 l2 : List Event) :
    clientEndpoints (l1 ++ l2) = clientEndpoints l1 ++ clientEndpoints l2 := by
  simp [clientEndpoints]
theorem brokerQuotas_append (l1 l2 : List Event) :
    brokerQuotas (l1 ++ l2) = brokerQuotas l1 ++ brokerQuotas l2 := by
  simp [brokerQuotas]
theorem centralBrokerBuilds_append (l1 l2 : List Event) :
    centralBrokerBuilds (l1 ++ l2) = centralBrokerBuilds l1 ++ centralBrokerBuilds l2 := by
  simp [centralBrokerBuilds]
theorem centralClientBuilds_append (l1 l2 : List Event) :
    centralClientBuilds (l1 ++ l2) = centralClientBuilds l1 ++ centralClientBuilds l2 := by
  simp [centralClientBuilds]
theorem clientCbs_append (l1 l2 : List Event) :
    clientCbs (l1 ++ l2) = clientCbs l1 ++ clientCbs l2 := by
  simp [clientCbs]
theorem mainCbs_append (l1 l2 : List Event) :
    mainCbs (l1 ++ l2) = mainCbs l1 ++ mainCbs l2 := by
  simp [mainCbs]
theorem secondaryCbs_append (l1 l2 : List Event) :
    secondaryCbs (l1 ++ l2) = secondaryCbs l1 ++ secondaryCbs l2 := by
  simp [secondaryCbs]
theorem kills_append (l1 l2 : List Event) :
    kills (l1 ++ l2) = kills l1 ++ kills l2 := by
  simp [kills]
theorem waitedPids_append (l1 l2 : List Event) :
    waitedPids (l1 ++ l2) = waitedPids l1 ++ waitedPids l2 := by
  simp [waitedPids]
theorem loggedBadExits_append (l1 l2 : List Event) :
    loggedBadExits (l1 ++ l2) = loggedBadExits l1 ++ loggedBadExits l2 := by
  simp [loggedBadExits]
theorem dup2Calls_append (l1 l2 : List Event) :
    dup2Calls (l1 ++ l2) = dup2Calls l1 ++ dup2Calls l2 := by
  simp [dup2Calls]
theorem filesCreated_append (l1 l2 : List Event) :
    filesCreated (l1 ++ l2) = filesCreated l1 ++ filesCreated l2 := by
  simp [filesCreated]
theorem sleeps_append (l1 l2 : List Event) :
    sleeps (l1 ++ l2) = sleeps l1 ++ sleeps l2 := by
  simp [sleeps]
theorem centralBrokerForks_parentTrace (p : Nat → Nat) (sel : List Nat) (fc : Nat) :
    centralBrokerForks (parentTrace p sel fc) = [] :=
  filterMap_parentTrace_eq_nil p _ rfl rfl (fun _ _ => rfl) sel fc
theorem clientEndpoints_parentTrace (p : Nat → Nat) (sel : List Nat) (fc : Nat) :
    clientEndpoints (parentTrace p sel fc) = [] :=
  filterMap_parentTrace_eq_nil p _ rfl rfl (fun _ _ => rfl) sel fc
theorem brokerQuotas_parentTrace (p : Nat → Nat) (sel : List Nat) (fc : Nat) :
    brokerQuotas (parentTrace p sel fc) = [] :=
  filterMap_parentTrace_eq_nil p _ rfl rfl (fun _ _ => rfl) sel fc
theorem centralBrokerBuilds_parentTrace (p : Nat → Nat) (sel : List Nat) (fc : Nat) :
    centralBrokerBuilds (parentTrace p sel fc) = [] :=
  filterMap_parentTrace_eq_nil p _ rfl rfl (fun _ _ => rfl) sel fc
theorem centralClientBuilds_parentTrace (p : Nat → Nat) (sel : List Nat) (fc : Nat) :
    centralClientBuilds (parentTrace p sel fc) = [] :=
  filterMap_parentTrace_eq_nil p _ rfl rfl (fun _ _ => rfl) sel fc
theorem clientCbs_parentTrace (p : Nat → Nat) (sel : List Nat) (fc : Nat) :
    clientCbs (parentTrace p sel fc) = [] :=
  filterMap_parentTrace_eq_nil p _ rfl rfl (fun _ _ => rfl) sel fc
theorem mainCbs_parentTrace (p : Nat → Nat) (sel : List Nat) (fc : Nat) :
    mainCbs (parentTrace p sel fc) = [] :=
  filterMap_parentTrace_eq_nil p _ rfl rfl (fun _ _ => rfl) sel fc
theorem secondaryCbs_parentTrace (p : Nat → Nat) (sel : List Nat) (fc : Nat) :
    secondaryCbs (parentTrace p sel fc) = [] :=
  filterMap_parentTrace_eq_nil p _ rfl rfl (fun _ _ => rfl) sel fc
theorem kills_parentTrace (p : Nat → Nat) (sel : List Nat) (fc : Nat) :
    kills (parentTrace p sel fc) = [] :=
  filterMap_parentTrace_eq_nil p _ rfl rfl (fun _ _ => rfl) sel fc
theorem waitedPids_parentTrace (p : Nat → Nat) (sel : List Nat) (fc : Nat) :
    waitedPids (parentTrace p sel fc) = [] :=
  filterMap_parentTrace_eq_nil p _ rfl rfl (fun _ _ => rfl) sel fc
theorem loggedBadExits_parentTrace (p : Nat → Nat) (sel : List Nat) (fc : Nat) :
    loggedBadExits (parentTrace p sel fc) = [] :=
  filterMap_parentTrace_eq_nil p _ rfl rfl (fun _ _ => rfl) sel fc
theorem dup2Calls_parentTrace (p : Nat → Nat) (sel : List Nat) (fc : Nat) :
    dup2Calls (parentTrace p sel fc) = [] :=
  filterMap_parentTrace_eq_nil p _ rfl rfl (fun _ _ => rfl) sel fc
theorem filesCreated_parentTrace (p : Nat → Nat) (sel : List Nat) (fc : Nat) :
    filesCreated (parentTrace p sel fc) = [] :=
  filterMap_parentTrace_eq_nil p _ rfl rfl (fun _ _ => rfl) sel fc
theorem sleeps_parentTrace (p : Nat → Nat) (sel : List Nat) (fc : Nat) :
    sleeps (parentTrace p sel fc) = [] :=
  filterMap_parentTrace_eq_nil p _ rfl rfl (fun _ _ => rfl) sel fc
theorem spawnedWorkers_openOutFile (w : World) (f : Option String) :
    spawnedWorkers ((openOutFile w f).1) = [] :=
  filterMap_openOutFile_eq_nil w f _ (fun _ => rfl)
theorem spawnedPids_openOutFile (w : World) (f : Option String) :
    spawnedPids ((openOutFile w f).1) = [] :=
  filterMap_openOutFile_eq_nil w f _ (fun _ => rfl)
theorem centralBrokerForks_openOutFile (w : World) (f : Option String) :
    centralBrokerForks ((openOutFile w f).1) = [] :=
  filterMap_openOutFile_eq_nil w f _ (fun _ => rfl)
theorem clientEndpoints_openOutFile (w : World) (f : Option String) :
    clientEndpoints ((openOutFile w f).1) = [] :=
  filterMap_openOutFile_eq_nil w f _ (fun _ => rfl)
theorem brokerQuotas_openOutFile (w : World) (f : Option String) :
    brokerQuotas ((openOutFile w f).1) = [] :=
  filterMap_openOutFile_eq_nil w f _ (fun _ => rfl)
theorem centralBrokerBuilds_openOutFile (w : World) (f : Option String) :
    centralBrokerBuilds ((openOutFile w f).1) = [] :=
  filterMap_openOutFile_eq_nil w f _ (fun _ => rfl)
theorem centralClientBuilds_openOutFile (w : World) (f : Option String) :
    centralClientBuilds ((openOutFile w f).1) = [] :=
  filterMap_openOutFile_eq_nil w f _ (fun _ => rfl)
theorem clientCbs_openOutFile (w : World) (f : Option String) :
    clientCbs ((openOutFile w f).1) = [] :=
  filterMap_openOutFile_eq_nil w f _ (fun _ => rfl)
theorem mainCbs_openOutFile (w : World) (f : Option String) :
    mainCbs ((openOutFile w f).1) = [] :=
  filterMap_openOutFile_eq_nil w f _ (fun _ => rfl)
theorem secondaryCbs_openOutFile (w : World) (f : Option String) :
    secondaryCbs ((openOutFile w f).1) = [] :=
  filterMap_openOutFile_eq_nil w f _ (fun _ => rfl)
theorem kills_openOutFile (w : World) (f : Option String) :
    kills ((openOutFile w f).1) = [] :=
  filterMap_openOutFile_eq_nil w f _ (fun _ => rfl)
theorem waitedPids_openOutFile (w : World) (f : Option String) :
    waitedPids ((openOutFile w f).1) = [] :=
  filterMap_openOutFile_eq_nil w f _ (fun _ => rfl)
theorem loggedBadExits_openOutFile (w : World) (f : Option String) :
    loggedBadExits ((openOutFile w f).1) = [] :=
  filterMap_openOutFile_eq_nil w f _ (fun _ => rfl)
theorem dup2Calls_openOutFile (w : World) (f : Option String) :
    dup2Calls ((openOutFile w f).1) = [] :=
  filterMap_openOutFile_eq_nil w f _ (fun _ => rfl)
theorem sleeps_openOutFile (w : World) (f : Option String) :
    sleeps ((openOutFile w f).1) = [] :=
  filterMap_openOutFile_eq_nil w f _ (fun _ => rfl)
theorem spawnedWorkers_libcTail (sb : Bool) (quota : Nat) (w : World) (hs : List Nat) :
    spawnedWorkers (libcTail sb quota w hs) = [] :=
  filterMap_libcTail_eq_nil sb quota w hs _ (fun _ => rfl) (fun _ => rfl) (fun _ _ => rfl) (fun _ => rfl)
theorem spawnedPids_libcTail (sb : Bool) (quota : Nat) (w : World) (hs : List Nat) :
    spawnedPids (libcTail sb quota w hs) = [] :=
  filterMap_libcTail_eq_nil sb quota w hs _ (fun _ => rfl) (fun _ => rfl) (fun _ _ => rfl) (fun _ => rfl)
theorem centralBrokerForks_libcTail (sb : Bool) (quota : Nat) (w : World) (hs : List Nat) :
    centralBrokerForks (libcTail sb quota w hs) = [] :=
  filterMap_libcTail_eq_nil sb quota w hs _ (fun _ => rfl) (fun _ => rfl) (fun _ _ => rfl) (fun _ => rfl)
theorem clientEndpoints_libcTail (sb : Bool) (quota : Nat) (w : World) (hs : List Nat) :
    clientEndpoints (libcTail sb quota w hs) = [] :=
  filterMap_libcTail_eq_nil sb quota w hs _ (fun _ => rfl) (fun _ => rfl) (fun _ _ => rfl) (fun _ => rfl)
theorem centralBrokerBuilds_libcTail (sb : Bool) (quota : Nat) (w : World) (hs : List Nat) :
    centralBrokerBuilds (libcTail sb quota w hs) = [] :=
  filterMap_libcTail_eq_nil sb quota w hs _ (fun _ => rfl) (fun _ => rfl) (fun _ _ => rfl) (fun _ => rfl)
theorem centralClientBuilds_libcTail (sb : Bool) (quota : Nat) (w : World) (hs : List Nat) :
    centralClientBuilds (libcTail sb quota w hs) = [] :=
  filterMap_libcTail_eq_nil sb quota w hs _ (fun _ => rfl) (fun _ => rfl) (fun _ _ => rfl) (fun _ => rfl)
theorem clientCbs_libcTail (sb : Bool) (quota : Nat) (w : World) (hs : List Nat) :
    clientCbs (libcTail sb quota w hs) = [] :=
  filterMap_libcTail_eq_nil sb quota w hs _ (fun _ => rfl) (fun _ => rfl) (fun _ _ => rfl) (fun _ => rfl)
theorem mainCbs_libcTail (sb : Bool) (quota : Nat) (w : World) (hs : List Nat) :
    mainCbs (libcTail sb quota w hs) = [] :=
  filterMap_libcTail_eq_nil sb quota w hs _ (fun _ => rfl) (fun _ => rfl) (fun _ _ => rfl) (fun _ => rfl)
theorem secondaryCbs_libcTail (sb : Bool) (quota : Nat) (w : World) (hs : List Nat) :
    secondaryCbs (libcTail sb quota w hs) = [] :=
  filterMap_libcTail_eq_nil sb quota w hs _ (fun _ => rfl) (fun _ => rfl) (fun _ _ => rfl) (fun _ => rfl)
theorem dup2Calls_libcTail (sb : Bool) (quota : Nat) (w : World) (hs : List Nat) :
    dup2Calls (libcTail sb quota w hs) = [] :=
  filterMap_libcTail_eq_nil sb quota w hs _ (fun _ => rfl) (fun _ => rfl) (fun _ _ => rfl) (fun _ => rfl)
theorem filesCreated_libcTail (sb : Bool) (quota : Nat) (w : World) (hs : List Nat) :
    filesCreated (libcTail sb quota w hs) = [] :=
  filterMap_libcTail_eq_nil sb quota w hs _ (fun _ => rfl) (fun _ => rfl) (fun _ _ => rfl) (fun _ => rfl)
theorem sleeps_libcTail (sb : Bool) (quota : Nat) (w : World) (hs : List Nat) :
    sleeps (libcTail sb quota w hs) = [] :=
  filterMap_libcTail_eq_nil sb quota w hs _ (fun _ => rfl) (fun _ => rfl) (fun _ _ => rfl) (fun _ => rfl)
theorem spawnedWorkers_reexecSelfRedirect (cfg : Config) (w : World) (debug : Bool) :
    spawnedWorkers ((reexecSelfRedirect cfg w debug).1) = [] :=
  filterMap_reexecSelfRedirect_eq_nil cfg w debug _ (fun e he => by cases e <;> first | rfl | simp [isSetupEvent] at he)
theorem spawnedPids_reexecSelfRedirect (cfg : Config) (w : World) (debug : Bool) :
    spawnedPids ((reexecSelfRedirect cfg w debug).1) = [] :=
  filterMap_reexecSelfRedirect_eq_nil cfg w debug _ (fun e he => by cases e <;> first | rfl | simp [isSetupEvent] at he)
theorem centralBrokerForks_reexecSelfRedirect (cfg : Config) (w : World) (debug : Bool) :
    centralBrokerForks ((reexecSelfRedirect cfg w debug).1) = [] :=
  filterMap_reexecSelfRedirect_eq_nil cfg w debug _ (fun e he => by cases e <;> first | rfl | simp [isSetupEvent] at he)
theorem clientEndpoints_reexecSelfRedirect (cfg : Config) (w : World) (debug : Bool) :
    clientEndpoints ((reexecSelfRedirect cfg w debug).1) = [] :=
  filterMap_reexecSelfRedirect_eq_nil cfg w debug _ (fun e he => by cases e <;> first | rfl | simp [isSetupEvent] at he)
theorem brokerQuotas_reexecSelfRedirect (cfg : Config) (w : World) (debug : Bool) :
    brokerQuotas ((reexecSelfRedirect cfg w debug).1) = [] :=
  filterMap_reexecSelfRedirect_eq_nil cfg w debug _ (fun e he => by cases e <;> first | rfl | simp [isSetupEvent] at he)
theorem centralBrokerBuilds_reexecSelfRedirect (cfg : Config) (w : World) (debug : Bool) :
    centralBrokerBuilds ((reexecSelfRedirect cfg w debug).1) = [] :=
  filterMap_reexecSelfRedirect_eq_nil cfg w debug _ (fun e he => by cases e <;> first | rfl | simp [isSetupEvent] at he)
theorem centralClientBuilds_reexecSelfRedirect (cfg : Config) (w : World) (debug : Bool) :
    centralClientBuilds ((reexecSelfRedirect cfg w debug).1) = [] :=
  filterMap_reexecSelfRedirect_eq_nil cfg w debug _ (fun e he => by cases e <;> first | rfl | simp [isSetupEvent] at he)
theorem clientCbs_reexecSelfRedirect (cfg : Config) (w : World) (debug : Bool) :
    clientCbs ((reexecSelfRedirect cfg w debug).1) = [] :=
  filterMap_reexecSelfRedirect_eq_nil cfg w debug _ (fun e he => by cases e <;> first | rfl | simp [isSetupEvent] at he)
theorem mainCbs_reexecSelfRedirect (cfg : Config) (w : World) (debug : Bool) :
    mainCbs ((reexecSelfRedirect cfg w debug).1) = [] :=
  filterMap_reexecSelfRedirect_eq_nil cfg w debug _ (fun e he => by cases e <;> first | rfl | simp [isSetupEvent] at he)
theorem secondaryCbs_reexecSelfRedirect (cfg : Config) (w : World) (debug : Bool) :
    secondaryCbs ((reexecSelfRedirect cfg w debug).1) = [] :=
  filterMap_reexecSelfRedirect_eq_nil cfg w debug _ (fun e he => by cases e <;> first | rfl | simp [isSetupEvent] at he)
theorem kills_reexecSelfRedirect (cfg : Config) (w : World) (debug : Bool) :
    kills ((reexecSelfRedirect cfg w debug).1) = [] :=
  filterMap_reexecSelfRedirect_eq_nil cfg w debug _ (fun e he => by cases e <;> first | rfl | simp [isSetupEvent] at he)
theorem waitedPids_reexecSelfRedirect (cfg : Config) (w : World) (debug : Bool) :
    waitedPids ((reexecSelfRedirect cfg w debug).1) = [] :=
  filterMap_reexecSelfRedirect_eq_nil cfg w debug _ (fun e he => by cases e <;> first | rfl | simp [isSetupEvent] at he)
theorem loggedBadExits_reexecSelfRedirect (cfg : Config) (w : World) (debug : Bool) :
    loggedBadExits ((reexecSelfRedirect cfg w debug).1) = [] :=
  filterMap_reexecSelfRedirect_eq_nil cfg w debug _ (fun e he => by cases e <;> first | rfl | simp [isSetupEvent] at he)
theorem sleeps_reexecSelfRedirect (cfg : Config) (w : World) (debug : Bool) :
    sleeps ((reexecSelfRedirect cfg w debug).1) = [] :=
  filterMap_reexecSelfRedirect_eq_nil cfg w debug _ (fun e he => by cases e <;> first | rfl | simp [isSetupEvent] at he)
theorem centralBrokerForks_reexecTrace (cfg : Config) (env : Env) (w : World) (sel : List Nat) :
    centralBrokerForks (reexecTrace cfg env w sel) = [] :=
  filterMap_reexecTrace_eq_nil cfg env w _ (fun _ => rfl) (fun _ => rfl) (fun _ _ _ => rfl) sel
theorem clientEndpoints_reexecTrace (cfg : Config) (env : Env) (w : World) (sel : List Nat) :
    clientEndpoints (reexecTrace cfg env w sel) = [] :=
  filterMap_reexecTrace_eq_nil cfg env w _ (fun _ => rfl) (fun _ => rfl) (fun _ _ _ => rfl) sel
theorem brokerQuotas_reexecTrace (cfg : Config) (env : Env) (w : World) (sel : List Nat) :
    brokerQuotas (reexecTrace cfg env w sel) = [] :=
  filterMap_reexecTrace_eq_nil cfg env w _ (fun _ => rfl) (fun _ => rfl) (fun _ _ _ => rfl) sel
theorem centralBrokerBuilds_reexecTrace (cfg : Config) (env : Env) (w : World) (sel : List Nat) :
    centralBrokerBuilds (reexecTrace cfg env w sel) = [] :=
  filterMap_reexecTrace_eq_nil cfg env w _ (fun _ => rfl) (fun _ => rfl) (fun _ _ _ => rfl) sel
theorem centralClientBuilds_reexecTrace (cfg : Config) (env : Env) (w : World) (sel : List Nat) :
    centralClientBuilds (reexecTrace cfg env w sel) = [] :=
  filterMap_reexecTrace_eq_nil cfg env w _ (fun _ => rfl) (fun _ => rfl) (fun _ _ _ => rfl) sel
theorem clientCbs_reexecTrace (cfg : Config) (env : Env) (w : World) (sel : List Nat) :
    clientCbs (reexecTrace cfg env w sel) = [] :=
  filterMap_reexecTrace_eq_nil cfg env w _ (fun _ => rfl) (fun _ => rfl) (fun _ _ _ => rfl) sel
theorem mainCbs_reexecTrace (cfg : Config) (env : Env) (w : World) (sel : List Nat) :
    mainCbs (reexecTrace cfg env w sel) = [] :=
  filterMap_reexecTrace_eq_nil cfg env w _ (fun _ => rfl) (fun _ => rfl) (fun _ _ _ => rfl) sel
theorem secondaryCbs_reexecTrace (cfg : Config) (env : Env) (w : World) (sel : List Nat) :
    secondaryCbs (reexecTrace cfg env w sel) = [] :=
  filterMap_reexecTrace_eq_nil cfg env w _ (fun _ => rfl) (fun _ => rfl) (fun _ _ _ => rfl) sel
theorem kills_reexecTrace (cfg : Config) (env : Env) (w : World) (sel : List Nat) :
    kills (reexecTrace cfg env w sel) = [] :=
  filterMap_reexecTrace_eq_nil cfg env w _ (fun _ => rfl) (fun _ => rfl) (fun _ _ _ => rfl) sel
theorem waitedPids_reexecTrace (cfg : Config) (env : Env) (w : World) (sel : List Nat) :
    waitedPids (reexecTrace cfg env w sel) = [] :=
  filterMap_reexecTrace_eq_nil cfg env w _ (fun _ => rfl) (fun _ => rfl) (fun _ _ _ => rfl) sel
theorem loggedBadExits_reexecTrace (cfg : Config) (env : Env) (w : World) (sel : List Nat) :
    loggedBadExits (reexecTrace cfg env w sel) = [] :=
  filterMap_reexecTrace_eq_nil cfg env w _ (fun _ => rfl) (fun _ => rfl) (fun _ _ _ => rfl) sel
theorem dup2Calls_reexecTrace (cfg : Config) (env : Env) (w : World) (sel : List Nat) :
    dup2Calls (reexecTrace cfg env w sel) = [] :=
  filterMap_reexecTrace_eq_nil cfg env w _ (fun _ => rfl) (fun _ => rfl) (fun _ _ _ => rfl) sel
theorem filesCreated_reexecTrace (cfg : Config) (env : Env) (w : World) (sel : List Nat) :
    filesCreated (reexecTrace cfg env w sel) = [] :=
  filterMap_reexecTrace_eq_nil cfg env w _ (fun _ => rfl) (fun _ => rfl) (fun _ _ _ => rfl) sel
theorem spawnedWorkers_reexecTail (cfg : Config) (w : World) (hs : List Nat) :
    spawnedWorkers (reexecTail cfg w hs) = [] :=
  filterMap_reexecTail_eq_nil cfg w hs _ (fun _ => rfl) (fun e he => by cases e <;> first | rfl | simp [isKillEvent] at he) (fun e he => by cases e <;> first | rfl | simp [isWaitEvent] at he)
theorem spawnedPids_reexecTail (cfg : Config) (w : World) (hs : List Nat) :
    spawnedPids (reexecTail cfg w hs) = [] :=
  filterMap_reexecTail_eq_nil cfg w hs _ (fun _ => rfl) (fun e he => by cases e <;> first | rfl | simp [isKillEvent] at he) (fun e he => by cases e <;> first | rfl | simp [isWaitEvent] at he)
theorem centralBrokerForks_reexecTail (cfg : Config) (w : World) (hs : List Nat) :
    centralBrokerForks (reexecTail cfg w hs) = [] :=
  filterMap_reexecTail_eq_nil cfg w hs _ (fun _ => rfl) (fun e he => by cases e <;> first | rfl | simp [isKillEvent] at he) (fun e he => by cases e <;> first | rfl | simp [isWaitEvent] at he)
theorem clientEndpoints_reexecTail (cfg : Config) (w : World) (hs : List Nat) :
    clientEndpoints (reexecTail cfg w hs) = [] :=
  filterMap_reexecTail_eq_nil cfg w hs _ (fun _ => rfl) (fun e he => by cases e <;> first | rfl | simp [isKillEvent] at he) (fun e he => by cases e <;> first | rfl | simp [isWaitEvent] at he)
theorem centralBrokerBuilds_reexecTail (cfg : Config) (w : World) (hs : List Nat) :
    centralBrokerBuilds (reexecTail cfg w hs) = [] :=
  filterMap_reexecTail_eq_nil cfg w hs _ (fun _ => rfl) (fun e he => by cases e <;> first | rfl | simp [isKillEvent] at he) (fun e he => by cases e <;> first | rfl | simp [isWaitEvent] at he)
theorem centralClientBuilds_reexecTail (cfg : Config) (w : World) (hs : List Nat) :
    centralClientBuilds (reexecTail cfg w hs) = [] :=
  filterMap_reexecTail_eq_nil cfg w hs _ (fun _ => rfl) (fun e he => by cases e <;> first | rfl | simp [isKillEvent] at he) (fun e he => by cases e <;> first | rfl | simp [isWaitEvent] at he)
theorem clientCbs_reexecTail (cfg : Config) (w : World) (hs : List Nat) :
    clientCbs (reexecTail cfg w hs) = [] :=
  filterMap_reexecTail_eq_nil cfg w hs _ (fun _ => rfl) (fun e he => by cases e <;> first | rfl | simp [isKillEvent] at he) (fun e he => by cases e <;> first | rfl | simp [isWaitEvent] at he)
theorem mainCbs_reexecTail (cfg : Config) (w : World) (hs : List Nat) :
    mainCbs (reexecTail cfg w hs) = [] :=
  filterMap_reexecTail_eq_nil cfg w hs _ (fun _ => rfl) (fun e he => by cases e <;> first | rfl | simp [isKillEvent] at he) (fun e he => by cases e <;> first | rfl | simp [isWaitEvent] at he)
theorem secondaryCbs_reexecTail (cfg : Config) (w : World) (hs : List Nat) :
    secondaryCbs (reexecTail cfg w hs) = [] :=
  filterMap_reexecTail_eq_nil cfg w hs _ (fun _ => rfl) (fun e he => by cases e <;> first | rfl | simp [isKillEvent] at he) (fun e he => by cases e <;> first | rfl | simp [isWaitEvent] at he)
theorem dup2Calls_reexecTail (cfg : Config) (w : World) (hs : List Nat) :
    dup2Calls (reexecTail cfg w hs) = [] :=
  filterMap_reexecTail_eq_nil cfg w hs _ (fun _ => rfl) (fun e he => by cases e <;> first | rfl | simp [isKillEvent] at he) (fun e he => by cases e <;> first | rfl | simp [isWaitEvent] at he)
theorem filesCreated_reexecTail (cfg : Config) (w : World) (hs : List Nat) :
    filesCreated (reexecTail cfg w hs) = [] :=
  filterMap_reexecTail_eq_nil cfg w hs _ (fun _ => rfl) (fun e he => by cases e <;> first | rfl | simp [isKillEvent] at he) (fun e he => by cases e <;> first | rfl | simp [isWaitEvent] at he)
theorem sleeps_reexecTail (cfg : Config) (w : World) (hs : List Nat) :
    sleeps (reexecTail cfg w hs) = [] :=
  filterMap_reexecTail_eq_nil cfg w hs _ (fun _ => rfl) (fun e he => by cases e <;> first | rfl | simp [isKillEvent] at he) (fun e he => by cases e <;> first | rfl | simp [isWaitEvent] at he)
theorem libcTail_false (quota : Nat) (w : World) (hs : List Nat) :
    libcTail false quota w hs = forkWaitAll w hs := rfl

theorem libcTail_true_none (quota : Nat) (w : World) (hs : List Nat)
    (hbe : w.brokerErr = none) :
    libcTail true quota w hs =
      Event.buildBrokerEndpoint quota :: hs.map Event.killSignal := by
  unfold libcTail
  rw [hbe]
  rfl

theorem libcTail_true_some (quota : Nat) (w : World) (hs : List Nat) (e : Err)
    (hbe : w.brokerErr = some e) :
    libcTail true quota w hs = [Event.buildBrokerEndpoint quota] := by
  unfold libcTail
  rw [hbe]
  rfl

theorem brokerQuotas_libcTail_true (quota : Nat) (w : World) (hs : List Nat) :
    brokerQuotas (libcTail true quota w hs) = [quota] := by
  cases hbe : w.brokerErr
  · rw [libcTail_true_none quota w hs hbe]
    simp only [brokerQuotas, List.filterMap_cons]
    rw [filterMap_map_killSignal_eq_nil _ (fun _ => rfl)]
  · rw [libcTail_true_some quota w hs _ hbe]
    rfl

theorem kills_libcTail_true_none (quota : Nat) (w : World) (hs : List Nat)
    (hbe : w.brokerErr = none) :
    kills (libcTail true quota w hs) = hs := by
  rw [libcTail_true_none quota w hs hbe]
  simp only [kills, List.filterMap_cons]
  simpa [kills] using kills_map_killSignal hs

theorem kills_libcTail_false (quota : Nat) (w : World) (hs : List Nat) :
    kills (libcTail false quota w hs) = [] := by
  rw [libcTail_false]
  exact filterMap_forkWaitAll_eq_nil w _ (fun _ _ => rfl) (fun _ => rfl) hs

theorem waitedPids_libcTail_false (quota : Nat) (w : World) (hs : List Nat) :
    waitedPids (libcTail false quota w hs) = hs := by
  rw [libcTail_false]
  exact waitedPids_forkWaitAll w hs

theorem kills_libcTail_true (quota : Nat) (w : World) (hs : List Nat) :
    kills (libcTail true quota w hs) = if w.brokerErr = none then hs else [] := by
  cases hbe : w.brokerErr
  · simp only [if_pos rfl]
    exact kills_libcTail_true_none quota w hs hbe
  · rw [libcTail_true_some quota w hs _ hbe]
    simp [kills]

theorem waitedPids_libcTail_true (quota : Nat) (w : World) (hs : List Nat) :
    waitedPids (libcTail true quota w hs) = [] := by
  cases hbe : w.brokerErr
  · rw [libcTail_true_none quota w hs hbe]
    simp only [waitedPids, List.filterMap_cons]
    rw [filterMap_map_killSignal_eq_nil _ (fun _ => rfl)]
  · rw [libcTail_true_some quota w hs _ hbe]
    rfl

/-! ### Concrete fixtures for witnesses and counterexamples -/

/-- A fully benign world: every external operation succeeds and every
`fork()` keeps this process in the parent role. -/
def wBenign : World where
  numCores := 4
  coreIdsOk := true
  fileCreateOk := fun _ => true
  dup2Ok := true
  forkRes := fun n => .parent (100 + n)
  spawnErr := fun _ => none
  spawnPid := fun c => 200 + c
  clientEndpointErr := fun _ => none
  runClientErr := fun _ => none
  brokerErr := none
  centralBrokerBuildErr := none
  centralClientBuildErr := fun _ => none
  mainErr := fun _ => none
  secondaryErr := fun _ => none
  killOk := fun _ => true
  waitStatus := fun _ => 0
  waitOk := fun _ => true
  waitSuccess := fun _ => true

/-- Orchestrator environment: no debug override, no client marker. -/
def envOrch : Env where
  debugOutput := false
  launcherClient := .notPresent

/-- A configuration with no `run_client` callback set. -/
def cfgNoCb : Config where
  cores := [0]
  runClient := false
  brokerPort := 1337
  stdoutFile := none
  stderrFile := none
  launchDelay := 10
  spawnBroker := true

/-- A centralized configuration with no `secondary_run_client` set. -/
def ccfgNoCb : CenConfig where
  cores := [0]
  secondaryRunClient := false
  mainRunClient := true
  brokerPort := 1337
  centralizedBrokerPort := 1338
  stdoutFile := none
  stderrFile := none
  launchDelay := 10
  spawnBroker := true

/-- Worker-role environment for the re-exec path, bound to core 2. -/
def envMarker2 : Env where
  debugOutput := false
  launcherClient := .present "2"

/-! ### C1: launching without a client callback -/

/-- **C1, counterexample.**  The claim says every launch path with no
client callback fails immediately with a configuration error before any
process is created.  On the re-exec orchestrator path with
`run_client = None` the launch spawns a worker and returns `Ok`:
no configuration error, one process created. -/
theorem c1_counterexample :
    (launchWithHooksReexec cfgNoCb envOrch wBenign).2 = Outcome.ok ∧
    spawnedWorkers (launchWithHooksReexec cfgNoCb envOrch wBenign).1 = [0] ∧
    isConfigErr (launchWithHooksReexec cfgNoCb envOrch wBenign).2 = false := by
  exact ⟨rfl, rfl, rfl⟩

/-- **C1, amended.**  The fork path and the centralized path do fail
immediately with a configuration error and an empty trace when no client
callback is set; the re-exec path performs no such validation — its
worker-role invocation panics when it takes the absent callback (and its
orchestrator role proceeds normally, see the counterexample). -/
theorem c1_amended (cfg : Config) (ccfg : CenConfig) (env : Env) (w : World)
    (s : String) (c : Nat)
    (h1 : cfg.runClient = false) (h2 : ccfg.secondaryRunClient = false)
    (h3 : env.launcherClient = EnvVal.present s) (h4 : parseUsize s = some c)
    (h5 : w.clientEndpointErr c = none) :
    (isConfigErr (launchWithHooksFork cfg env w).2 = true ∧
      (launchWithHooksFork cfg env w).1 = []) ∧
    (isConfigErr (launchGeneric ccfg env w).2 = true ∧
      (launchGeneric ccfg env w).1 = []) ∧
    (launchWithHooksReexec cfg env w).2 =
      Outcome.panicked "called Option::unwrap on None" := by
  refine ⟨?_, ?_, ?_⟩
  · simp only [launchWithHooksFork]
    cases hie : cfg.cores.isEmpty <;> simp [hie, h1, isConfigErr]
  · simp only [launchGeneric]
    cases hie : ccfg.cores.isEmpty <;> simp [hie, h2, isConfigErr]
  · simp only [launchWithHooksReexec]
    rw [h3]
    simp [h4, h5, h1]

/-- Witness for `c1_amended` at a concrete input. -/
theorem c1_amended_witness :
    (isConfigErr (launchWithHooksFork cfgNoCb envMarker2 wBenign).2 = true ∧
      (launchWithHooksFork cfgNoCb envMarker2 wBenign).1 = []) ∧
    (isConfigErr (launchGeneric ccfgNoCb envMarker2 wBenign).2 = true ∧
      (launchGeneric ccfgNoCb envMarker2 wBenign).1 = []) ∧
    (launchWithHooksReexec cfgNoCb envMarker2 wBenign).2 =
      Outcome.panicked "called Option::unwrap on None" :=
  c1_amended cfgNoCb ccfgNoCb envMarker2 wBenign "2" 2 rfl rfl rfl (by decide) rfl

/-! ### C2: launching with an empty core set -/

/-- A configuration with an empty core set and a configured stdout file. -/
def cfgEmptyCores : Config where
  cores := []
  runClient := true
  brokerPort := 1337
  stdoutFile := some "fuzz.log"
  stderrFile := none
  launchDelay := 10
  spawnBroker := true

/-- A centralized configuration with an empty core set. -/
def ccfgEmptyCores : CenConfig where
  cores := []
  secondaryRunClient := true
  mainRunClient := true
  brokerPort := 1337
  centralizedBrokerPort := 1338
  stdoutFile := some "fuzz.log"
  stderrFile := none
  launchDelay := 10
  spawnBroker := true

/-- **C2, counterexample.**  The claim says a launch with an empty core
set returns a configuration error with the system as if launch was never
called.  On the re-exec orchestrator path the error does come back, but
only after the launch has already created the configured redirection file
and redirected the parent's own stdout and stderr to it — the system
state is not untouched. -/
theorem c2_counterexample :
    (launchWithHooksReexec cfgEmptyCores envOrch wBenign).2 =
      Outcome.err (Err.illegalArgument
        "No cores to spawn on given, cannot launch anything.") ∧
    filesCreated (launchWithHooksReexec cfgEmptyCores envOrch wBenign).1 =
      ["fuzz.log"] ∧
    dup2Calls (launchWithHooksReexec cfgEmptyCores envOrch wBenign).1 =
      [("fuzz.log", Fd.fdOut), ("fuzz.log", Fd.fdErr)] := by
  exact ⟨rfl, rfl, rfl⟩

/-- **C2, amended.**  All three paths return the empty-core-set
configuration error and create zero processes (no worker spawns, no
endpoints).  On the fork and centralized paths the check precedes every
side effect, so the trace is empty; on the re-exec orchestrator path the
check runs only after the (vacuous) spawn loop, by which time the
redirection files were already created and the parent's stdio redirected
(see the counterexample), though still no process exists. -/
theorem c2_amended (cfg : Config) (ccfg : CenConfig) (env : Env) (w : World)
    (hc : cfg.cores = []) (hcc : ccfg.cores = [])
    (hcl : env.launcherClient = EnvVal.notPresent) (hci : w.coreIdsOk = true)
    (hf : filesOk w) (hd : w.dup2Ok = true) :
    launchWithHooksFork cfg env w =
      ([], .err (.illegalArgument "No cores to spawn on given, cannot launch anything.")) ∧
    launchGeneric ccfg env w =
      ([], .err (.illegalArgument "No cores to spawn on given, cannot launch anything.")) ∧
    (launchWithHooksReexec cfg env w).2 =
      .err (.illegalArgument "No cores to spawn on given, cannot launch anything.") ∧
    spawnedPids (launchWithHooksReexec cfg env w).1 = [] ∧
    clientEndpoints (launchWithHooksReexec cfg env w).1 = [] ∧
    brokerQuotas (launchWithHooksReexec cfg env w).1 = [] := by
  have hsel : selected cfg.cores w.numCores = [] := by rw [hc]; exact selected_nil _
  have hrun := launchReexec_parent cfg env w hcl hci hf hd
    (by rw [hsel]; intro c hc'; simp at hc')
  rw [hsel] at hrun
  have hie : cfg.cores.isEmpty = true := by rw [hc]; rfl
  refine ⟨?_, ?_, ?_, ?_, ?_, ?_⟩
  · simp only [launchWithHooksFork]
    simp [hie]
  · simp only [launchGeneric]
    simp [hcc]
  · rw [hrun]
    simp [reexecTailOut, hie]
  · rw [hrun]
    simp only [reexecTrace, reexecTail, hie, if_true, List.append_nil]
    exact filterMap_reexecSelfRedirect_eq_nil cfg w env.debugOutput _
      (fun e he => by cases e <;> first | rfl | simp [isSetupEvent] at he)
  · rw [hrun]
    simp only [reexecTrace, reexecTail, hie, if_true, List.append_nil]
    exact filterMap_reexecSelfRedirect_eq_nil cfg w env.debugOutput _
      (fun e he => by cases e <;> first | rfl | simp [isSetupEvent] at he)
  · rw [hrun]
    simp only [reexecTrace, reexecTail, hie, if_true, List.append_nil]
    exact filterMap_reexecSelfRedirect_eq_nil cfg w env.debugOutput _
      (fun e he => by cases e <;> first | rfl | simp [isSetupEvent] at he)

/-- Witness for `c2_amended` at a concrete input. -/
theorem c2_amended_witness :
    launchWithHooksFork cfgEmptyCores envOrch wBenign =
      ([], .err (.illegalArgument "No cores to spawn on given, cannot launch anything.")) ∧
    launchGeneric ccfgEmptyCores envOrch wBenign =
      ([], .err (.illegalArgument "No cores to spawn on given, cannot launch anything.")) ∧
    (launchWithHooksReexec cfgEmptyCores envOrch wBenign).2 =
      .err (.illegalArgument "No cores to spawn on given, cannot launch anything.") ∧
    spawnedPids (launchWithHooksReexec cfgEmptyCores envOrch wBenign).1 = [] ∧
    clientEndpoints (launchWithHooksReexec cfgEmptyCores envOrch wBenign).1 = [] ∧
    brokerQuotas (launchWithHooksReexec cfgEmptyCores envOrch wBenign).1 = [] :=
  c2_amended cfgEmptyCores ccfgEmptyCores envOrch wBenign rfl rfl rfl rfl
    (fun _ => rfl) rfl

/-! ### C3: startup staggering and spawn order -/

/-- World whose fork call `j` lands in the child, all others in the
parent; pids follow the benign scheme. -/
def wChildAt (j : Nat) : World :=
  { wBenign with forkRes := fun n => if n = j then .child else .parent (100 + n) }

/-- A single-core configuration with a visible launch delay. -/
def cfgCore0 : Config where
  cores := [0]
  runClient := true
  brokerPort := 1337
  stdoutFile := none
  stderrFile := none
  launchDelay := 10
  spawnBroker := true

/-- Standard two-core test configuration. -/
def cfgW : Config where
  cores := [1, 3]
  runClient := true
  brokerPort := 1337
  stdoutFile := none
  stderrFile := none
  launchDelay := 10
  spawnBroker := true

/-- Standard two-core centralized test configuration. -/
def ccfgW : CenConfig where
  cores := [1, 3]
  secondaryRunClient := true
  mainRunClient := true
  brokerPort := 1337
  centralizedBrokerPort := 1338
  stdoutFile := none
  stderrFile := none
  launchDelay := 10
  spawnBroker := true

/-- **C3, counterexample.**  The claim says the k-th spawned worker sleeps
`k * launch_delay` before connecting.  On the re-exec path with core set
`{0}` and `launch_delay = 10`, the one and only (k = 1) spawned worker is
delayed by `0 * 10 = 0` milliseconds, not `1 * 10 = 10`: the re-exec
delay is proportional to the core id, not to the spawn position. -/
theorem c3_counterexample :
    spawnedWorkers (launchWithHooksReexec cfgCore0 envOrch wBenign).1 = [0] ∧
    sleeps (launchWithHooksReexec cfgCore0 envOrch wBenign).1 = [0] ∧
    cfgCore0.launchDelay = 10 ∧
    firstSleep (launchWithHooksReexec cfgCore0 envOrch wBenign).1 ≠
      some (1 * cfgCore0.launchDelay) := by
  exact ⟨rfl, rfl, rfl, by decide⟩

/-- **C3, amended.**  On the two fork paths the k-th spawned worker does
sleep `k * launch_delay` before building its broker connection (fork
path: the child of fork call `j` is worker `k = j + 1`; centralized path:
the child of fork call `k ≥ 1` is worker `k`), and on all three paths
workers are spawned in strictly increasing core-index order.  On the
re-exec path, however, the parent sleeps `core_id * launch_delay` before
spawning each worker — the delay is proportional to the core id, not to
the spawn position (see the counterexample). -/
theorem c3_amended
    (cfg : Config) (ccfg : CenConfig) (env : Env)
    (w1 w2 w3 w4 w5 : World) (p1 p2 p4 p5 : Nat → Nat) (j k : Nat)
    (hne : cfg.cores ≠ []) (hrc : cfg.runClient = true)
    (hci1 : w1.coreIdsOk = true) (hf1 : filesOk w1)
    (hc1 : childAtOracle w1 p1 j) (hj : j < (selected cfg.cores w1.numCores).length)
    (hcne : ccfg.cores ≠ []) (hsc : ccfg.secondaryRunClient = true)
    (hci2 : w2.coreIdsOk = true) (hf2 : filesOk w2)
    (hc2 : childAtOracle w2 p2 k) (hk1 : 1 ≤ k)
    (hk : k - 1 < (selected ccfg.cores w2.numCores).length)
    (hcl : env.launcherClient = EnvVal.notPresent)
    (hci3 : w3.coreIdsOk = true) (hf3 : filesOk w3) (hd3 : w3.dup2Ok = true)
    (hs3 : ∀ c ∈ selected cfg.cores w3.numCores, w3.spawnErr c = none)
    (hci4 : w4.coreIdsOk = true) (hf4 : filesOk w4) (hp4 : parentOracle w4 p4)
    (hci5 : w5.coreIdsOk = true) (hf5 : filesOk w5) (hp5 : parentOracle w5 p5) :
    firstSleep (afterChildFork (launchWithHooksFork cfg env w1).1) =
      some ((j + 1) * cfg.launchDelay) ∧
    firstSleep (afterChildFork (launchGeneric ccfg env w2).1) =
      some (k * ccfg.launchDelay) ∧
    sleeps (launchWithHooksReexec cfg env w3).1 =
      (selected cfg.cores w3.numCores).map (fun c => c * cfg.launchDelay) ∧
    spawnedWorkers (launchWithHooksFork cfg env w4).1 =
      selected cfg.cores w4.numCores ∧
    spawnedWorkers (launchWithHooksReexec cfg env w3).1 =
      selected cfg.cores w3.numCores ∧
    spawnedWorkers (launchGeneric ccfg env w5).1 =
      selected ccfg.cores w5.numCores ∧
    (selected cfg.cores w4.numCores).Pairwise (· < ·) ∧
    (selected ccfg.cores w5.numCores).Pairwise (· < ·) := by
  refine ⟨?_, ?_, ?_, ?_, ?_, ?_, selected_sorted _ _, selected_sorted _ _⟩
  · rw [launchFork_childAt cfg env w1 p1 j hne hrc hci1 hf1 hc1 hj]
    dsimp only
    rw [List.append_assoc, List.append_assoc]
    rw [afterChildFork_append _ _ (openOutFile_no_childMark w1 cfg.stdoutFile),
      afterChildFork_append _ _ (openOutFile_no_childMark w1 cfg.stderrFile),
      afterChildFork_append _ _ (parentTrace_no_childMark p1 _ 0)]
    exact firstSleep_forkChildRun cfg env.debugOutput w1 (j + 1) _
  · rw [launchGeneric_childAt ccfg env w2 p2 k hcne hsc hci2 hf2 hc2 hk1 hk]
    obtain ⟨suf, hsuf⟩ := cenAssemble_trace ccfg w2 _ _
    rw [hsuf]
    have hpre : ∀ e ∈ (openOutFile w2 ccfg.stdoutFile).1 ++ (openOutFile w2 ccfg.stderrFile).1 ++
        ([Event.preFork, Event.forkCentralBroker (p2 0), Event.postFork false,
          Event.sleep 10] ++
          parentTrace p2 ((selected ccfg.cores w2.numCores).take (k - 1)) 1),
        e ≠ Event.postFork true := by
      intro e he
      simp only [List.mem_append] at he
      rcases he with (h | h) | h | h
      · exact openOutFile_no_childMark _ _ e h
      · exact openOutFile_no_childMark _ _ e h
      · simp only [List.mem_cons, List.mem_singleton] at h
        rcases h with rfl | rfl | rfl | rfl | h <;> simp at *
      · exact parentTrace_no_childMark _ _ _ e h
    rw [afterChildFork_append _ _ hpre]
    rw [firstSleep_cenChildArm_suf]
    dsimp only
    have hke : k - 1 + 1 = k := by omega
    rw [hke]
  · rw [launchReexec_parent cfg env w3 hcl hci3 hf3 hd3 hs3]
    dsimp only
    rw [sleeps_append, sleeps_append, sleeps_reexecSelfRedirect, sleeps_reexecTail,
      sleeps_reexecTrace]
    simp
  · rw [launchFork_parent cfg env w4 p4 hne hrc hci4 hf4 hp4]
    dsimp only
    rw [spawnedWorkers_append, spawnedWorkers_append, spawnedWorkers_append,
      spawnedWorkers_openOutFile, spawnedWorkers_openOutFile,
      spawnedWorkers_parentTrace, spawnedWorkers_libcTail]
    simp
  · rw [launchReexec_parent cfg env w3 hcl hci3 hf3 hd3 hs3]
    dsimp only
    rw [spawnedWorkers_append, spawnedWorkers_append,
      spawnedWorkers_reexecSelfRedirect, spawnedWorkers_reexecTrace,
      spawnedWorkers_reexecTail]
    simp
  · rw [launchGeneric_parent ccfg env w5 p5 hcne hsc hci5 hf5 hp5]
    dsimp only
    rw [spawnedWorkers_append, spawnedWorkers_append, spawnedWorkers_append,
      spawnedWorkers_append, spawnedWorkers_openOutFile, spawnedWorkers_openOutFile,
      spawnedWorkers_parentTrace, spawnedWorkers_libcTail]
    simp [spawnedWorkers]

/-- Witness for `c3_amended` at concrete inputs: cores `{1, 3}` on a
4-core machine, fork-path child at fork call 1 (worker 2), centralized
child at fork call 2 (worker 2). -/
theorem c3_amended_witness :
    firstSleep (afterChildFork (launchWithHooksFork cfgW envOrch (wChildAt 1)).1) =
      some ((1 + 1) * cfgW.launchDelay) ∧
    firstSleep (afterChildFork (launchGeneric ccfgW envOrch (wChildAt 2)).1) =
      some (2 * ccfgW.launchDelay) ∧
    sleeps (launchWithHooksReexec cfgW envOrch wBenign).1 =
      (selected cfgW.cores wBenign.numCores).map (fun c => c * cfgW.launchDelay) ∧
    spawnedWorkers (launchWithHooksFork cfgW envOrch wBenign).1 =
      selected cfgW.cores wBenign.numCores ∧
    spawnedWorkers (launchWithHooksReexec cfgW envOrch wBenign).1 =
      selected cfgW.cores wBenign.numCores ∧
    spawnedWorkers (launchGeneric ccfgW envOrch wBenign).1 =
      selected ccfgW.cores wBenign.numCores ∧
    (selected cfgW.cores wBenign.numCores).Pairwise (· < ·) ∧
    (selected ccfgW.cores wBenign.numCores).Pairwise (· < ·) :=
  c3_amended cfgW ccfgW envOrch (wChildAt 1) (wChildAt 2) wBenign wBenign wBenign
    (fun n => 100 + n) (fun n => 100 + n) (fun n => 100 + n) (fun n => 100 + n) 1 2
    (by decide) rfl rfl (fun _ => rfl)
    ⟨rfl, fun n hn => by simp [wChildAt, wBenign, hn]⟩ (by decide)
    (by decide) rfl rfl (fun _ => rfl)
    ⟨rfl, fun n hn => by simp [wChildAt, wBenign, hn]⟩ (by decide) (by decide)
    rfl rfl (fun _ => rfl) rfl (fun _ _ => rfl)
    rfl (fun _ => rfl) (fun _ => rfl)
    rfl (fun _ => rfl) (fun _ => rfl)

/-! ### C7: resource-acquisition failures -/

/-- World in which core topology enumeration (`get_core_ids`) fails. -/
def wNoCoreIds : World :=
  { wBenign with coreIdsOk := false }

/-- World in which creating any redirection file fails. -/
def wNoFile : World :=
  { wBenign with fileCreateOk := fun _ => false }

/-- Two-core configuration with a configured stdout file. -/
def cfgOut : Config :=
  { cfgW with stdoutFile := some "out.log" }

/-- Two-core centralized configuration with a configured stdout file. -/
def ccfgOut : CenConfig :=
  { ccfgW with stdoutFile := some "out.log" }

/-- **C7, counterexample.**  The claim says a failure to acquire core
topology information propagates to the caller as a typed error.  On the
fork path `get_core_ids().unwrap()` panics instead: the outcome is a
panic, not a typed `Error` return. -/
theorem c7_counterexample :
    launchWithHooksFork cfgW envOrch wNoCoreIds =
      ([], Outcome.panicked "get_core_ids failed") ∧
    isTypedErr (launchWithHooksFork cfgW envOrch wNoCoreIds).2 = false := by
  exact ⟨rfl, rfl⟩

/-- **C7, amended.**  Failures to enumerate cores or to create a
configured redirection file are fatal to the attempting process and are
never silently swallowed, on all three paths — but they abort via an
`unwrap` panic rather than propagating to the caller as a typed error. -/
theorem c7_amended (cfg : Config) (ccfg : CenConfig) (env : Env)
    (w1 w2 : World) (f : String)
    (hne : cfg.cores ≠ []) (hrc : cfg.runClient = true)
    (hcne : ccfg.cores ≠ []) (hsc : ccfg.secondaryRunClient = true)
    (hci1 : w1.coreIdsOk = false)
    (hcl : env.launcherClient = EnvVal.notPresent)
    (hci2 : w2.coreIdsOk = true) (hso : cfg.stdoutFile = some f)
    (hcso : ccfg.stdoutFile = some f)
    (hfc : w2.fileCreateOk f = false) (hdbg : env.debugOutput = false) :
    launchWithHooksFork cfg env w1 = ([], .panicked "get_core_ids failed") ∧
    launchWithHooksReexec cfg env w1 = ([], .panicked "get_core_ids failed") ∧
    launchGeneric ccfg env w1 = ([], .panicked "get_core_ids failed") ∧
    (launchWithHooksFork cfg env w2).2 = .panicked "File::create failed" ∧
    (launchWithHooksReexec cfg env w2).2 = .panicked "File::create failed" ∧
    (launchGeneric ccfg env w2).2 = .panicked "File::create failed" := by
  refine ⟨?_, ?_, ?_, ?_, ?_, ?_⟩
  · simp [launchWithHooksFork, List.isEmpty_eq_false.mpr hne, hrc, hci1]
  · simp [launchWithHooksReexec, hcl, hci1]
  · simp [launchGeneric, List.isEmpty_eq_false.mpr hcne, hsc, hci1]
  · simp [launchWithHooksFork, List.isEmpty_eq_false.mpr hne, hrc, hci2,
      openOutFile, hso, hfc]
  · simp [launchWithHooksReexec, hcl, hci2, reexecSelfRedirect, openOutFile,
      hso, hdbg, hfc]
  · simp [launchGeneric, List.isEmpty_eq_false.mpr hcne, hsc, hci2,
      openOutFile, hcso, hfc]

/-- Witness for `c7_amended` at concrete inputs. -/
theorem c7_amended_witness :
    launchWithHooksFork cfgOut envOrch wNoCoreIds =
      ([], .panicked "get_core_ids failed") ∧
    launchWithHooksReexec cfgOut envOrch wNoCoreIds =
      ([], .panicked "get_core_ids failed") ∧
    launchGeneric ccfgOut envOrch wNoCoreIds =
      ([], .panicked "get_core_ids failed") ∧
    (launchWithHooksFork cfgOut envOrch wNoFile).2 =
      .panicked "File::create failed" ∧
    (launchWithHooksReexec cfgOut envOrch wNoFile).2 =
      .panicked "File::create failed" ∧
    (launchGeneric ccfgOut envOrch wNoFile).2 =
      .panicked "File::create failed" :=
  c7_amended cfgOut ccfgOut envOrch wNoCoreIds wNoFile "out.log"
    (by decide) rfl (by decide) rfl rfl rfl rfl rfl rfl rfl rfl

/-! ### C10: the debug-output override -/

theorem dup2Calls_forkChildRun_debug (cfg : Config) (w : World) (index core : Nat) :
    dup2Calls (forkChildRun cfg true w index core).1 = [] := by
  cases hce : w.clientEndpointErr core <;> cases hrc : cfg.runClient <;>
    simp [forkChildRun, childRedirect, dup2Calls, hce, hrc]

theorem dup2Calls_forkLoop_debug (cfg : Config) (w : World) :
    ∀ (sel : List Nat) (st : LoopSt), dup2Calls (forkLoop cfg true w sel st).1 = [] := by
  intro sel
  induction sel with
  | nil => intro st; simp [forkLoop, dup2Calls]
  | cons core rest ih =>
    intro st
    cases hfr : w.forkRes st.forkCount
    case fail m => simp [forkLoop, hfr, dup2Calls]
    case parent pid =>
      simp [forkLoop, hfr, dup2Calls] <;>
        (intro a ha; exact List.filterMap_eq_nil_iff.mp (ih _) a ha)
    case child =>
      simp only [forkLoop, hfr]
      exact dup2Calls_forkChildRun_debug cfg w (st.index + 1) core

set_option maxHeartbeats 1000000 in
theorem dup2Calls_cenLoop_debug (cfg : CenConfig) (w : World) :
    ∀ (sel : List Nat) (st : CenSt), dup2Calls (cenLoop cfg true w sel st).1 = [] := by
  intro sel
  induction sel with
  | nil => intro st; simp [cenLoop, dup2Calls]
  | cons core rest ih =>
    intro st
    cases hfr : w.forkRes st.forkCount
    case fail m => simp [cenLoop, hfr, dup2Calls]
    case parent pid =>
      simp [cenLoop, hfr, dup2Calls] <;>
        (intro a ha; exact List.filterMap_eq_nil_iff.mp (ih _) a ha)
    case child =>
      rw [cenLoop_cons_child cfg true w core rest st hfr]
      unfold cenChildArm
      simp only [childRedirect, if_true]
      by_cases hix : st.index + 1 = 1 <;>
        cases hmt : st.mainTaken <;> cases hst : st.secondaryTaken <;>
        cases hce : w.clientEndpointErr core <;>
        cases hcc : w.centralClientBuildErr core <;>
        cases hmr : cfg.mainRunClient <;> cases hsr : cfg.secondaryRunClient <;>
        cases hme : w.mainErr core <;> cases hse : w.secondaryErr core <;>
          simp [dup2Calls, hix, hce, hcc, hmr, hsr, hme, hse] <;>
            (intro a ha; exact List.filterMap_eq_nil_iff.mp (ih _) a ha)

theorem dup2Calls_map_killSignal (hs : List Nat) :
    dup2Calls (hs.map Event.killSignal) = [] :=
  filterMap_map_killSignal_eq_nil _ (fun _ => rfl) hs

theorem dup2Calls_forkWaitAll (w : World) (hs : List Nat) :
    dup2Calls (forkWaitAll w hs) = [] :=
  filterMap_forkWaitAll_eq_nil w _ (fun _ _ => rfl) (fun _ => rfl) hs

theorem dup2Calls_reexecSpawnLoop (cfg : Config) (env : Env) (w : World) :
    ∀ (sel : List Nat) (hs : List Nat),
      dup2Calls (reexecSpawnLoop cfg env w sel hs).1 = [] := by
  intro sel
  induction sel with
  | nil => intro hs; simp [reexecSpawnLoop, dup2Calls]
  | cons core rest ih =>
    intro hs
    cases hse : w.spawnErr core <;> simp [reexecSpawnLoop, hse, dup2Calls] <;>
      (intro a ha; exact List.filterMap_eq_nil_iff.mp (ih _) a ha)

theorem dup2Calls_reexecKillAll (w : World) (hs : List Nat) :
    dup2Calls (reexecKillAll w hs).1 = [] := by
  rw [dup2Calls, List.filterMap_eq_nil_iff]
  intro e he
  have := List.all_eq_true.mp (reexecKillAll_events w hs) e he
  cases e <;> simp_all [isKillEvent]

theorem dup2Calls_reexecWaitAll (w : World) (hs : List Nat) :
    dup2Calls (reexecWaitAll w hs).1 = [] := by
  rw [dup2Calls, List.filterMap_eq_nil_iff]
  intro e he
  have := List.all_eq_true.mp (reexecWaitAll_events w hs) e he
  cases e <;> simp_all [isWaitEvent]

theorem allSpawnsConsole_append (l1 l2 : List Event) :
    allSpawnsConsole (l1 ++ l2) = (allSpawnsConsole l1 && allSpawnsConsole l2) := by
  simp [allSpawnsConsole]

theorem allSpawnsConsole_reexecSpawnLoop_debug (cfg : Config) (env : Env) (w : World)
    (hdbg : env.debugOutput = true) :
    ∀ (sel : List Nat) (hs : List Nat),
      allSpawnsConsole (reexecSpawnLoop cfg env w sel hs).1 = true := by
  intro sel
  induction sel with
  | nil => intro hs; simp [reexecSpawnLoop, allSpawnsConsole]
  | cons core rest ih =>
    intro hs
    cases hse : w.spawnErr core <;>
      simp [reexecSpawnLoop, hse, allSpawnsConsole, reexecStdio, hdbg] <;>
      (intro a ha; exact List.all_eq_true.mp (ih _) a ha)

theorem allSpawnsConsole_reexecKillAll (w : World) (hs : List Nat) :
    allSpawnsConsole (reexecKillAll w hs).1 = true := by
  rw [allSpawnsConsole, List.all_eq_true]
  intro e he
  have := List.all_eq_true.mp (reexecKillAll_events w hs) e he
  cases e <;> simp_all [isKillEvent]

theorem allSpawnsConsole_reexecWaitAll (w : World) (hs : List Nat) :
    allSpawnsConsole (reexecWaitAll w hs).1 = true := by
  rw [allSpawnsConsole, List.all_eq_true]
  intro e he
  have := List.all_eq_true.mp (reexecWaitAll_events w hs) e he
  cases e <;> simp_all [isWaitEvent]

theorem dup2Calls_brokerEndpoint (q : Nat) :
    dup2Calls [Event.buildBrokerEndpoint q] = [] := rfl

theorem dup2Calls_nil : dup2Calls [] = [] := rfl

theorem allSpawnsConsole_brokerEndpoint (q : Nat) :
    allSpawnsConsole [Event.buildBrokerEndpoint q] = true := rfl

theorem allSpawnsConsole_nil : allSpawnsConsole [] = true := rfl

theorem dup2Calls_constList1 : dup2Calls [Event.preFork] = [] := rfl

theorem dup2Calls_cons_preFork (l : List Event) :
    dup2Calls (Event.preFork :: l) = dup2Calls l :=
  List.filterMap_cons_none rfl

theorem dup2Calls_cons_postFork (b : Bool) (l : List Event) :
    dup2Calls (Event.postFork b :: l) = dup2Calls l :=
  List.filterMap_cons_none rfl

theorem dup2Calls_cons_forkCentralBroker (pid : Nat) (l : List Event) :
    dup2Calls (Event.forkCentralBroker pid :: l) = dup2Calls l :=
  List.filterMap_cons_none rfl

theorem dup2Calls_cons_sleep (ms : Nat) (l : List Event) :
    dup2Calls (Event.sleep ms :: l) = dup2Calls l :=
  List.filterMap_cons_none rfl

theorem dup2Calls_cons_brokerEndpoint (q : Nat) (l : List Event) :
    dup2Calls (Event.buildBrokerEndpoint q :: l) = dup2Calls l :=
  List.filterMap_cons_none rfl

theorem allSpawnsConsole_cons_brokerEndpoint (q : Nat) (l : List Event) :
    allSpawnsConsole (Event.buildBrokerEndpoint q :: l) = allSpawnsConsole l := by
  simp [allSpawnsConsole]

theorem dup2Calls_constList2 :
    dup2Calls [Event.preFork, Event.postFork true] = [] := rfl

theorem dup2Calls_constList3 (port : Nat) :
    dup2Calls [Event.preFork, Event.postFork true, Event.buildCentralBroker port,
      Event.centralBrokerLoop] = [] := rfl

theorem fork_debug_noDup2 (cfg : Config) (env : Env) (w : World)
    (hdbg : env.debugOutput = true) :
    dup2Calls (launchWithHooksFork cfg env w).1 = [] := by
  simp only [launchWithHooksFork, hdbg]
  cases hie : cfg.cores.isEmpty
  · simp only [Bool.false_eq_true, if_false]
    cases hrc : cfg.runClient
    · simp [dup2Calls]
    · simp only [Bool.not_true, Bool.false_eq_true, if_false]
      cases hci : w.coreIdsOk
      · simp [dup2Calls]
      · simp only [Bool.not_true, Bool.false_eq_true, if_false]
        cases ho1 : (openOutFile w cfg.stdoutFile).2
        · simp only [Bool.not_false, if_true]
          exact dup2Calls_openOutFile w cfg.stdoutFile
        · simp only [Bool.not_true, Bool.false_eq_true, if_false]
          cases ho2 : (openOutFile w cfg.stderrFile).2
          · simp only [Bool.not_false, if_true]
            rw [dup2Calls_append, dup2Calls_openOutFile, dup2Calls_openOutFile]
            rfl
          · simp only [Bool.not_true, Bool.false_eq_true, if_false]
            rcases hlr : forkLoop cfg true w (selected cfg.cores w.numCores) ⟨0, 0, []⟩
              with ⟨ltr, lres⟩
            have hldup : dup2Calls ltr = [] := by
              have h := dup2Calls_forkLoop_debug cfg w (selected cfg.cores w.numCores)
                ⟨0, 0, []⟩
              rw [hlr] at h
              exact h
            cases lres with
            | inr out =>
              simp [dup2Calls_append, dup2Calls_openOutFile, hldup, dup2Calls_forkWaitAll, dup2Calls_map_killSignal, dup2Calls_brokerEndpoint, dup2Calls_cons_brokerEndpoint, dup2Calls_nil]
            | inl st =>
              cases hsb : cfg.spawnBroker
              · simp [dup2Calls_append, dup2Calls_openOutFile, hldup, dup2Calls_forkWaitAll, dup2Calls_map_killSignal, dup2Calls_brokerEndpoint, dup2Calls_cons_brokerEndpoint, dup2Calls_nil]
              · cases hbe : w.brokerErr <;>
                  simp [dup2Calls_append, dup2Calls_openOutFile, hldup, dup2Calls_forkWaitAll, dup2Calls_map_killSignal, dup2Calls_brokerEndpoint, dup2Calls_cons_brokerEndpoint, dup2Calls_nil]
  · simp [dup2Calls]

theorem reexec_debug_clean (cfg : Config) (env : Env) (w : World)
    (hdbg : env.debugOutput = true) :
    dup2Calls (launchWithHooksReexec cfg env w).1 = [] ∧
    allSpawnsConsole (launchWithHooksReexec cfg env w).1 = true := by
  simp only [launchWithHooksReexec]
  cases hcl : env.launcherClient
  case notPresent =>
    cases hci : w.coreIdsOk
    case false => simp [dup2Calls, allSpawnsConsole]
    case true =>
      simp only [Bool.not_true, Bool.false_eq_true, if_false]
      have hsr : reexecSelfRedirect cfg w env.debugOutput = ([], none) := by
        rw [hdbg]
        rfl
      rw [hsr]
      rcases hlr : reexecSpawnLoop cfg env w (selected cfg.cores w.numCores) []
        with ⟨ltr, lres⟩
      have hld : dup2Calls ltr = [] := by
        have h := dup2Calls_reexecSpawnLoop cfg env w (selected cfg.cores w.numCores) []
        rw [hlr] at h
        exact h
      have hls : allSpawnsConsole ltr = true := by
        have h := allSpawnsConsole_reexecSpawnLoop_debug cfg env w hdbg
          (selected cfg.cores w.numCores) []
        rw [hlr] at h
        exact h
      cases lres with
      | inr out =>
        constructor <;>
          simp [dup2Calls_append, allSpawnsConsole_append, hld, hls, dup2Calls_nil,
            allSpawnsConsole_nil, dup2Calls_reexecWaitAll, allSpawnsConsole_reexecWaitAll,
            dup2Calls_reexecKillAll, allSpawnsConsole_reexecKillAll,
            dup2Calls_brokerEndpoint, allSpawnsConsole_brokerEndpoint,
            dup2Calls_cons_brokerEndpoint, allSpawnsConsole_cons_brokerEndpoint]
      | inl hs =>
        cases hie : cfg.cores.isEmpty
        · cases hsb : cfg.spawnBroker
          · constructor <;>
              simp [dup2Calls_append, allSpawnsConsole_append, hld, hls, dup2Calls_nil,
            allSpawnsConsole_nil, dup2Calls_reexecWaitAll, allSpawnsConsole_reexecWaitAll,
            dup2Calls_reexecKillAll, allSpawnsConsole_reexecKillAll,
            dup2Calls_brokerEndpoint, allSpawnsConsole_brokerEndpoint,
            dup2Calls_cons_brokerEndpoint, allSpawnsConsole_cons_brokerEndpoint]
          · cases hbe : w.brokerErr <;> constructor <;>
              simp [dup2Calls_append, allSpawnsConsole_append, hld, hls, dup2Calls_nil,
            allSpawnsConsole_nil, dup2Calls_reexecWaitAll, allSpawnsConsole_reexecWaitAll,
            dup2Calls_reexecKillAll, allSpawnsConsole_reexecKillAll,
            dup2Calls_brokerEndpoint, allSpawnsConsole_brokerEndpoint,
            dup2Calls_cons_brokerEndpoint, allSpawnsConsole_cons_brokerEndpoint]
        · constructor <;>
            simp [dup2Calls_append, allSpawnsConsole_append, hld, hls, dup2Calls_nil,
            allSpawnsConsole_nil, dup2Calls_reexecWaitAll, allSpawnsConsole_reexecWaitAll,
            dup2Calls_reexecKillAll, allSpawnsConsole_reexecKillAll,
            dup2Calls_brokerEndpoint, allSpawnsConsole_brokerEndpoint,
            dup2Calls_cons_brokerEndpoint, allSpawnsConsole_cons_brokerEndpoint]
  case present s =>
    cases hps : parseUsize s
    case none => simp [dup2Calls, allSpawnsConsole, hps]
    case some c =>
      cases hce : w.clientEndpointErr c <;> cases hrcl : cfg.runClient <;>
        simp [dup2Calls, allSpawnsConsole, hps, hce, hrcl]
  case nonUnicode => simp [dup2Calls, allSpawnsConsole]

theorem cen_debug_noDup2 (ccfg : CenConfig) (env : Env) (w : World)
    (hdbg : env.debugOutput = true) :
    dup2Calls (launchGeneric ccfg env w).1 = [] := by
  simp only [launchGeneric, hdbg]
  cases hie : ccfg.cores.isEmpty
  · simp only [Bool.false_eq_true, if_false]
    cases hsc : ccfg.secondaryRunClient
    · simp [dup2Calls]
    · simp only [Bool.not_true, Bool.false_eq_true, if_false]
      cases hci : w.coreIdsOk
      · simp [dup2Calls]
      · simp only [Bool.not_true, Bool.false_eq_true, if_false]
        cases ho1 : (openOutFile w ccfg.stdoutFile).2
        · simp only [Bool.not_false, if_true]
          exact dup2Calls_openOutFile w ccfg.stdoutFile
        · simp only [Bool.not_true, Bool.false_eq_true, if_false]
          cases ho2 : (openOutFile w ccfg.stderrFile).2
          · simp only [Bool.not_false, if_true]
            rw [dup2Calls_append, dup2Calls_openOutFile, dup2Calls_openOutFile]
            rfl
          · simp only [Bool.not_true, Bool.false_eq_true, if_false]
            cases hf0 : w.forkRes 0
            case fail m =>
              simp [dup2Calls_append, dup2Calls_openOutFile, dup2Calls_constList1]
            case child =>
              cases w.centralBrokerBuildErr <;>
                simp [dup2Calls_append, dup2Calls_openOutFile, dup2Calls_constList2,
                  dup2Calls_constList3]
            case parent pid =>
              rcases hlr : cenLoop ccfg true w (selected ccfg.cores w.numCores)
                ⟨1, 0, [pid], false, false⟩ with ⟨ltr, lres⟩
              have hldup : dup2Calls ltr = [] := by
                have h := dup2Calls_cenLoop_debug ccfg w (selected ccfg.cores w.numCores)
                  ⟨1, 0, [pid], false, false⟩
                rw [hlr] at h
                exact h
              cases lres with
              | inr out =>
                simp [hlr, dup2Calls_append, dup2Calls_openOutFile, hldup,
                  dup2Calls_forkWaitAll, dup2Calls_map_killSignal,
                  dup2Calls_brokerEndpoint, dup2Calls_cons_brokerEndpoint, dup2Calls_nil,
                  dup2Calls_cons_preFork, dup2Calls_cons_postFork,
                  dup2Calls_cons_forkCentralBroker, dup2Calls_cons_sleep]
              | inl st =>
                cases hsb : ccfg.spawnBroker
                · simp [hlr, dup2Calls_append, dup2Calls_openOutFile, hldup,
                    dup2Calls_forkWaitAll, dup2Calls_map_killSignal,
                    dup2Calls_brokerEndpoint, dup2Calls_cons_brokerEndpoint, dup2Calls_nil,
                    dup2Calls_cons_preFork, dup2Calls_cons_postFork,
                    dup2Calls_cons_forkCentralBroker, dup2Calls_cons_sleep]
                · cases hbe : w.brokerErr <;>
                    simp [hlr, dup2Calls_append, dup2Calls_openOutFile, hldup,
                      dup2Calls_forkWaitAll, dup2Calls_map_killSignal,
                      dup2Calls_brokerEndpoint, dup2Calls_cons_brokerEndpoint, dup2Calls_nil,
                      dup2Calls_cons_preFork, dup2Calls_cons_postFork,
                      dup2Calls_cons_forkCentralBroker, dup2Calls_cons_sleep]
  · simp [dup2Calls]

/-- **C10, confirmed.**  When `LIBAFL_DEBUG_OUTPUT` is present, no
`dup2` redirection happens anywhere (parent or any child, on any of the
three launch paths, whatever the oracle decides), and every re-exec
spawned worker keeps the plain console stdio — even when redirection
file paths are configured. -/
theorem c10_debug_no_redirection (cfg : Config) (ccfg : CenConfig) (env : Env)
    (w : World) (hdbg : env.debugOutput = true) :
    dup2Calls (launchWithHooksFork cfg env w).1 = [] ∧
    dup2Calls (launchWithHooksReexec cfg env w).1 = [] ∧
    dup2Calls (launchGeneric ccfg env w).1 = [] ∧
    allSpawnsConsole (launchWithHooksReexec cfg env w).1 = true :=
  ⟨fork_debug_noDup2 cfg env w hdbg, (reexec_debug_clean cfg env w hdbg).1,
    cen_debug_noDup2 ccfg env w hdbg, (reexec_debug_clean cfg env w hdbg).2⟩

/-- Debug-override environment for the witness. -/
def envDebug : Env where
  debugOutput := true
  launcherClient := .notPresent

/-- Witness for `c10_debug_no_redirection` at a concrete input with
redirection files configured. -/
theorem c10_witness :
    dup2Calls (launchWithHooksFork cfgOut envDebug wBenign).1 = [] ∧
    dup2Calls (launchWithHooksReexec cfgOut envDebug wBenign).1 = [] ∧
    dup2Calls (launchGeneric ccfgOut envDebug wBenign).1 = [] ∧
    allSpawnsConsole (launchWithHooksReexec cfgOut envDebug wBenign).1 = true :=
  c10_debug_no_redirection cfgOut ccfgOut envDebug wBenign rfl

/-! ### C5: shutdown signalling after broker exit -/

/-- World in which killing pid 200 fails. -/
def wKillFail : World :=
  { wBenign with killOk := fun pid => pid != 200 }

/-- World in which every kill fails (silently, on the fork paths). -/
def wKillNever : World :=
  { wBenign with killOk := fun _ => false }

/-- Two-core configuration on cores 0 and 1. -/
def cfgTwoCores : Config :=
  { cfgW with cores := [0, 1] }

/-- **C5, counterexample.**  The claim says a failure to signal one
handle is reported for that handle and does not prevent signalling the
remaining handles.  On the re-exec path `handle.kill()?` aborts the
shutdown loop: with recorded handles 200 and 201 and the kill of 200
failing, only 200 is ever signalled — 201 is missed — and the launch
returns the kill error. -/
theorem c5_counterexample :
    spawnedPids (launchWithHooksReexec cfgTwoCores envOrch wKillFail).1 = [200, 201] ∧
    kills (launchWithHooksReexec cfgTwoCores envOrch wKillFail).1 = [200] ∧
    (launchWithHooksReexec cfgTwoCores envOrch wKillFail).2 =
      Outcome.err (Err.osError "kill failed") := by
  exact ⟨rfl, rfl, rfl⟩

/-- **C5, amended.**  When the broker's run call returns on the fork
paths, the parent signals every recorded handle exactly once, in
recording order, with `libc::kill` whose result is ignored — kill
failures are neither reported nor do they stop the loop (the statement
below holds with no assumption on `killOk`).  On the re-exec path each
handle is signalled at most once and, when every kill succeeds, exactly
once; a kill failure propagates as the launch error and the remaining
handles are never signalled (see the counterexample). -/
theorem c5_amended (cfg : Config) (ccfg : CenConfig) (env : Env)
    (w1 w2 w3 : World) (p1 p3 : Nat → Nat)
    (hne : cfg.cores ≠ []) (hrc : cfg.runClient = true)
    (hcne : ccfg.cores ≠ []) (hsc : ccfg.secondaryRunClient = true)
    (hsb : cfg.spawnBroker = true) (hcsb : ccfg.spawnBroker = true)
    (hci1 : w1.coreIdsOk = true) (hf1 : filesOk w1) (hp1 : parentOracle w1 p1)
    (hbe1 : w1.brokerErr = none) (hinj1 : Function.Injective p1)
    (hcl : env.launcherClient = EnvVal.notPresent)
    (hci2 : w2.coreIdsOk = true) (hf2 : filesOk w2) (hd2 : w2.dup2Ok = true)
    (hs2 : ∀ c ∈ selected cfg.cores w2.numCores, w2.spawnErr c = none)
    (hbe2 : w2.brokerErr = none) (hka : ∀ pid, w2.killOk pid = true)
    (hinj2 : Function.Injective w2.spawnPid)
    (hci3 : w3.coreIdsOk = true) (hf3 : filesOk w3) (hp3 : parentOracle w3 p3)
    (hbe3 : w3.brokerErr = none) (hinj3 : Function.Injective p3) :
    (kills (launchWithHooksFork cfg env w1).1 =
        parentPids p1 (selected cfg.cores w1.numCores) 0 ∧
      (launchWithHooksFork cfg env w1).2 = Outcome.ok ∧
      (parentPids p1 (selected cfg.cores w1.numCores) 0).Nodup) ∧
    (kills (launchWithHooksReexec cfg env w2).1 =
        (selected cfg.cores w2.numCores).map w2.spawnPid ∧
      (launchWithHooksReexec cfg env w2).2 = Outcome.ok ∧
      ((selected cfg.cores w2.numCores).map w2.spawnPid).Nodup) ∧
    (kills (launchGeneric ccfg env w3).1 =
        p3 0 :: parentPids p3 (selected ccfg.cores w3.numCores) 1 ∧
      (launchGeneric ccfg env w3).2 = Outcome.ok ∧
      (p3 0 :: parentPids p3 (selected ccfg.cores w3.numCores) 1).Nodup) := by
  refine ⟨⟨?_, ?_, ?_⟩, ⟨?_, ?_, ?_⟩, ⟨?_, ?_, ?_⟩⟩
  · rw [launchFork_parent cfg env w1 p1 hne hrc hci1 hf1 hp1]
    dsimp only
    rw [kills_append, kills_append, kills_append, kills_openOutFile, kills_openOutFile,
      kills_parentTrace, hsb, kills_libcTail_true_none _ _ _ hbe1]
    rfl
  · rw [launchFork_parent cfg env w1 p1 hne hrc hci1 hf1 hp1]
    dsimp only
    simp [libcTailOut, hsb, hbe1]
  · exact parentPids_nodup p1 hinj1 _ 0
  · rw [launchReexec_parent cfg env w2 hcl hci2 hf2 hd2 hs2]
    dsimp only
    rw [kills_append, kills_append, kills_reexecSelfRedirect, kills_reexecTrace]
    have hie : cfg.cores.isEmpty = false := List.isEmpty_eq_false.mpr hne
    rw [reexecTail, hie]
    simp only [Bool.false_eq_true, if_false, hsb, if_true, hbe2]
    rw [reexecKillAll_ok w2 _ (fun pid _ => hka pid)]
    simp only [kills, List.filterMap_cons]
    simpa [kills] using kills_map_killSignal ((selected cfg.cores w2.numCores).map w2.spawnPid)
  · rw [launchReexec_parent cfg env w2 hcl hci2 hf2 hd2 hs2]
    dsimp only
    have hie : cfg.cores.isEmpty = false := List.isEmpty_eq_false.mpr hne
    rw [reexecTailOut, hie]
    simp only [Bool.false_eq_true, if_false, hsb, if_true, hbe2]
    rw [reexecKillAll_ok w2 _ (fun pid _ => hka pid)]
  · exact List.Nodup.map hinj2 (selected_nodup _ _)
  · rw [launchGeneric_parent ccfg env w3 p3 hcne hsc hci3 hf3 hp3]
    dsimp only
    rw [kills_append, kills_append, kills_openOutFile, kills_openOutFile, kills_append,
      kills_append, kills_parentTrace, hcsb, kills_libcTail_true_none _ _ _ hbe3]
    rfl
  · rw [launchGeneric_parent ccfg env w3 p3 hcne hsc hci3 hf3 hp3]
    dsimp only
    simp [libcTailOut, hcsb, hbe3]
  · refine List.Nodup.cons ?_ (parentPids_nodup p3 hinj3 _ 1)
    rw [parentPids_eq_map]
    simp only [List.mem_map, List.mem_range]
    rintro ⟨i, _, hpi⟩
    have := hinj3 hpi
    omega

/-- Witness for `c5_amended`: every kill fails on the fork paths (and is
silently ignored), every kill succeeds on the re-exec path. -/
theorem c5_amended_witness :
    (kills (launchWithHooksFork cfgW envOrch wKillNever).1 =
        parentPids (fun n => 100 + n) (selected cfgW.cores wKillNever.numCores) 0 ∧
      (launchWithHooksFork cfgW envOrch wKillNever).2 = Outcome.ok ∧
      (parentPids (fun n => 100 + n) (selected cfgW.cores wKillNever.numCores) 0).Nodup) ∧
    (kills (launchWithHooksReexec cfgW envOrch wBenign).1 =
        (selected cfgW.cores wBenign.numCores).map wBenign.spawnPid ∧
      (launchWithHooksReexec cfgW envOrch wBenign).2 = Outcome.ok ∧
      ((selected cfgW.cores wBenign.numCores).map wBenign.spawnPid).Nodup) ∧
    (kills (launchGeneric ccfgW envOrch wKillNever).1 =
        (fun n => 100 + n) 0 ::
          parentPids (fun n => 100 + n) (selected ccfgW.cores wKillNever.numCores) 1 ∧
      (launchGeneric ccfgW envOrch wKillNever).2 = Outcome.ok ∧
      ((fun n => 100 + n) 0 ::
          parentPids (fun n => 100 + n) (selected ccfgW.cores wKillNever.numCores) 1).Nodup) :=
  c5_amended cfgW ccfgW envOrch wKillNever wBenign wKillNever
    (fun n => 100 + n) (fun n => 100 + n)
    (by decide) rfl (by decide) rfl rfl rfl
    rfl (fun _ => rfl) (fun _ => rfl) rfl (fun a b h => by simpa using h)
    rfl rfl (fun _ => rfl) rfl (fun _ _ => rfl) rfl (fun _ => rfl)
    (fun a b h => by simpa [wBenign] using h)
    rfl (fun _ => rfl) (fun _ => rfl) rfl (fun a b h => by simpa using h)

/-! ### Closed forms of the child arms under a healthy world -/

theorem childRedirect_ok (debug : Bool) (so se : Option String) :
    (childRedirect debug so se true).2 = none := by
  cases debug <;> cases so <;> cases se <;> simp [childRedirect]

theorem childRedirect_setup (debug : Bool) (so se : Option String) (d2 : Bool) :
    ((childRedirect debug so se d2).1).all isSetupEvent = true := by
  cases debug <;> cases so <;> cases se <;> cases d2 <;> rfl

theorem forkChildRun_good (cfg : Config) (debug : Bool) (w : World) (i core : Nat)
    (hd : w.dup2Ok = true) (hce : w.clientEndpointErr core = none)
    (hrc : cfg.runClient = true) :
    forkChildRun cfg debug w i core =
      ([Event.preFork, Event.postFork true, Event.sleep (i * cfg.launchDelay)] ++
          (childRedirect debug cfg.stdoutFile cfg.stderrFile true).1 ++
          [Event.buildClientEndpoint core, Event.runClientCb core],
        match w.runClientErr core with
        | none => Outcome.ok
        | some e => Outcome.err e) := by
  unfold forkChildRun
  rw [hd]
  rcases hcr : childRedirect debug cfg.stdoutFile cfg.stderrFile true with ⟨evR, rerr⟩
  have hrn : rerr = none := by
    have h := childRedirect_ok debug cfg.stdoutFile cfg.stderrFile
    rw [hcr] at h
    exact h
  subst hrn
  simp [hce, hrc]

theorem cenChildArm_main_err (cfg : CenConfig) (debug : Bool) (w : World)
    (rest : List Nat) (st : CenSt) (core : Nat) (e : Err)
    (hd : w.dup2Ok = true) (hix : st.index = 0) (hmt : st.mainTaken = false)
    (hce : w.clientEndpointErr core = none) (hcc : w.centralClientBuildErr core = none)
    (hmr : cfg.mainRunClient = true) (hme : w.mainErr core = some e) :
    cenChildArm cfg debug w rest st core =
      ([Event.preFork, Event.postFork true, Event.sleep (1 * cfg.launchDelay)] ++
          (childRedirect debug cfg.stdoutFile cfg.stderrFile true).1 ++
          [Event.buildClientEndpoint core, Event.buildCentralClient core true,
            Event.runMainCb core],
        Sum.inr (Outcome.err e)) := by
  unfold cenChildArm
  rw [hd]
  rcases hcr : childRedirect debug cfg.stdoutFile cfg.stderrFile true with ⟨evR, rerr⟩
  have hrn : rerr = none := by
    have h := childRedirect_ok debug cfg.stdoutFile cfg.stderrFile
    rw [hcr] at h
    exact h
  subst hrn
  simp [hix, hmt, hce, hcc, hmr, hme]

theorem cenChildArm_main_ok (cfg : CenConfig) (debug : Bool) (w : World)
    (rest : List Nat) (st : CenSt) (core : Nat) (p : Nat → Nat)
    (hd : w.dup2Ok = true) (hix : st.index = 0) (hmt : st.mainTaken = false)
    (hce : w.clientEndpointErr core = none) (hcc : w.centralClientBuildErr core = none)
    (hmr : cfg.mainRunClient = true) (hme : w.mainErr core = none)
    (hp : ∀ n, st.forkCount + 1 ≤ n → w.forkRes n = ForkRes.parent (p n)) :
    cenChildArm cfg debug w rest st core =
      ([Event.preFork, Event.postFork true, Event.sleep (1 * cfg.launchDelay)] ++
          (childRedirect debug cfg.stdoutFile cfg.stderrFile true).1 ++
          [Event.buildClientEndpoint core, Event.buildCentralClient core true,
            Event.runMainCb core] ++
          parentTrace p rest (st.forkCount + 1),
        Sum.inl ⟨st.forkCount + 1 + rest.length, 1 + rest.length,
          st.handles ++ parentPids p rest (st.forkCount + 1),
          true, st.secondaryTaken⟩) := by
  unfold cenChildArm
  rw [hd]
  rcases hcr : childRedirect debug cfg.stdoutFile cfg.stderrFile true with ⟨evR, rerr⟩
  have hrn : rerr = none := by
    have h := childRedirect_ok debug cfg.stdoutFile cfg.stderrFile
    rw [hcr] at h
    exact h
  subst hrn
  have hcont := cenLoop_parent cfg debug w p rest
    ⟨st.forkCount + 1, st.index + 1, st.handles, true, st.secondaryTaken⟩ hp
  simp only [hix] at hcont
  simp [hix, hmt, hce, hcc, hmr, hme, hcont, List.append_assoc]

theorem cenChildArm_sec_err (cfg : CenConfig) (debug : Bool) (w : World)
    (rest : List Nat) (st : CenSt) (core : Nat) (e : Err)
    (hd : w.dup2Ok = true) (hix : st.index ≠ 0) (hst : st.secondaryTaken = false)
    (hce : w.clientEndpointErr core = none) (hcc : w.centralClientBuildErr core = none)
    (hsr : cfg.secondaryRunClient = true) (hse : w.secondaryErr core = some e) :
    cenChildArm cfg debug w rest st core =
      ([Event.preFork, Event.postFork true, Event.sleep ((st.index + 1) * cfg.launchDelay)] ++
          (childRedirect debug cfg.stdoutFile cfg.stderrFile true).1 ++
          [Event.buildClientEndpoint core, Event.buildCentralClient core false,
            Event.runSecondaryCb core],
        Sum.inr (Outcome.err e)) := by
  unfold cenChildArm
  rw [hd]
  rcases hcr : childRedirect debug cfg.stdoutFile cfg.stderrFile true with ⟨evR, rerr⟩
  have hrn : rerr = none := by
    have h := childRedirect_ok debug cfg.stdoutFile cfg.stderrFile
    rw [hcr] at h
    exact h
  subst hrn
  have hix1 : ¬(st.index + 1 = 1) := by omega
  simp [hix1, hst, hce, hcc, hsr, hse]

theorem cenChildArm_sec_ok (cfg : CenConfig) (debug : Bool) (w : World)
    (rest : List Nat) (st : CenSt) (core : Nat) (p : Nat → Nat)
    (hd : w.dup2Ok = true) (hix : st.index ≠ 0) (hst : st.secondaryTaken = false)
    (hce : w.clientEndpointErr core = none) (hcc : w.centralClientBuildErr core = none)
    (hsr : cfg.secondaryRunClient = true) (hse : w.secondaryErr core = none)
    (hp : ∀ n, st.forkCount + 1 ≤ n → w.forkRes n = ForkRes.parent (p n)) :
    cenChildArm cfg debug w rest st core =
      ([Event.preFork, Event.postFork true, Event.sleep ((st.index + 1) * cfg.launchDelay)] ++
          (childRedirect debug cfg.stdoutFile cfg.stderrFile true).1 ++
          [Event.buildClientEndpoint core, Event.buildCentralClient core false,
            Event.runSecondaryCb core] ++
          parentTrace p rest (st.forkCount + 1),
        Sum.inl ⟨st.forkCount + 1 + rest.length, st.index + 1 + rest.length,
          st.handles ++ parentPids p rest (st.forkCount + 1),
          st.mainTaken, true⟩) := by
  unfold cenChildArm
  rw [hd]
  rcases hcr : childRedirect debug cfg.stdoutFile cfg.stderrFile true with ⟨evR, rerr⟩
  have hrn : rerr = none := by
    have h := childRedirect_ok debug cfg.stdoutFile cfg.stderrFile
    rw [hcr] at h
    exact h
  subst hrn
  have hcont := cenLoop_parent cfg debug w p rest
    ⟨st.forkCount + 1, st.index + 1, st.handles, st.mainTaken, true⟩ hp
  have hix1 : ¬(st.index + 1 = 1) := by omega
  simp [hix1, hst, hce, hcc, hsr, hse, hcont, List.append_assoc]

theorem cenAssemble_inr (cfg : CenConfig) (w : World) (pre tr : List Event)
    (out : Outcome) :
    cenAssemble cfg w pre (tr, Sum.inr out) = (pre ++ tr, out) := rfl

/-! ### Suffix after an event -/

theorem afterEvent_append_not_mem (e : Event) (l1 l2 : List Event) (h : e ∉ l1) :
    afterEvent e (l1 ++ l2) = afterEvent e l2 := by
  induction l1 with
  | nil => rfl
  | cons x rest ih =>
    simp only [List.cons_append, afterEvent]
    rw [if_neg (by rintro rfl; exact h (by simp))]
    exact ih (fun hm => h (by simp [hm]))

theorem afterEvent_cons_self (e : Event) (l : List Event) :
    afterEvent e (e :: l) = l := by
  simp [afterEvent]

/-! ### C6: the duplicated worker and the topology manager's control flow -/

theorem not_mem_openOutFile_of_ne (w : World) (f : Option String) {e : Event}
    (h : ∀ g, e ≠ Event.fileCreate g) : e ∉ (openOutFile w f).1 := by
  intro hm
  obtain ⟨g, hg⟩ := openOutFile_events w f e hm
  exact h g hg

theorem not_mem_parentTrace_of_ne (p : Nat → Nat) (sel : List Nat) (fc : Nat) {e : Event}
    (h1 : e ≠ Event.preFork) (h2 : e ≠ Event.postFork false)
    (h3 : ∀ pid c, e ≠ Event.forkWorker pid c) : e ∉ parentTrace p sel fc := by
  intro hm
  rcases parentTrace_events p sel fc e hm with h | h | ⟨pid, c, h⟩
  · exact h1 h
  · exact h2 h
  · exact h3 pid c h

theorem not_mem_childRedirect_of_not_setup (debug : Bool) (so se : Option String)
    (d2 : Bool) {e : Event} (h : isSetupEvent e = false) :
    e ∉ (childRedirect debug so se d2).1 := by
  intro hm
  have hall := List.all_eq_true.mp (childRedirect_setup debug so se d2) e hm
  rw [h] at hall
  exact absurd hall (by simp)

theorem afterEvent_concat_self (e : Event) (l1 : List Event) (h : e ∉ l1) :
    afterEvent e (l1 ++ [e]) = [] := by
  rw [afterEvent_append_not_mem e l1 [e] h]
  simp [afterEvent]

/-- Single-core centralized configuration. -/
def ccfgSolo : CenConfig :=
  { ccfgW with cores := [0] }

/-- **C6, counterexample.**  The claim says a duplicated worker, once its
role is resolved, consumes the callback and terminates with the
callback's result, never returning into the spawn loop or broker/wait
branch.  In the centralized fork path the child arm ends in `}?`, so a
main worker whose callback returns `Ok` falls through: after
`runMainCb` the very same child process runs the first-tier broker
branch (building a broker endpoint with quota 1) and signals the
recorded centralized-broker handle, then returns `Ok` from launch. -/
theorem c6_counterexample :
    launchGeneric ccfgSolo envOrch (wChildAt 1) =
      ([Event.preFork, Event.forkCentralBroker 100, Event.postFork false, Event.sleep 10,
        Event.preFork, Event.postFork true, Event.sleep 10,
        Event.buildClientEndpoint 0, Event.buildCentralClient 0 true, Event.runMainCb 0,
        Event.buildBrokerEndpoint 1, Event.killSignal 100], Outcome.ok) ∧
    afterEvent (Event.runMainCb 0) (launchGeneric ccfgSolo envOrch (wChildAt 1)).1 =
      [Event.buildBrokerEndpoint 1, Event.killSignal 100] := by
  exact ⟨rfl, rfl⟩

/-- **C6, amended.**  In the `Launcher` fork path the duplicated worker
does consume the callback and finish the launch invocation with exactly
the callback's result, with no trace event after the callback — it never
re-enters the spawn loop or the broker/wait branch.  In the
`CentralizedLauncher` this holds only when the callback returns an
error; a callback returning `Ok` lets the child fall through into the
remaining spawn loop and the broker/wait branch (see the
counterexample). -/
theorem c6_amended (cfg : Config) (ccfg : CenConfig) (env : Env)
    (w1 w2 : World) (p1 p2 : Nat → Nat) (j : Nat) (e : Err)
    (hne : cfg.cores ≠ []) (hrc : cfg.runClient = true)
    (hci1 : w1.coreIdsOk = true) (hf1 : filesOk w1)
    (hc1 : childAtOracle w1 p1 j) (hj : j < (selected cfg.cores w1.numCores).length)
    (hd1 : w1.dup2Ok = true)
    (hce1 : w1.clientEndpointErr ((selected cfg.cores w1.numCores).getD j 0) = none)
    (hcne : ccfg.cores ≠ []) (hsc : ccfg.secondaryRunClient = true)
    (hci2 : w2.coreIdsOk = true) (hf2 : filesOk w2)
    (hc2 : childAtOracle w2 p2 1)
    (hk : 0 < (selected ccfg.cores w2.numCores).length)
    (hd2 : w2.dup2Ok = true)
    (hce2 : w2.clientEndpointErr ((selected ccfg.cores w2.numCores).getD 0 0) = none)
    (hcc2 : w2.centralClientBuildErr ((selected ccfg.cores w2.numCores).getD 0 0) = none)
    (hmr2 : ccfg.mainRunClient = true)
    (hme2 : w2.mainErr ((selected ccfg.cores w2.numCores).getD 0 0) = some e) :
    ((launchWithHooksFork cfg env w1).2 =
        (match w1.runClientErr ((selected cfg.cores w1.numCores).getD j 0) with
          | none => Outcome.ok
          | some e' => Outcome.err e') ∧
      afterEvent (Event.runClientCb ((selected cfg.cores w1.numCores).getD j 0))
        (launchWithHooksFork cfg env w1).1 = []) ∧
    ((launchGeneric ccfg env w2).2 = Outcome.err e ∧
      afterEvent (Event.runMainCb ((selected ccfg.cores w2.numCores).getD 0 0))
        (launchGeneric ccfg env w2).1 = []) := by
  have hrun := launchFork_childAt cfg env w1 p1 j hne hrc hci1 hf1 hc1 hj
  have hchild := forkChildRun_good cfg env.debugOutput w1 (j + 1)
    ((selected cfg.cores w1.numCores).getD j 0) hd1 hce1 hrc
  have hcrun := launchGeneric_childAt ccfg env w2 p2 1 hcne hsc hci2 hf2 hc2
    (Nat.le_refl 1) (by simpa using hk)
  have hcarm := cenChildArm_main_err ccfg env.debugOutput w2
    ((selected ccfg.cores w2.numCores).drop (1 - 1 + 1))
    ⟨1, 1 - 1, [p2 0] ++ parentPids p2 ((selected ccfg.cores w2.numCores).take (1 - 1)) 1,
      false, false⟩
    ((selected ccfg.cores w2.numCores).getD (1 - 1) 0) e hd2 rfl rfl
    (by simpa using hce2) (by simpa using hcc2) hmr2 (by simpa using hme2)
  refine ⟨⟨?_, ?_⟩, ?_, ?_⟩
  · rw [hrun, hchild]
  · rw [hrun, hchild]
    dsimp only
    have hsplit :
        (openOutFile w1 cfg.stdoutFile).1 ++ (openOutFile w1 cfg.stderrFile).1 ++
            parentTrace p1 ((selected cfg.cores w1.numCores).take j) 0 ++
            ([Event.preFork, Event.postFork true,
                Event.sleep ((j + 1) * cfg.launchDelay)] ++
              (childRedirect env.debugOutput cfg.stdoutFile cfg.stderrFile true).1 ++
              [Event.buildClientEndpoint ((selected cfg.cores w1.numCores).getD j 0),
                Event.runClientCb ((selected cfg.cores w1.numCores).getD j 0)]) =
          ((openOutFile w1 cfg.stdoutFile).1 ++ (openOutFile w1 cfg.stderrFile).1 ++
            parentTrace p1 ((selected cfg.cores w1.numCores).take j) 0 ++
            ([Event.preFork, Event.postFork true,
                Event.sleep ((j + 1) * cfg.launchDelay)] ++
              (childRedirect env.debugOutput cfg.stdoutFile cfg.stderrFile true).1 ++
              [Event.buildClientEndpoint ((selected cfg.cores w1.numCores).getD j 0)])) ++
            [Event.runClientCb ((selected cfg.cores w1.numCores).getD j 0)] := by
      simp [List.append_assoc]
    rw [hsplit]
    refine afterEvent_concat_self _ _ ?_
    intro hm
    simp only [List.mem_append] at hm
    rcases hm with (((h | h) | h) | (h | h) | h)
    · exact not_mem_openOutFile_of_ne w1 cfg.stdoutFile (fun g => by simp) h
    · exact not_mem_openOutFile_of_ne w1 cfg.stderrFile (fun g => by simp) h
    · exact not_mem_parentTrace_of_ne p1 _ 0 (by simp) (by simp)
        (fun pid c => by simp) h
    · simp at h
    · exact not_mem_childRedirect_of_not_setup env.debugOutput cfg.stdoutFile
        cfg.stderrFile true (by rfl) h
    · simp at h
  · rw [hcrun, hcarm, cenAssemble_inr]
  · rw [hcrun, hcarm, cenAssemble_inr]
    dsimp only
    have hsplit :
        (openOutFile w2 ccfg.stdoutFile).1 ++ (openOutFile w2 ccfg.stderrFile).1 ++
            ([Event.preFork, Event.forkCentralBroker (p2 0), Event.postFork false,
              Event.sleep 10] ++
              parentTrace p2 ((selected ccfg.cores w2.numCores).take (1 - 1)) 1) ++
            ([Event.preFork, Event.postFork true, Event.sleep (1 * ccfg.launchDelay)] ++
              (childRedirect env.debugOutput ccfg.stdoutFile ccfg.stderrFile true).1 ++
              [Event.buildClientEndpoint ((selected ccfg.cores w2.numCores).getD (1 - 1) 0),
                Event.buildCentralClient ((selected ccfg.cores w2.numCores).getD (1 - 1) 0)
                  true,
                Event.runMainCb ((selected ccfg.cores w2.numCores).getD (1 - 1) 0)]) =
          ((openOutFile w2 ccfg.stdoutFile).1 ++ (openOutFile w2 ccfg.stderrFile).1 ++
            ([Event.preFork, Event.forkCentralBroker (p2 0), Event.postFork false,
              Event.sleep 10] ++
              parentTrace p2 ((selected ccfg.cores w2.numCores).take (1 - 1)) 1) ++
            ([Event.preFork, Event.postFork true, Event.sleep (1 * ccfg.launchDelay)] ++
              (childRedirect env.debugOutput ccfg.stdoutFile ccfg.stderrFile true).1 ++
              [Event.buildClientEndpoint ((selected ccfg.cores w2.numCores).getD (1 - 1) 0),
                Event.buildCentralClient ((selected ccfg.cores w2.numCores).getD (1 - 1) 0)
                  true])) ++
            [Event.runMainCb ((selected ccfg.cores w2.numCores).getD (1 - 1) 0)] := by
      simp [List.append_assoc]
    rw [hsplit]
    have h00 : (1 : Nat) - 1 = 0 := rfl
    rw [h00]
    refine afterEvent_concat_self _ _ ?_
    intro hm
    simp only [List.mem_append] at hm
    rcases hm with (((h | h) | (h | h)) | ((h | h) | h))
    · exact not_mem_openOutFile_of_ne w2 ccfg.stdoutFile (fun g => by simp) h
    · exact not_mem_openOutFile_of_ne w2 ccfg.stderrFile (fun g => by simp) h
    · simp at h
    · exact not_mem_parentTrace_of_ne p2 _ 1 (by simp) (by simp)
        (fun pid c => by simp) h
    · simp at h
    · exact not_mem_childRedirect_of_not_setup env.debugOutput ccfg.stdoutFile
        ccfg.stderrFile true (by rfl) h
    · simp at h

/-- Centralized child world whose main callback fails. -/
def wMainErr : World :=
  { wChildAt 1 with mainErr := fun _ => some (Err.reported 7) }

theorem c6_amended_witness :
    ((launchWithHooksFork cfgW envOrch (wChildAt 1)).2 =
        (match (wChildAt 1).runClientErr
            ((selected cfgW.cores (wChildAt 1).numCores).getD 1 0) with
          | none => Outcome.ok
          | some e' => Outcome.err e') ∧
      afterEvent (Event.runClientCb ((selected cfgW.cores (wChildAt 1).numCores).getD 1 0))
        (launchWithHooksFork cfgW envOrch (wChildAt 1)).1 = []) ∧
    ((launchGeneric ccfgW envOrch wMainErr).2 = Outcome.err (Err.reported 7) ∧
      afterEvent (Event.runMainCb ((selected ccfgW.cores wMainErr.numCores).getD 0 0))
        (launchGeneric ccfgW envOrch wMainErr).1 = []) :=
  c6_amended cfgW ccfgW envOrch (wChildAt 1) wMainErr
    (fun n => 100 + n) (fun n => 100 + n) 1 (Err.reported 7)
    (by decide) rfl rfl (fun _ => rfl)
    ⟨rfl, fun n hn => by simp [wChildAt, wBenign, hn]⟩ (by decide) rfl rfl
    (by decide) rfl rfl (fun _ => rfl)
    ⟨rfl, fun n hn => by simp [wMainErr, wChildAt, wBenign, hn]⟩ (by decide) rfl
    rfl rfl rfl rfl

/-! ### C4: endpoint counts and the broker quota -/

theorem filterMap_childRedirect_eq_nil {α : Type} (debug : Bool) (so se : Option String)
    (d2 : Bool) (f : Event → Option α)
    (h : ∀ e, isSetupEvent e = true → f e = none) :
    ((childRedirect debug so se d2).1).filterMap f = [] := by
  rw [List.filterMap_eq_nil_iff]
  intro e he
  exact h e (List.all_eq_true.mp (childRedirect_setup debug so se d2) e he)

theorem clientEndpoints_childRedirect (debug : Bool) (so se : Option String) (d2 : Bool) :
    clientEndpoints ((childRedirect debug so se d2).1) = [] :=
  filterMap_childRedirect_eq_nil debug so se d2 _
    (fun e he => by cases e <;> first | rfl | simp [isSetupEvent] at he)

theorem brokerQuotas_childRedirect (debug : Bool) (so se : Option String) (d2 : Bool) :
    brokerQuotas ((childRedirect debug so se d2).1) = [] :=
  filterMap_childRedirect_eq_nil debug so se d2 _
    (fun e he => by cases e <;> first | rfl | simp [isSetupEvent] at he)

theorem brokerQuotas_reexecKillAll (w : World) (hs : List Nat) :
    brokerQuotas ((reexecKillAll w hs).1) = [] := by
  simp only [brokerQuotas]
  rw [List.filterMap_eq_nil_iff]
  intro e he
  have hk := List.all_eq_true.mp (reexecKillAll_events w hs) e he
  cases e <;> first | rfl | simp [isKillEvent] at hk

theorem brokerQuotas_reexecTail_true (cfg : Config) (w : World) (hs : List Nat)
    (hne : cfg.cores.isEmpty = false) (hsb : cfg.spawnBroker = true) :
    brokerQuotas (reexecTail cfg w hs) = [cfg.cores.length] := by
  unfold reexecTail
  rw [if_neg (by simp [hne]), if_pos hsb]
  cases hbe : w.brokerErr
  · have h1 : Event.buildBrokerEndpoint cfg.cores.length :: (reexecKillAll w hs).1 =
        [Event.buildBrokerEndpoint cfg.cores.length] ++ (reexecKillAll w hs).1 := rfl
    rw [h1, brokerQuotas_append, brokerQuotas_reexecKillAll]
    rfl
  · rfl

/-- **C4, counterexample.**  The claim says a launch over a non-empty core
set with `spawn_broker = true` creates exactly one broker-role endpoint.
In the centralized launcher, the parent does build the one first-tier
broker endpoint — but a worker child whose callback returns `Ok` falls
through the `}?` of the fork-child arm and runs the broker branch as
well, so that same launch builds a second broker-role endpoint inside
the worker process. -/
theorem c4_counterexample :
    brokerQuotas (launchGeneric ccfgSolo envOrch wBenign).1 = [1] ∧
    brokerQuotas (launchGeneric ccfgSolo envOrch (wChildAt 1)).1 = [1] ∧
    clientEndpoints (launchGeneric ccfgSolo envOrch (wChildAt 1)).1 = [0] ∧
    (launchGeneric ccfgSolo envOrch (wChildAt 1)).2 = Outcome.ok :=
  ⟨rfl, rfl, rfl, rfl⟩

/-- **C4, amended.**  With `spawn_broker = true` over a non-empty,
duplicate-free core set whose ids are all available, the `Launcher` fork
and re-exec paths create exactly one broker-role endpoint — in the
parent, with auto-terminate quota `cores.len()` = N — and exactly one
client-role endpoint attempt in each of the N workers (and none in the
parent).  The centralized launcher's parent likewise builds exactly one
first-tier broker endpoint with quota N, and a worker builds exactly one
client endpoint attempt, but a worker whose callback returns `Ok` builds
a further broker-role endpoint (see the counterexample); the per-worker
statement below therefore assumes the callback does not return. -/
theorem c4_amended (cfg : Config) (ccfg : CenConfig) (env envC : Env)
    (w1 w2 w3 w4 w5 w6 : World) (p1 p2 p5 p6 : Nat → Nat) (j j2 k : Nat)
    (s : String) (e : Err)
    (hnd : cfg.cores.Nodup) (hndC : ccfg.cores.Nodup)
    (hne : cfg.cores ≠ []) (hcne : ccfg.cores ≠ [])
    (hrc : cfg.runClient = true) (hsb : cfg.spawnBroker = true)
    (hsbC : ccfg.spawnBroker = true) (hsc : ccfg.secondaryRunClient = true)
    (henv : env.launcherClient = EnvVal.notPresent)
    (henvC : envC.launcherClient = EnvVal.present s) (hps : parseUsize s = some k)
    (hb1 : ∀ c ∈ cfg.cores, c < w1.numCores)
    (hci1 : w1.coreIdsOk = true) (hf1 : filesOk w1) (hp1 : parentOracle w1 p1)
    (hci2 : w2.coreIdsOk = true) (hf2 : filesOk w2) (hc2 : childAtOracle w2 p2 j)
    (hj : j < (selected cfg.cores w2.numCores).length) (hd2 : w2.dup2Ok = true)
    (hce2 : w2.clientEndpointErr ((selected cfg.cores w2.numCores).getD j 0) = none)
    (hb3 : ∀ c ∈ cfg.cores, c < w3.numCores)
    (hci3 : w3.coreIdsOk = true) (hf3 : filesOk w3) (hd3 : w3.dup2Ok = true)
    (hsp3 : ∀ c ∈ selected cfg.cores w3.numCores, w3.spawnErr c = none)
    (hce4 : w4.clientEndpointErr k = none)
    (hb5 : ∀ c ∈ ccfg.cores, c < w5.numCores)
    (hci5 : w5.coreIdsOk = true) (hf5 : filesOk w5) (hp5 : parentOracle w5 p5)
    (hci6 : w6.coreIdsOk = true) (hf6 : filesOk w6) (hc6 : childAtOracle w6 p6 j2)
    (hj2a : 2 ≤ j2) (hj2 : j2 - 1 < (selected ccfg.cores w6.numCores).length)
    (hd6 : w6.dup2Ok = true)
    (hce6 : w6.clientEndpointErr ((selected ccfg.cores w6.numCores).getD (j2 - 1) 0) = none)
    (hcc6 : w6.centralClientBuildErr
      ((selected ccfg.cores w6.numCores).getD (j2 - 1) 0) = none)
    (hse6 : w6.secondaryErr ((selected ccfg.cores w6.numCores).getD (j2 - 1) 0) = some e) :
    (brokerQuotas (launchWithHooksFork cfg env w1).1 = [cfg.cores.length] ∧
      clientEndpoints (launchWithHooksFork cfg env w1).1 = [] ∧
      (spawnedWorkers (launchWithHooksFork cfg env w1).1).length = cfg.cores.length) ∧
    (clientEndpoints (launchWithHooksFork cfg env w2).1 =
        [(selected cfg.cores w2.numCores).getD j 0] ∧
      brokerQuotas (launchWithHooksFork cfg env w2).1 = []) ∧
    (brokerQuotas (launchWithHooksReexec cfg env w3).1 = [cfg.cores.length] ∧
      clientEndpoints (launchWithHooksReexec cfg env w3).1 = [] ∧
      (spawnedWorkers (launchWithHooksReexec cfg env w3).1).length = cfg.cores.length) ∧
    (clientEndpoints (launchWithHooksReexec cfg envC w4).1 = [k] ∧
      brokerQuotas (launchWithHooksReexec cfg envC w4).1 = []) ∧
    (brokerQuotas (launchGeneric ccfg env w5).1 = [ccfg.cores.length] ∧
      clientEndpoints (launchGeneric ccfg env w5).1 = [] ∧
      (spawnedWorkers (launchGeneric ccfg env w5).1).length = ccfg.cores.length) ∧
    (clientEndpoints (launchGeneric ccfg env w6).1 =
        [(selected ccfg.cores w6.numCores).getD (j2 - 1) 0] ∧
      brokerQuotas (launchGeneric ccfg env w6).1 = []) := by
  refine ⟨⟨?_, ?_, ?_⟩, ⟨?_, ?_⟩, ⟨?_, ?_, ?_⟩, ?_, ⟨?_, ?_, ?_⟩, ⟨?_, ?_⟩⟩
  · rw [launchFork_parent cfg env w1 p1 hne hrc hci1 hf1 hp1]
    dsimp only
    rw [hsb, brokerQuotas_append, brokerQuotas_append, brokerQuotas_append,
      brokerQuotas_openOutFile, brokerQuotas_openOutFile, brokerQuotas_parentTrace,
      brokerQuotas_libcTail_true]
    simp
  · rw [launchFork_parent cfg env w1 p1 hne hrc hci1 hf1 hp1]
    dsimp only
    rw [clientEndpoints_append, clientEndpoints_append, clientEndpoints_append,
      clientEndpoints_openOutFile, clientEndpoints_openOutFile,
      clientEndpoints_parentTrace, clientEndpoints_libcTail]
    simp
  · rw [launchFork_parent cfg env w1 p1 hne hrc hci1 hf1 hp1]
    dsimp only
    rw [spawnedWorkers_append, spawnedWorkers_append, spawnedWorkers_append,
      spawnedWorkers_openOutFile, spawnedWorkers_openOutFile,
      spawnedWorkers_parentTrace, spawnedWorkers_libcTail]
    simp only [List.nil_append, List.append_nil]
    exact selected_length cfg.cores w1.numCores hnd hb1
  · rw [launchFork_childAt cfg env w2 p2 j hne hrc hci2 hf2 hc2 hj,
      forkChildRun_good cfg env.debugOutput w2 (j + 1)
        ((selected cfg.cores w2.numCores).getD j 0) hd2 hce2 hrc]
    dsimp only
    simp only [clientEndpoints_append, clientEndpoints_openOutFile,
      clientEndpoints_parentTrace, clientEndpoints_childRedirect,
      List.nil_append, List.append_nil]
    simp [clientEndpoints]
  · rw [launchFork_childAt cfg env w2 p2 j hne hrc hci2 hf2 hc2 hj,
      forkChildRun_good cfg env.debugOutput w2 (j + 1)
        ((selected cfg.cores w2.numCores).getD j 0) hd2 hce2 hrc]
    dsimp only
    simp only [brokerQuotas_append, brokerQuotas_openOutFile,
      brokerQuotas_parentTrace, brokerQuotas_childRedirect,
      List.nil_append, List.append_nil]
    simp [brokerQuotas]
  · rw [launchReexec_parent cfg env w3 henv hci3 hf3 hd3 hsp3]
    dsimp only
    rw [brokerQuotas_append, brokerQuotas_append, brokerQuotas_reexecSelfRedirect,
      brokerQuotas_reexecTrace,
      brokerQuotas_reexecTail_true cfg w3 _ (List.isEmpty_eq_false.mpr hne) hsb]
    simp
  · rw [launchReexec_parent cfg env w3 henv hci3 hf3 hd3 hsp3]
    dsimp only
    rw [clientEndpoints_append, clientEndpoints_append,
      clientEndpoints_reexecSelfRedirect, clientEndpoints_reexecTrace,
      clientEndpoints_reexecTail]
    simp
  · rw [launchReexec_parent cfg env w3 henv hci3 hf3 hd3 hsp3]
    dsimp only
    rw [spawnedWorkers_append, spawnedWorkers_append,
      spawnedWorkers_reexecSelfRedirect, spawnedWorkers_reexecTrace,
      spawnedWorkers_reexecTail]
    simp only [List.nil_append, List.append_nil]
    exact selected_length cfg.cores w3.numCores hnd hb3
  · refine ⟨?_, ?_⟩ <;>
      simp [launchWithHooksReexec, henvC, hps, hce4, hrc, clientEndpoints, brokerQuotas]
  · rw [launchGeneric_parent ccfg env w5 p5 hcne hsc hci5 hf5 hp5]
    dsimp only
    rw [hsbC]
    simp only [brokerQuotas_append, brokerQuotas_openOutFile,
      brokerQuotas_parentTrace, brokerQuotas_libcTail_true,
      List.nil_append, List.append_nil]
    simp [brokerQuotas]
  · rw [launchGeneric_parent ccfg env w5 p5 hcne hsc hci5 hf5 hp5]
    dsimp only
    simp only [clientEndpoints_append, clientEndpoints_openOutFile,
      clientEndpoints_parentTrace, clientEndpoints_libcTail,
      List.nil_append, List.append_nil]
    simp [clientEndpoints]
  · rw [launchGeneric_parent ccfg env w5 p5 hcne hsc hci5 hf5 hp5]
    dsimp only
    simp only [spawnedWorkers_append, spawnedWorkers_openOutFile,
      spawnedWorkers_parentTrace, spawnedWorkers_libcTail,
      List.nil_append, List.append_nil]
    simp [spawnedWorkers]
    exact selected_length ccfg.cores w5.numCores hndC hb5
  · rw [launchGeneric_childAt ccfg env w6 p6 j2 hcne hsc hci6 hf6 hc6 (by omega) hj2,
      cenChildArm_sec_err ccfg env.debugOutput w6
        ((selected ccfg.cores w6.numCores).drop (j2 - 1 + 1))
        ⟨j2, j2 - 1,
          [p6 0] ++ parentPids p6 ((selected ccfg.cores w6.numCores).take (j2 - 1)) 1,
          false, false⟩
        ((selected ccfg.cores w6.numCores).getD (j2 - 1) 0) e hd6
        (show j2 - 1 ≠ 0 by omega) rfl hce6 hcc6 hsc hse6,
      cenAssemble_inr]
    dsimp only
    simp only [clientEndpoints_append, clientEndpoints_openOutFile,
      clientEndpoints_parentTrace, clientEndpoints_childRedirect,
      List.nil_append, List.append_nil]
    simp [clientEndpoints]
  · rw [launchGeneric_childAt ccfg env w6 p6 j2 hcne hsc hci6 hf6 hc6 (by omega) hj2,
      cenChildArm_sec_err ccfg env.debugOutput w6
        ((selected ccfg.cores w6.numCores).drop (j2 - 1 + 1))
        ⟨j2, j2 - 1,
          [p6 0] ++ parentPids p6 ((selected ccfg.cores w6.numCores).take (j2 - 1)) 1,
          false, false⟩
        ((selected ccfg.cores w6.numCores).getD (j2 - 1) 0) e hd6
        (show j2 - 1 ≠ 0 by omega) rfl hce6 hcc6 hsc hse6,
      cenAssemble_inr]
    dsimp only
    simp only [brokerQuotas_append, brokerQuotas_openOutFile,
      brokerQuotas_parentTrace, brokerQuotas_childRedirect,
      List.nil_append, List.append_nil]
    simp [brokerQuotas]

/-- Centralized child world (fork call 2) whose secondary callback fails. -/
def wSecErr : World :=
  { wChildAt 2 with secondaryErr := fun _ => some (Err.reported 9) }

theorem c4_amended_witness :
    (brokerQuotas (launchWithHooksFork cfgW envOrch wBenign).1 = [cfgW.cores.length] ∧
      clientEndpoints (launchWithHooksFork cfgW envOrch wBenign).1 = [] ∧
      (spawnedWorkers (launchWithHooksFork cfgW envOrch wBenign).1).length =
        cfgW.cores.length) ∧
    (clientEndpoints (launchWithHooksFork cfgW envOrch (wChildAt 1)).1 =
        [(selected cfgW.cores (wChildAt 1).numCores).getD 1 0] ∧
      brokerQuotas (launchWithHooksFork cfgW envOrch (wChildAt 1)).1 = []) ∧
    (brokerQuotas (launchWithHooksReexec cfgW envOrch wBenign).1 = [cfgW.cores.length] ∧
      clientEndpoints (launchWithHooksReexec cfgW envOrch wBenign).1 = [] ∧
      (spawnedWorkers (launchWithHooksReexec cfgW envOrch wBenign).1).length =
        cfgW.cores.length) ∧
    (clientEndpoints (launchWithHooksReexec cfgW envMarker2 wBenign).1 = [2] ∧
      brokerQuotas (launchWithHooksReexec cfgW envMarker2 wBenign).1 = []) ∧
    (brokerQuotas (launchGeneric ccfgW envOrch wBenign).1 = [ccfgW.cores.length] ∧
      clientEndpoints (launchGeneric ccfgW envOrch wBenign).1 = [] ∧
      (spawnedWorkers (launchGeneric ccfgW envOrch wBenign).1).length =
        ccfgW.cores.length) ∧
    (clientEndpoints (launchGeneric ccfgW envOrch wSecErr).1 =
        [(selected ccfgW.cores wSecErr.numCores).getD (2 - 1) 0] ∧
      brokerQuotas (launchGeneric ccfgW envOrch wSecErr).1 = []) :=
  c4_amended cfgW ccfgW envOrch envMarker2 wBenign (wChildAt 1) wBenign wBenign wBenign
    wSecErr (fun n => 100 + n) (fun n => 100 + n) (fun n => 100 + n) (fun n => 100 + n)
    1 2 2 "2" (Err.reported 9)
    (by decide) (by decide) (by decide) (by decide) rfl rfl rfl rfl rfl rfl (by decide)
    (by decide) rfl (fun _ => rfl) (fun _ => rfl)
    rfl (fun _ => rfl) ⟨rfl, fun n hn => by simp [wChildAt, wBenign, hn]⟩ (by decide)
    rfl rfl
    (by decide) rfl (fun _ => rfl) rfl (fun _ _ => rfl)
    rfl
    (by decide) rfl (fun _ => rfl) (fun _ => rfl)
    rfl (fun _ => rfl) ⟨rfl, fun n hn => by simp [wSecErr, wChildAt, wBenign, hn]⟩
    (by decide) (by decide) rfl rfl rfl rfl

/-! ### C8: two-tier topology and worker classification -/

theorem centralClientBuilds_childRedirect (debug : Bool) (so se : Option String)
    (d2 : Bool) : centralClientBuilds ((childRedirect debug so se d2).1) = [] :=
  filterMap_childRedirect_eq_nil debug so se d2 _
    (fun e he => by cases e <;> first | rfl | simp [isSetupEvent] at he)

theorem mainCbs_childRedirect (debug : Bool) (so se : Option String) (d2 : Bool) :
    mainCbs ((childRedirect debug so se d2).1) = [] :=
  filterMap_childRedirect_eq_nil debug so se d2 _
    (fun e he => by cases e <;> first | rfl | simp [isSetupEvent] at he)

theorem secondaryCbs_childRedirect (debug : Bool) (so se : Option String) (d2 : Bool) :
    secondaryCbs ((childRedirect debug so se d2).1) = [] :=
  filterMap_childRedirect_eq_nil debug so se d2 _
    (fun e he => by cases e <;> first | rfl | simp [isSetupEvent] at he)

theorem spawnedWorkers_childRedirect (debug : Bool) (so se : Option String) (d2 : Bool) :
    spawnedWorkers ((childRedirect debug so se d2).1) = [] :=
  filterMap_childRedirect_eq_nil debug so se d2 _
    (fun e he => by cases e <;> first | rfl | simp [isSetupEvent] at he)

theorem centralBrokerForks_childRedirect (debug : Bool) (so se : Option String)
    (d2 : Bool) : centralBrokerForks ((childRedirect debug so se d2).1) = [] :=
  filterMap_childRedirect_eq_nil debug so se d2 _
    (fun e he => by cases e <;> first | rfl | simp [isSetupEvent] at he)

theorem centralBrokerBuilds_childRedirect (debug : Bool) (so se : Option String)
    (d2 : Bool) : centralBrokerBuilds ((childRedirect debug so se d2).1) = [] :=
  filterMap_childRedirect_eq_nil debug so se d2 _
    (fun e he => by cases e <;> first | rfl | simp [isSetupEvent] at he)

/-- **C8, counterexample.**  The claim says the centralized launch has
exactly one centralized-broker process and one first-tier broker besides
the N workers.  For core set `{1, 3}`, the main worker (fork call 1)
whose callback returns `Ok` falls through the `}?` into the rest of the
spawn loop inside the worker process: it forks a duplicate worker for
core 3 and then builds a second first-tier broker endpoint, so the
launch has N + 1 worker processes and two first-tier brokers. -/
theorem c8_counterexample :
    mainCbs (launchGeneric ccfgW envOrch (wChildAt 1)).1 = [1] ∧
    spawnedWorkers (launchGeneric ccfgW envOrch (wChildAt 1)).1 = [3] ∧
    brokerQuotas (launchGeneric ccfgW envOrch (wChildAt 1)).1 = [2] ∧
    (launchGeneric ccfgW envOrch (wChildAt 1)).2 = Outcome.ok :=
  ⟨rfl, rfl, rfl, rfl⟩

/-- **C8, amended.**  In the centralized launch over a non-empty,
duplicate-free, in-range core set: the parent forks exactly one
centralized-broker process, then exactly one worker per selected core (N
of them, in order) and builds exactly one first-tier broker endpoint,
invoking no client callback itself; the forked centralized-broker child
builds the centralized broker on the configured port and leaves with the
shutting-down error, spawning nothing; the worker of fork call 1 builds
its centralized adapter with `is_main = true` and runs the main
callback, the worker of any later fork call builds it with
`is_main = false` and runs the secondary callback.  A worker's run shows
only the spawns performed by its ancestor line before its own fork, and
it builds no broker endpoint itself — but only as long as its callback
does not return `Ok` (counterexample above); the per-worker conjuncts
below therefore use failing callbacks. -/
theorem c8_amended (ccfg : CenConfig) (env : Env) (wA wB wC wD : World)
    (pA pC pD : Nat → Nat) (j2 : Nat) (e1 e2 : Err)
    (hndC : ccfg.cores.Nodup) (hcne : ccfg.cores ≠ [])
    (hsbC : ccfg.spawnBroker = true) (hsc : ccfg.secondaryRunClient = true)
    (hmr : ccfg.mainRunClient = true)
    (hbA : ∀ c ∈ ccfg.cores, c < wA.numCores)
    (hciA : wA.coreIdsOk = true) (hfA : filesOk wA) (hpA : parentOracle wA pA)
    (hciB : wB.coreIdsOk = true) (hfB : filesOk wB)
    (h0B : wB.forkRes 0 = ForkRes.child) (hbB : wB.centralBrokerBuildErr = none)
    (hciC : wC.coreIdsOk = true) (hfC : filesOk wC) (hcC : childAtOracle wC pC 1)
    (hkC : 0 < (selected ccfg.cores wC.numCores).length) (hdC : wC.dup2Ok = true)
    (hceC : wC.clientEndpointErr ((selected ccfg.cores wC.numCores).getD 0 0) = none)
    (hccC : wC.centralClientBuildErr ((selected ccfg.cores wC.numCores).getD 0 0) = none)
    (hmeC : wC.mainErr ((selected ccfg.cores wC.numCores).getD 0 0) = some e1)
    (hciD : wD.coreIdsOk = true) (hfD : filesOk wD) (hcD : childAtOracle wD pD j2)
    (hj2a : 2 ≤ j2) (hj2 : j2 - 1 < (selected ccfg.cores wD.numCores).length)
    (hdD : wD.dup2Ok = true)
    (hceD : wD.clientEndpointErr ((selected ccfg.cores wD.numCores).getD (j2 - 1) 0) = none)
    (hccD : wD.centralClientBuildErr
      ((selected ccfg.cores wD.numCores).getD (j2 - 1) 0) = none)
    (hseD : wD.secondaryErr ((selected ccfg.cores wD.numCores).getD (j2 - 1) 0) = some e2) :
    (centralBrokerForks (launchGeneric ccfg env wA).1 = [pA 0] ∧
      spawnedWorkers (launchGeneric ccfg env wA).1 = selected ccfg.cores wA.numCores ∧
      (selected ccfg.cores wA.numCores).length = ccfg.cores.length ∧
      brokerQuotas (launchGeneric ccfg env wA).1 = [ccfg.cores.length] ∧
      mainCbs (launchGeneric ccfg env wA).1 = [] ∧
      secondaryCbs (launchGeneric ccfg env wA).1 = []) ∧
    (centralBrokerBuilds (launchGeneric ccfg env wB).1 = [ccfg.centralizedBrokerPort] ∧
      spawnedWorkers (launchGeneric ccfg env wB).1 = [] ∧
      (launchGeneric ccfg env wB).2 = Outcome.err Err.shuttingDown) ∧
    (centralClientBuilds (launchGeneric ccfg env wC).1 =
        [((selected ccfg.cores wC.numCores).getD 0 0, true)] ∧
      mainCbs (launchGeneric ccfg env wC).1 =
        [(selected ccfg.cores wC.numCores).getD 0 0] ∧
      secondaryCbs (launchGeneric ccfg env wC).1 = [] ∧
      spawnedWorkers (launchGeneric ccfg env wC).1 = [] ∧
      brokerQuotas (launchGeneric ccfg env wC).1 = []) ∧
    (centralClientBuilds (launchGeneric ccfg env wD).1 =
        [((selected ccfg.cores wD.numCores).getD (j2 - 1) 0, false)] ∧
      secondaryCbs (launchGeneric ccfg env wD).1 =
        [(selected ccfg.cores wD.numCores).getD (j2 - 1) 0] ∧
      mainCbs (launchGeneric ccfg env wD).1 = [] ∧
      spawnedWorkers (launchGeneric ccfg env wD).1 =
        (selected ccfg.cores wD.numCores).take (j2 - 1) ∧
      brokerQuotas (launchGeneric ccfg env wD).1 = []) := by
  have hC := launchGeneric_childAt ccfg env wC pC 1 hcne hsc hciC hfC hcC
    (Nat.le_refl 1) (by simpa using hkC)
  have hCarm := cenChildArm_main_err ccfg env.debugOutput wC
    ((selected ccfg.cores wC.numCores).drop (1 - 1 + 1))
    ⟨1, 1 - 1, [pC 0] ++ parentPids pC ((selected ccfg.cores wC.numCores).take (1 - 1)) 1,
      false, false⟩
    ((selected ccfg.cores wC.numCores).getD (1 - 1) 0) e1 hdC rfl rfl
    (by simpa using hceC) (by simpa using hccC) hmr (by simpa using hmeC)
  rw [hCarm, cenAssemble_inr] at hC
  have hD := launchGeneric_childAt ccfg env wD pD j2 hcne hsc hciD hfD hcD
    (by omega) hj2
  have hDarm := cenChildArm_sec_err ccfg env.debugOutput wD
    ((selected ccfg.cores wD.numCores).drop (j2 - 1 + 1))
    ⟨j2, j2 - 1,
      [pD 0] ++ parentPids pD ((selected ccfg.cores wD.numCores).take (j2 - 1)) 1,
      false, false⟩
    ((selected ccfg.cores wD.numCores).getD (j2 - 1) 0) e2 hdD
    (show j2 - 1 ≠ 0 by omega) rfl hceD hccD hsc hseD
  rw [hDarm, cenAssemble_inr] at hD
  refine ⟨⟨?_, ?_, ?_, ?_, ?_, ?_⟩, ⟨?_, ?_, ?_⟩, ⟨?_, ?_, ?_, ?_, ?_⟩,
    ?_, ?_, ?_, ?_, ?_⟩
  · rw [launchGeneric_parent ccfg env wA pA hcne hsc hciA hfA hpA]
    dsimp only
    simp only [centralBrokerForks_append, centralBrokerForks_openOutFile,
      centralBrokerForks_parentTrace, centralBrokerForks_libcTail,
      List.nil_append, List.append_nil]
    simp [centralBrokerForks]
  · rw [launchGeneric_parent ccfg env wA pA hcne hsc hciA hfA hpA]
    dsimp only
    simp only [spawnedWorkers_append, spawnedWorkers_openOutFile,
      spawnedWorkers_parentTrace, spawnedWorkers_libcTail,
      List.nil_append, List.append_nil]
    simp [spawnedWorkers]
  · exact selected_length ccfg.cores wA.numCores hndC hbA
  · rw [launchGeneric_parent ccfg env wA pA hcne hsc hciA hfA hpA]
    dsimp only
    rw [hsbC]
    simp only [brokerQuotas_append, brokerQuotas_openOutFile,
      brokerQuotas_parentTrace, brokerQuotas_libcTail_true,
      List.nil_append, List.append_nil]
    simp [brokerQuotas]
  · rw [launchGeneric_parent ccfg env wA pA hcne hsc hciA hfA hpA]
    dsimp only
    simp only [mainCbs_append, mainCbs_openOutFile, mainCbs_parentTrace,
      mainCbs_libcTail, List.nil_append, List.append_nil]
    simp [mainCbs]
  · rw [launchGeneric_parent ccfg env wA pA hcne hsc hciA hfA hpA]
    dsimp only
    simp only [secondaryCbs_append, secondaryCbs_openOutFile, secondaryCbs_parentTrace,
      secondaryCbs_libcTail, List.nil_append, List.append_nil]
    simp [secondaryCbs]
  · rw [launchGeneric_centralBrokerChild ccfg env wB hcne hsc hciB hfB h0B hbB]
    dsimp only
    simp only [centralBrokerBuilds_append, centralBrokerBuilds_openOutFile,
      List.nil_append]
    simp [centralBrokerBuilds]
  · rw [launchGeneric_centralBrokerChild ccfg env wB hcne hsc hciB hfB h0B hbB]
    dsimp only
    simp only [spawnedWorkers_append, spawnedWorkers_openOutFile, List.nil_append]
    simp [spawnedWorkers]
  · rw [launchGeneric_centralBrokerChild ccfg env wB hcne hsc hciB hfB h0B hbB]
  · rw [hC]
    dsimp only
    simp only [centralClientBuilds_append, centralClientBuilds_openOutFile,
      centralClientBuilds_parentTrace, centralClientBuilds_childRedirect,
      List.nil_append, List.append_nil]
    simp [centralClientBuilds]
  · rw [hC]
    dsimp only
    simp only [mainCbs_append, mainCbs_openOutFile, mainCbs_parentTrace,
      mainCbs_childRedirect, List.nil_append, List.append_nil]
    simp [mainCbs]
  · rw [hC]
    dsimp only
    simp only [secondaryCbs_append, secondaryCbs_openOutFile, secondaryCbs_parentTrace,
      secondaryCbs_childRedirect, List.nil_append, List.append_nil]
    simp [secondaryCbs]
  · rw [hC]
    dsimp only
    simp only [spawnedWorkers_append, spawnedWorkers_openOutFile,
      spawnedWorkers_parentTrace, spawnedWorkers_childRedirect,
      List.nil_append, List.append_nil]
    simp [spawnedWorkers]
  · rw [hC]
    dsimp only
    simp only [brokerQuotas_append, brokerQuotas_openOutFile,
      brokerQuotas_parentTrace, brokerQuotas_childRedirect,
      List.nil_append, List.append_nil]
    simp [brokerQuotas]
  · rw [hD]
    dsimp only
    simp only [centralClientBuilds_append, centralClientBuilds_openOutFile,
      centralClientBuilds_parentTrace, centralClientBuilds_childRedirect,
      List.nil_append, List.append_nil]
    simp [centralClientBuilds]
  · rw [hD]
    dsimp only
    simp only [secondaryCbs_append, secondaryCbs_openOutFile, secondaryCbs_parentTrace,
      secondaryCbs_childRedirect, List.nil_append, List.append_nil]
    simp [secondaryCbs]
  · rw [hD]
    dsimp only
    simp only [mainCbs_append, mainCbs_openOutFile, mainCbs_parentTrace,
      mainCbs_childRedirect, List.nil_append, List.append_nil]
    simp [mainCbs]
  · rw [hD]
    dsimp only
    simp only [spawnedWorkers_append, spawnedWorkers_openOutFile,
      spawnedWorkers_parentTrace, spawnedWorkers_childRedirect,
      List.nil_append, List.append_nil]
    simp [spawnedWorkers]
  · rw [hD]
    dsimp only
    simp only [brokerQuotas_append, brokerQuotas_openOutFile,
      brokerQuotas_parentTrace, brokerQuotas_childRedirect,
      List.nil_append, List.append_nil]
    simp [brokerQuotas]

/-- World in which the very first fork lands this process in the
centralized-broker role. -/
def wCenBroker : World :=
  { wBenign with forkRes := fun _ => ForkRes.child }

theorem c8_amended_witness :
    (centralBrokerForks (launchGeneric ccfgW envOrch wBenign).1 = [100] ∧
      spawnedWorkers (launchGeneric ccfgW envOrch wBenign).1 =
        selected ccfgW.cores wBenign.numCores ∧
      (selected ccfgW.cores wBenign.numCores).length = ccfgW.cores.length ∧
      brokerQuotas (launchGeneric ccfgW envOrch wBenign).1 = [ccfgW.cores.length] ∧
      mainCbs (launchGeneric ccfgW envOrch wBenign).1 = [] ∧
      secondaryCbs (launchGeneric ccfgW envOrch wBenign).1 = []) ∧
    (centralBrokerBuilds (launchGeneric ccfgW envOrch wCenBroker).1 =
        [ccfgW.centralizedBrokerPort] ∧
      spawnedWorkers (launchGeneric ccfgW envOrch wCenBroker).1 = [] ∧
      (launchGeneric ccfgW envOrch wCenBroker).2 = Outcome.err Err.shuttingDown) ∧
    (centralClientBuilds (launchGeneric ccfgW envOrch wMainErr).1 =
        [((selected ccfgW.cores wMainErr.numCores).getD 0 0, true)] ∧
      mainCbs (launchGeneric ccfgW envOrch wMainErr).1 =
        [(selected ccfgW.cores wMainErr.numCores).getD 0 0] ∧
      secondaryCbs (launchGeneric ccfgW envOrch wMainErr).1 = [] ∧
      spawnedWorkers (launchGeneric ccfgW envOrch wMainErr).1 = [] ∧
      brokerQuotas (launchGeneric ccfgW envOrch wMainErr).1 = []) ∧
    (centralClientBuilds (launchGeneric ccfgW envOrch wSecErr).1 =
        [((selected ccfgW.cores wSecErr.numCores).getD (2 - 1) 0, false)] ∧
      secondaryCbs (launchGeneric ccfgW envOrch wSecErr).1 =
        [(selected ccfgW.cores wSecErr.numCores).getD (2 - 1) 0] ∧
      mainCbs (launchGeneric ccfgW envOrch wSecErr).1 = [] ∧
      spawnedWorkers (launchGeneric ccfgW envOrch wSecErr).1 =
        (selected ccfgW.cores wSecErr.numCores).take (2 - 1) ∧
      brokerQuotas (launchGeneric ccfgW envOrch wSecErr).1 = []) :=
  c8_amended ccfgW envOrch wBenign wCenBroker wMainErr wSecErr
    (fun n => 100 + n) (fun n => 100 + n) (fun n => 100 + n) 2
    (Err.reported 7) (Err.reported 9)
    (by decide) (by decide) rfl rfl rfl
    (by decide) rfl (fun _ => rfl) (fun _ => rfl)
    rfl (fun _ => rfl) rfl rfl
    rfl (fun _ => rfl) ⟨rfl, fun n hn => by simp [wMainErr, wChildAt, wBenign, hn]⟩
    (by decide) rfl rfl rfl rfl
    rfl (fun _ => rfl) ⟨rfl, fun n hn => by simp [wSecErr, wChildAt, wBenign, hn]⟩
    (by decide) (by decide) rfl rfl rfl rfl

/-! ### C9: launching without a broker -/

theorem brokerQuotas_forkWaitAll (w : World) (hs : List Nat) :
    brokerQuotas (forkWaitAll w hs) = [] :=
  filterMap_forkWaitAll_eq_nil w _ (fun _ _ => rfl) (fun _ => rfl) hs

theorem loggedBadExits_libcTail_false (quota : Nat) (w : World) (hs : List Nat) :
    loggedBadExits (libcTail false quota w hs) =
      hs.filter (fun pid => decide (w.waitStatus pid ≠ 0)) := by
  rw [libcTail_false]
  exact loggedBadExits_forkWaitAll w hs

theorem filterMap_reexecWaitAll_eq_nil {α : Type} (w : World) (hs : List Nat)
    (f : Event → Option α) (h : ∀ e, isWaitEvent e = true → f e = none) :
    ((reexecWaitAll w hs).1).filterMap f = [] := by
  rw [List.filterMap_eq_nil_iff]
  intro e he
  exact h e (List.all_eq_true.mp (reexecWaitAll_events w hs) e he)

theorem brokerQuotas_reexecWaitAll (w : World) (hs : List Nat) :
    brokerQuotas ((reexecWaitAll w hs).1) = [] := by
  simp only [brokerQuotas]
  exact filterMap_reexecWaitAll_eq_nil w hs _
    (fun e he => by cases e <;> first | rfl | simp [isWaitEvent] at he)

theorem kills_reexecWaitAll (w : World) (hs : List Nat) :
    kills ((reexecWaitAll w hs).1) = [] := by
  simp only [kills]
  exact filterMap_reexecWaitAll_eq_nil w hs _
    (fun e he => by cases e <;> first | rfl | simp [isWaitEvent] at he)

theorem reexecTail_false (cfg : Config) (w : World) (hs : List Nat)
    (hne : cfg.cores.isEmpty = false) (hsb : cfg.spawnBroker = false) :
    reexecTail cfg w hs = (reexecWaitAll w hs).1 := by
  unfold reexecTail
  rw [if_neg (by simp [hne]), if_neg (by simp [hsb])]

theorem reexecTailOut_false (cfg : Config) (w : World) (hs : List Nat)
    (hne : cfg.cores.isEmpty = false) (hsb : cfg.spawnBroker = false) :
    reexecTailOut cfg w hs = (reexecWaitAll w hs).2 := by
  unfold reexecTailOut
  rw [if_neg (by simp [hne]), if_neg (by simp [hsb])]

/-- **C9.**  With `spawn_broker = false` the orchestrating parent of each
of the three launch paths builds no broker-role endpoint and sends no
kill signal; instead it waits on every recorded child handle in order —
the fork paths on the spawn-loop pids (the centralized path also on the
centralized-broker pid recorded first), the re-exec path on the spawned
children — logging exactly the handles whose exit status was non-zero
(fork paths) or unsuccessful (re-exec path), and returns `Ok`. -/
theorem c9_no_broker_no_kill (cfg : Config) (ccfg : CenConfig) (env : Env)
    (w1 w3 w5 : World) (p1 p5 : Nat → Nat)
    (hne : cfg.cores ≠ []) (hrc : cfg.runClient = true) (hsb : cfg.spawnBroker = false)
    (hcne : ccfg.cores ≠ []) (hsc : ccfg.secondaryRunClient = true)
    (hsbC : ccfg.spawnBroker = false)
    (henv : env.launcherClient = EnvVal.notPresent)
    (hci1 : w1.coreIdsOk = true) (hf1 : filesOk w1) (hp1 : parentOracle w1 p1)
    (hci3 : w3.coreIdsOk = true) (hf3 : filesOk w3) (hd3 : w3.dup2Ok = true)
    (hsp3 : ∀ c ∈ selected cfg.cores w3.numCores, w3.spawnErr c = none)
    (hwo3 : ∀ pid ∈ (selected cfg.cores w3.numCores).map w3.spawnPid,
      w3.waitOk pid = true)
    (hci5 : w5.coreIdsOk = true) (hf5 : filesOk w5) (hp5 : parentOracle w5 p5) :
    (brokerQuotas (launchWithHooksFork cfg env w1).1 = [] ∧
      kills (launchWithHooksFork cfg env w1).1 = [] ∧
      waitedPids (launchWithHooksFork cfg env w1).1 =
        parentPids p1 (selected cfg.cores w1.numCores) 0 ∧
      loggedBadExits (launchWithHooksFork cfg env w1).1 =
        (parentPids p1 (selected cfg.cores w1.numCores) 0).filter
          (fun pid => decide (w1.waitStatus pid ≠ 0)) ∧
      (launchWithHooksFork cfg env w1).2 = Outcome.ok) ∧
    (brokerQuotas (launchWithHooksReexec cfg env w3).1 = [] ∧
      kills (launchWithHooksReexec cfg env w3).1 = [] ∧
      waitedPids (launchWithHooksReexec cfg env w3).1 =
        (selected cfg.cores w3.numCores).map w3.spawnPid ∧
      loggedBadExits (launchWithHooksReexec cfg env w3).1 =
        ((selected cfg.cores w3.numCores).map w3.spawnPid).filter
          (fun pid => !w3.waitSuccess pid) ∧
      (launchWithHooksReexec cfg env w3).2 = Outcome.ok) ∧
    (brokerQuotas (launchGeneric ccfg env w5).1 = [] ∧
      kills (launchGeneric ccfg env w5).1 = [] ∧
      waitedPids (launchGeneric ccfg env w5).1 =
        p5 0 :: parentPids p5 (selected ccfg.cores w5.numCores) 1 ∧
      loggedBadExits (launchGeneric ccfg env w5).1 =
        (p5 0 :: parentPids p5 (selected ccfg.cores w5.numCores) 1).filter
          (fun pid => decide (w5.waitStatus pid ≠ 0)) ∧
      (launchGeneric ccfg env w5).2 = Outcome.ok) := by
  obtain ⟨hro, hrw, hrl, -⟩ := reexecWaitAll_ok w3
    ((selected cfg.cores w3.numCores).map w3.spawnPid) hwo3
  have htl3 := reexecTail_false cfg w3 ((selected cfg.cores w3.numCores).map w3.spawnPid)
    (List.isEmpty_eq_false.mpr hne) hsb
  have hto3 := reexecTailOut_false cfg w3
    ((selected cfg.cores w3.numCores).map w3.spawnPid)
    (List.isEmpty_eq_false.mpr hne) hsb
  refine ⟨⟨?_, ?_, ?_, ?_, ?_⟩, ⟨?_, ?_, ?_, ?_, ?_⟩, ?_, ?_, ?_, ?_, ?_⟩
  · rw [launchFork_parent cfg env w1 p1 hne hrc hci1 hf1 hp1]
    dsimp only
    rw [hsb, libcTail_false, brokerQuotas_append, brokerQuotas_append,
      brokerQuotas_append, brokerQuotas_openOutFile, brokerQuotas_openOutFile,
      brokerQuotas_parentTrace, brokerQuotas_forkWaitAll]
    simp
  · rw [launchFork_parent cfg env w1 p1 hne hrc hci1 hf1 hp1]
    dsimp only
    rw [hsb, kills_append, kills_append, kills_append, kills_openOutFile,
      kills_openOutFile, kills_parentTrace, kills_libcTail_false]
    simp
  · rw [launchFork_parent cfg env w1 p1 hne hrc hci1 hf1 hp1]
    dsimp only
    rw [hsb, waitedPids_append, waitedPids_append, waitedPids_append,
      waitedPids_openOutFile, waitedPids_openOutFile, waitedPids_parentTrace,
      waitedPids_libcTail_false]
    simp
  · rw [launchFork_parent cfg env w1 p1 hne hrc hci1 hf1 hp1]
    dsimp only
    rw [hsb, loggedBadExits_append, loggedBadExits_append, loggedBadExits_append,
      loggedBadExits_openOutFile, loggedBadExits_openOutFile,
      loggedBadExits_parentTrace, loggedBadExits_libcTail_false]
    simp
  · rw [launchFork_parent cfg env w1 p1 hne hrc hci1 hf1 hp1]
    dsimp only
    simp [libcTailOut, hsb]
  · rw [launchReexec_parent cfg env w3 henv hci3 hf3 hd3 hsp3]
    dsimp only
    rw [htl3, brokerQuotas_append, brokerQuotas_append,
      brokerQuotas_reexecSelfRedirect, brokerQuotas_reexecTrace,
      brokerQuotas_reexecWaitAll]
    simp
  · rw [launchReexec_parent cfg env w3 henv hci3 hf3 hd3 hsp3]
    dsimp only
    rw [htl3, kills_append, kills_append, kills_reexecSelfRedirect,
      kills_reexecTrace, kills_reexecWaitAll]
    simp
  · rw [launchReexec_parent cfg env w3 henv hci3 hf3 hd3 hsp3]
    dsimp only
    rw [htl3, waitedPids_append, waitedPids_append, waitedPids_reexecSelfRedirect,
      waitedPids_reexecTrace, hrw]
    simp
  · rw [launchReexec_parent cfg env w3 henv hci3 hf3 hd3 hsp3]
    dsimp only
    rw [htl3, loggedBadExits_append, loggedBadExits_append,
      loggedBadExits_reexecSelfRedirect, loggedBadExits_reexecTrace, hrl]
    simp
  · rw [launchReexec_parent cfg env w3 henv hci3 hf3 hd3 hsp3]
    dsimp only
    rw [hto3, hro]
  · rw [launchGeneric_parent ccfg env w5 p5 hcne hsc hci5 hf5 hp5]
    dsimp only
    rw [hsbC, libcTail_false]
    simp only [brokerQuotas_append, brokerQuotas_openOutFile,
      brokerQuotas_parentTrace, brokerQuotas_forkWaitAll,
      List.nil_append, List.append_nil]
    simp [brokerQuotas]
  · rw [launchGeneric_parent ccfg env w5 p5 hcne hsc hci5 hf5 hp5]
    dsimp only
    rw [hsbC]
    simp only [kills_append, kills_openOutFile, kills_parentTrace,
      kills_libcTail_false, List.nil_append, List.append_nil]
    simp [kills]
  · rw [launchGeneric_parent ccfg env w5 p5 hcne hsc hci5 hf5 hp5]
    dsimp only
    rw [hsbC]
    simp only [waitedPids_append, waitedPids_openOutFile, waitedPids_parentTrace,
      waitedPids_libcTail_false, List.nil_append, List.append_nil]
    simp [waitedPids]
  · rw [launchGeneric_parent ccfg env w5 p5 hcne hsc hci5 hf5 hp5]
    dsimp only
    rw [hsbC]
    simp only [loggedBadExits_append, loggedBadExits_openOutFile,
      loggedBadExits_parentTrace, loggedBadExits_libcTail_false,
      List.nil_append, List.append_nil]
    simp [loggedBadExits]
  · rw [launchGeneric_parent ccfg env w5 p5 hcne hsc hci5 hf5 hp5]
    dsimp only
    simp [libcTailOut, hsbC]

/-- Broker-less fork/re-exec configuration. -/
def cfgNB : Config :=
  { cfgW with spawnBroker := false }

/-- Broker-less centralized configuration. -/
def ccfgNB : CenConfig :=
  { ccfgW with spawnBroker := false }

theorem c9_witness :
    (brokerQuotas (launchWithHooksFork cfgNB envOrch wBenign).1 = [] ∧
      kills (launchWithHooksFork cfgNB envOrch wBenign).1 = [] ∧
      waitedPids (launchWithHooksFork cfgNB envOrch wBenign).1 =
        parentPids (fun n => 100 + n) (selected cfgNB.cores wBenign.numCores) 0 ∧
      loggedBadExits (launchWithHooksFork cfgNB envOrch wBenign).1 =
        (parentPids (fun n => 100 + n) (selected cfgNB.cores wBenign.numCores) 0).filter
          (fun pid => decide (wBenign.waitStatus pid ≠ 0)) ∧
      (launchWithHooksFork cfgNB envOrch wBenign).2 = Outcome.ok) ∧
    (brokerQuotas (launchWithHooksReexec cfgNB envOrch wBenign).1 = [] ∧
      kills (launchWithHooksReexec cfgNB envOrch wBenign).1 = [] ∧
      waitedPids (launchWithHooksReexec cfgNB envOrch wBenign).1 =
        (selected cfgNB.cores wBenign.numCores).map wBenign.spawnPid ∧
      loggedBadExits (launchWithHooksReexec cfgNB envOrch wBenign).1 =
        ((selected cfgNB.cores wBenign.numCores).map wBenign.spawnPid).filter
          (fun pid => !wBenign.waitSuccess pid) ∧
      (launchWithHooksReexec cfgNB envOrch wBenign).2 = Outcome.ok) ∧
    (brokerQuotas (launchGeneric ccfgNB envOrch wBenign).1 = [] ∧
      kills (launchGeneric ccfgNB envOrch wBenign).1 = [] ∧
      waitedPids (launchGeneric ccfgNB envOrch wBenign).1 =
        (fun n => 100 + n) 0 ::
          parentPids (fun n => 100 + n) (selected ccfgNB.cores wBenign.numCores) 1 ∧
      loggedBadExits (launchGeneric ccfgNB envOrch wBenign).1 =
        ((fun n => 100 + n) 0 ::
            parentPids (fun n => 100 + n) (selected ccfgNB.cores wBenign.numCores) 1).filter
          (fun pid => decide (wBenign.waitStatus pid ≠ 0)) ∧
      (launchGeneric ccfgNB envOrch wBenign).2 = Outcome.ok) :=
  c9_no_broker_no_kill cfgNB ccfgNB envOrch wBenign wBenign wBenign
    (fun n => 100 + n) (fun n => 100 + n)
    (by decide) rfl rfl (by decide) rfl rfl rfl
    rfl (fun _ => rfl) (fun _ => rfl)
    rfl (fun _ => rfl) rfl (fun _ _ => rfl) (fun _ _ => rfl)
    rfl (fun _ => rfl) (fun _ => rfl)

end LauncherModel
